import Mathlib

/-!
# BookTheMov payment functions: settlement, payout and refund handlers

A shallow embedding of `functions/index.js` (the Firebase cloud functions of the
booking platform) and theorems about the payout and refund logic.

Modelling conventions

* JavaScript numbers are rationals, extended with `NaN` and the two infinities.  The
  conversion of an amount to paise, `Math.round(x * 100)`, is computed as on IEEE doubles:
  the operand and the product are rounded to the nearest binary64 value, ties to even,
  before `Math.round`.  Differences and quotients that are only recorded are exact.
* A Firestore document is an association list from field names to values; the store maps
  a collection name and a document id to a document.
* Every handler runs in the `Js` monad: a function from the world (store and call log) to
  an outcome (a value or a thrown error) and the world after the run.  Effects made
  before a throw persist, as in JavaScript.
* The payment gateway, the credentials of the process environment and injected store
  faults are parameters collected in `Env`.
* `console.log` and `console.error` have no effect on the store or the gateway and are
  left out.  The `notes` objects attached to gateway calls are left out of the call log.
-/

namespace BookTheMov

/-! ## JavaScript values -/

/-- A JavaScript number: a finite rational, `NaN`, or a signed infinity. -/
inductive JsNum where
  | fin (q : ℚ)
  | nan
  | inf (negative : Bool)
  deriving DecidableEq, Repr

/-- A JavaScript value as stored in documents and passed to the handlers.  `arr` is an
array of strings (the seat labels of a booking); `serverTimestamp` is the sentinel
`admin.firestore.FieldValue.serverTimestamp()`. -/
inductive JsVal where
  | undefined
  | null
  | bool (b : Bool)
  | num (n : JsNum)
  | str (s : String)
  | arr (items : List String)
  | serverTimestamp
  deriving DecidableEq, Repr

namespace JsNum

/-- Binary minus on numbers. -/
def sub : JsNum → JsNum → JsNum
  | fin a, fin b => fin (a - b)
  | nan, _ => nan
  | _, nan => nan
  | fin _, inf n => inf (!n)
  | inf n, fin _ => inf n
  | inf n, inf m => if n = m then nan else inf n

/-- Binary plus on numbers. -/
def add : JsNum → JsNum → JsNum
  | fin a, fin b => fin (a + b)
  | nan, _ => nan
  | _, nan => nan
  | fin _, inf n => inf n
  | inf n, fin _ => inf n
  | inf n, inf m => if n = m then inf n else nan

/-- Multiplication of numbers. -/
def mul : JsNum → JsNum → JsNum
  | fin a, fin b => fin (a * b)
  | nan, _ => nan
  | _, nan => nan
  | fin a, inf n => if a = 0 then nan else inf (if a < 0 then !n else n)
  | inf n, fin b => if b = 0 then nan else inf (if b < 0 then !n else n)
  | inf n, inf m => inf (n != m)

/-- Division of numbers. -/
def div : JsNum → JsNum → JsNum
  | fin a, fin b =>
    if b = 0 then (if a = 0 then nan else inf (decide (a < 0))) else fin (a / b)
  | nan, _ => nan
  | _, nan => nan
  | fin _, inf _ => fin 0
  | inf n, fin b => inf (if b < 0 then !n else n)
  | inf _, inf _ => nan

/-- The comparison `x <= 0`. -/
def leZero : JsNum → Bool
  | fin a => decide (a ≤ 0)
  | nan => false
  | inf n => n

/-- The function `Math.round`: nearest integer, halves rounded towards plus infinity. -/
def round : JsNum → JsNum
  | fin a => fin (⌊a + 1 / 2⌋ : ℤ)
  | nan => nan
  | inf n => inf n

/-- Truthiness of a number: zero and `NaN` are falsy. -/
def truthy : JsNum → Bool
  | fin a => decide (a ≠ 0)
  | nan => false
  | inf _ => true

end JsNum

namespace JsVal

/-- Truthiness of a value (`ToBoolean`). -/
def truthy : JsVal → Bool
  | undefined => false
  | null => false
  | bool b => b
  | num n => n.truthy
  | str s => s ≠ ""
  | arr _ => true
  | serverTimestamp => true

/-- The operator `a || b`. -/
def or (a b : JsVal) : JsVal := if a.truthy then a else b

/-- Strict equality `a === b` (`NaN` is not equal to itself). -/
def strictEq (a b : JsVal) : Bool :=
  match a, b with
  | num .nan, _ => false
  | _, num .nan => false
  | x, y => decide (x = y)

end JsVal

/-- The method `String.prototype.startsWith` on the characters of a string. -/
def startsWith (s pre : String) : Bool := pre.toList.isPrefixOf s.toList

/-! ## Number parsing -/

/-- White space skipped by `parseFloat` and trimmed by `ToNumber`: the ASCII white space,
the no-break space, the byte order mark and the two line separators.  The other space
separators of Unicode are not listed. -/
def isJsSpace (c : Char) : Bool :=
  c = ' ' || c = '\t' || c = '\n' || c = '\r' || c = '\x0b' || c = '\x0c'
    || c = '\u00a0' || c = '\ufeff' || c = '\u2028' || c = '\u2029'

/-- Value of a run of decimal digits. -/
def digitsToNat (ds : List Char) : Nat :=
  ds.foldl (fun n c => 10 * n + (c.toNat - 48)) 0

/-- Optional sign at the start of the input: whether it is a minus, and the rest. -/
def takeSign : List Char → Bool × List Char
  | '-' :: cs => (true, cs)
  | '+' :: cs => (false, cs)
  | cs => (false, cs)

/-- Optional exponent part `e[+-]digits`: the exponent and the rest of the input.
An `e` that is not followed by digits is not consumed. -/
def takeExponent : List Char → ℤ × List Char
  | c :: cs =>
    if c = 'e' || c = 'E' then
      let (neg, r) := takeSign cs
      let ds := r.takeWhile Char.isDigit
      if ds = [] then (0, c :: cs)
      else ((if neg then -(digitsToNat ds : ℤ) else (digitsToNat ds : ℤ)), r.dropWhile Char.isDigit)
    else (0, c :: cs)
  | [] => (0, [])

/-- Longest decimal literal at the start of the input (after the sign): its value and the
rest of the input, or `none` when the input does not start with a decimal literal. -/
def takeDecimal (cs : List Char) : Option (JsNum × List Char) :=
  if "Infinity".toList.isPrefixOf cs then some (JsNum.inf false, cs.drop 8)
  else
    let intDs := cs.takeWhile Char.isDigit
    let r1 := cs.dropWhile Char.isDigit
    let fracDs := match r1 with
      | '.' :: r => r.takeWhile Char.isDigit
      | _ => []
    let r2 := match r1 with
      | '.' :: r => if intDs = [] ∧ r.takeWhile Char.isDigit = [] then r1 else r.dropWhile Char.isDigit
      | _ => r1
    if intDs = [] ∧ fracDs = [] then none
    else
      let (e, r3) := takeExponent r2
      let mantissa : ℚ := (digitsToNat (intDs ++ fracDs) : ℚ) / (10 : ℚ) ^ fracDs.length
      some (JsNum.fin (mantissa * (10 : ℚ) ^ e), r3)

/-- Apply a sign to a number. -/
def applySign (neg : Bool) : JsNum → JsNum
  | .fin q => .fin (if neg then -q else q)
  | .nan => .nan
  | .inf n => .inf (n != neg)

/-- The function `parseFloat` on the characters of a string. -/
def parseFloatChars (cs : List Char) : JsNum :=
  let (neg, r) := takeSign (cs.dropWhile isJsSpace)
  match takeDecimal r with
  | some (v, _) => applySign neg v
  | none => .nan

/-- The global function `parseFloat`: the argument is converted to a string and the
longest numeric start of it is parsed.  A number converts to a string that parses back to
itself; an array converts to its items joined by commas; the strings of the other
values do not start with a numeric literal. -/
def parseFloat : JsVal → JsNum
  | .num n => n
  | .str s => parseFloatChars s.toList
  | .arr items => parseFloatChars (",".intercalate items).toList
  | _ => .nan

/-- Value of a digit of a radix literal, or `none` when the character is not a digit of
that radix. -/
def radixDigit (radix : Nat) (c : Char) : Option Nat :=
  let v : Option Nat :=
    if c.isDigit then some (c.toNat - 48)
    else if 'a'.toNat ≤ c.toNat ∧ c.toNat ≤ 'f'.toNat then some (c.toNat - 87)
    else if 'A'.toNat ≤ c.toNat ∧ c.toNat ≤ 'F'.toNat then some (c.toNat - 55)
    else none
  v.bind (fun d => if d < radix then some d else none)

/-- Value of a non-empty run of radix digits, or `none`. -/
def radixValue (radix : Nat) (ds : List Char) : Option Nat :=
  if ds = [] then none
  else ds.foldl (fun acc c => acc.bind (fun n => (radixDigit radix c).map (fun d => radix * n + d)))
    (some 0)

/-- An unsigned literal `0x..`, `0o..` or `0b..`, or `none`. -/
def radixLiteral : List Char → Option Nat
  | '0' :: c :: ds =>
    if c = 'x' || c = 'X' then radixValue 16 ds
    else if c = 'o' || c = 'O' then radixValue 8 ds
    else if c = 'b' || c = 'B' then radixValue 2 ds
    else none
  | _ => none

/-- The abstract operation `ToNumber` on the characters of a string: the whole trimmed
string has to be a numeric literal; the empty string is zero. -/
def toNumberChars (cs : List Char) : JsNum :=
  let t := ((cs.dropWhile isJsSpace).reverse.dropWhile isJsSpace).reverse
  if t = [] then .fin 0
  else
    match radixLiteral t with
    | some n => .fin n
    | none =>
      let (neg, r) := takeSign t
      match takeDecimal r with
      | some (v, []) => applySign neg v
      | _ => .nan

/-- The abstract operation `ToNumber`, applied by the arithmetic operators. -/
def toNumber : JsVal → JsNum
  | .undefined => .nan
  | .null => .fin 0
  | .bool b => .fin (if b then 1 else 0)
  | .num n => n
  | .str s => toNumberChars s.toList
  | .arr items => toNumberChars (",".intercalate items).toList
  | .serverTimestamp => .nan

/-- The expression `a || 0` on a number, as in `parseFloat(x) || 0`. -/
def orZero (n : JsNum) : JsNum := if n.truthy then n else .fin 0

/-! ## Rounding to binary64 -/

/-- The integer nearest to `x`; a tie goes to the even one. -/
def roundHalfEven (x : ℚ) : ℤ :=
  if x - ⌊x⌋ < 1 / 2 then ⌊x⌋
  else if 1 / 2 < x - ⌊x⌋ then ⌊x⌋ + 1
  else if ⌊x⌋ % 2 = 0 then ⌊x⌋ else ⌊x⌋ + 1

/-- The exponent of the spacing of the binary64 values around `q`: 52 below the binade of
`q`, and -1074 throughout the subnormal range. -/
def ulpExponent (q : ℚ) : ℤ := max (Int.log 2 |q|) (-1022) - 52

/-- The binary64 value nearest to `q`, ties to even, with an unbounded exponent range
above; the caller turns a magnitude of `2 ^ 1024` or more into an infinity. -/
def roundToDouble (q : ℚ) : ℚ :=
  (roundHalfEven (q / (2 : ℚ) ^ ulpExponent q) : ℚ) * (2 : ℚ) ^ ulpExponent q


/-- The Number nearest to a number of the model; an overflow gives an infinity. -/
def JsNum.toDouble : JsNum → JsNum
  | .fin q =>
    if (2 : ℚ) ^ (1024 : ℕ) ≤ |roundToDouble q| then .inf (decide (q < 0))
    else .fin (roundToDouble q)
  | n => n

/-- The comparison `x <= y` on numbers. -/
def JsNum.le : JsNum → JsNum → Bool
  | .fin a, .fin b => decide (a ≤ b)
  | .nan, _ => false
  | _, .nan => false
  | .inf true, _ => true
  | _, .inf false => true
  | _, _ => false

/-! ## Settlement arithmetic -/

/-- Source `calculateTheatreOwnerShare` (index.js 198-200): the owner receives the whole
base ticket price. -/
def calculateTheatreOwnerShare (actualTicketPrice : JsVal) : JsVal := actualTicketPrice

/-- The expression `totalAmount - ownerShare` of `onMovieBookingCreated` (index.js 152),
where `totalAmount` is the number `parseFloat(data.totalAmount) || 0`. -/
def companyProfit (totalAmount : JsNum) (ownerShare : JsVal) : JsNum :=
  totalAmount.sub (toNumber ownerShare)

/-- The expression `totalAmount - ownerShare` of `createMovieBookingRazorpayOrder`
(index.js 256), on the values as received from the caller. -/
def platformProfit (totalAmount ownerShare : JsVal) : JsNum :=
  (toNumber totalAmount).sub (toNumber ownerShare)

/-- The expression `Math.round(amount * 100)`: an amount in paise.  The operand is the
Number nearest to the amount, the product is rounded to a Number, and `Math.round` takes
the nearest integer of that Number. -/
def toPaise (amount : JsVal) : JsNum :=
  JsNum.round (((toNumber amount).toDouble.mul (.fin 100)).toDouble)

/-! ## Documents, store and the world -/

/-- A Firestore document: field names with their values. -/
abbrev Doc := List (String × JsVal)

/-- Field access `doc[key]`; a missing field reads as `undefined`. -/
def Doc.get (d : Doc) (key : String) : JsVal := (d.lookup key).getD .undefined

/-- The fields of `upd` written over the document `d` (semantics of `update`). -/
def Doc.merge (d upd : Doc) : Doc :=
  upd ++ d.filter (fun p => !(upd.map Prod.fst).contains p.1)

/-- The values of a write may not be `undefined`: Firestore rejects such a write. -/
def Doc.hasUndefined (d : Doc) : Bool := d.any (fun p => decide (p.2 = .undefined))

/-- The document store: collection name and document id to document. -/
abbrev Store := String → String → Option Doc

/-- The store with document `id` of collection `coll` replaced by `d`. -/
def Store.put (s : Store) (coll id : String) (d : Doc) : Store :=
  fun c i => if c = coll ∧ i = id then some d else s c i

/-- An external call made by a handler.  Store writes are logged when attempted,
gateway calls when issued, whether they succeed or not. -/
inductive Event where
  /-- The call `client.payment.transfer(paymentId, ...)` with one transfer. -/
  | transfer (paymentId : JsVal) (account : JsVal) (amount : JsNum)
  /-- The call `client.orders.create` with the order amount and one transfer. -/
  | orderCreate (amount : JsNum) (currency : JsVal) (account : JsVal) (transferAmount : JsNum)
  /-- The call `client.payment.refund(paymentId, ...)`. -/
  | refund (paymentId : JsVal) (amount : JsNum)
  /-- The call `client.transfers.create` from `source` to the merchant account. -/
  | reverseTransfer (source : JsVal) (amount : JsNum)
  /-- A write (`update`, `set` or `add`) of `fields` to a document. -/
  | write (coll id : String) (fields : Doc)
  /-- A push notification handed to `admin.messaging().send`. -/
  | notify (token : JsVal) (title : String)
  deriving DecidableEq, Repr

/-- The world a handler runs in: the store and the log of external calls so far. -/
structure World where
  store : Store
  log : List Event

/-- The world after an event was appended to its log. -/
def World.logged (w : World) (e : Event) : World := { w with log := w.log ++ [e] }

/-- A thrown JavaScript error: a plain `Error` (also `TypeError` and gateway or store
rejections) or a `functions.https.HttpsError` with its code. -/
inductive JsError where
  | error (message : String)
  | https (code : String) (message : String)
  deriving DecidableEq, Repr

/-- The property `error.message`. -/
def JsError.message : JsError → String
  | .error m => m
  | .https _ m => m

/-- Computations of the handlers: from the world to an outcome and the world after. -/
def Js (α : Type) : Type := World → Except JsError α × World

/-- Run a computation in a world. -/
def Js.run {α : Type} (m : Js α) (w : World) : Except JsError α × World := m w

/-- Sequencing: a throw skips the rest and keeps the effects made so far. -/
def Js.bind {α β : Type} (m : Js α) (f : α → Js β) : Js β := fun w =>
  match m w with
  | (.ok a, w1) => f a w1
  | (.error e, w1) => (.error e, w1)

instance : Monad Js where
  pure a := fun w => (.ok a, w)
  bind := Js.bind

/-- The statement `throw e`. -/
def Js.throw {α : Type} (e : JsError) : Js α := fun w => (.error e, w)

/-- The statement `try body catch (e) handler`. -/
def Js.tryCatch {α : Type} (body : Js α) (handler : JsError → Js α) : Js α := fun w =>
  match body w with
  | (.ok a, w1) => (.ok a, w1)
  | (.error e, w1) => handler e w1

/-- Append an event to the call log. -/
def Js.emit (e : Event) : Js Unit := fun w => (.ok (), { w with log := w.log ++ [e] })

/-- Lift the result of an external call: a rejection becomes a thrown `Error`. -/
def Js.ofExcept {α : Type} : Except String α → Js α
  | .ok a => pure a
  | .error m => Js.throw (.error m)

/-- The environment of a run: process credentials, store faults and the gateway.  The
client object built by `new Razorpay(...)` comes from a library outside `index.js`, so
each operation the handlers invoke on it is a parameter: an oracle that returns the
fields the handler reads or throws with a message.  A client on which an operation is
absent is an oracle that throws for every argument. -/
structure Env where
  /-- The variable `process.env.RAZORPAY_KEY_ID`. -/
  razorpayKeyId : Option String
  /-- The variable `process.env.RAZORPAY_KEY_SECRET`. -/
  razorpayKeySecret : Option String
  /-- A read of this document fails with the given message. -/
  readFault : String → String → Option String
  /-- A write of this document fails with the given message. -/
  writeFault : String → String → Option String
  /-- Outcome of `client.payment.transfer`: the transfer response or a rejection. -/
  paymentTransfer : JsVal → JsVal → JsNum → Except String JsVal
  /-- Outcome of `client.orders.create`: the field `order.id` or a rejection. -/
  ordersCreate : JsNum → JsVal → JsVal → JsNum → Except String JsVal
  /-- Outcome of `client.payment.refund`: `refund.id` and `refund.status`, or a rejection. -/
  paymentRefund : JsVal → JsNum → Except String (JsVal × JsVal)
  /-- Outcome of `client.transfers.create`: `reverseTransfer.id` or a rejection. -/
  transfersCreate : JsVal → JsNum → Except String JsVal
  /-- Outcome of `admin.messaging().send` for a token: `none` when it succeeds. -/
  messagingSend : JsVal → Option String
  /-- The id Firestore generates for a document created with `add`. -/
  newDocId : String → String
  /-- Outcome of the query for the user with the admin email, limited to one document:
  the document if there is one, or a failure of the query. -/
  adminQuery : Except String (Option Doc)

/-! ## Store operations -/

/-- The call `collection(coll).doc(id)`: the id has to be a non-empty string. -/
def docRef (id : JsVal) : Js String :=
  match id with
  | .str s =>
    if s = "" then Js.throw (.error "Value for argument \"documentPath\" must be a non-empty string.")
    else pure s
  | _ => Js.throw (.error "Value for argument \"documentPath\" is not a valid resource path. Path must be a non-empty string.")

/-- The call `ref.get()`: `none` stands for a snapshot whose `exists` is false. -/
def refGet (env : Env) (coll id : String) : Js (Option Doc) := fun w =>
  match env.readFault coll id with
  | some m => (.error (.error m), w)
  | none => (.ok (w.store coll id), w)

/-- The call `collection(coll).doc(id).get()`. -/
def docGet (env : Env) (coll : String) (id : JsVal) : Js (Option Doc) := do
  let ref ← docRef id
  refGet env coll ref

/-- The call `ref.update(fields)`: fails on an `undefined` value, on a store fault and
when the document does not exist; otherwise the fields are merged into the document. -/
def refUpdate (env : Env) (coll id : String) (fields : Doc) : Js Unit := do
  Js.emit (.write coll id fields)
  if fields.hasUndefined then
    Js.throw (.error "Cannot use \"undefined\" as a Firestore value.")
  else
    match env.writeFault coll id with
    | some m => Js.throw (.error m)
    | none => fun w =>
      match w.store coll id with
      | none => (.error (.error "NOT_FOUND: No document to update"), w)
      | some d => (.ok (), { w with store := w.store.put coll id (d.merge fields) })

/-- The call `ref.set(fields)`: fails on an `undefined` value and on a store fault;
otherwise the document is created or replaced. -/
def refSet (env : Env) (coll id : String) (fields : Doc) : Js Unit := do
  Js.emit (.write coll id fields)
  if fields.hasUndefined then
    Js.throw (.error "Cannot use \"undefined\" as a Firestore value.")
  else
    match env.writeFault coll id with
    | some m => Js.throw (.error m)
    | none => fun w => (.ok (), { w with store := w.store.put coll id fields })

/-- The call `collection(coll).add(fields)`: creates a document under a generated id. -/
def collAdd (env : Env) (coll : String) (fields : Doc) : Js String := do
  Js.emit (.write coll (env.newDocId coll) fields)
  if fields.hasUndefined then
    Js.throw (.error "Cannot use \"undefined\" as a Firestore value.")
  else
    match env.writeFault coll (env.newDocId coll) with
    | some m => Js.throw (.error m)
    | none => fun w =>
      (.ok (env.newDocId coll),
        { w with store := w.store.put coll (env.newDocId coll) fields })

/-! ## Payout: `onMovieBookingCreated` and its helpers -/

/-- Source `getRazorpayClient` (index.js 10-22): throws when a credential is unset. -/
def getRazorpayClient (env : Env) : Js Unit :=
  if !(JsVal.truthy ((env.razorpayKeyId.map JsVal.str).getD .undefined))
      || !(JsVal.truthy ((env.razorpayKeySecret.map JsVal.str).getD .undefined)) then
    Js.throw (.error "Razorpay environment variables RAZORPAY_KEY_ID/RAZORPAY_KEY_SECRET not set")
  else pure ()

/-- Source `updatePayoutStatus` (index.js 25-34): a failed write is logged and swallowed. -/
def updatePayoutStatus (env : Env) (bookingId : String) (status reason : JsVal) : Js Unit :=
  Js.tryCatch
    (refUpdate env "movie_bookings" bookingId
      [("payoutStatus", status), ("payoutError", reason)])
    (fun _ => pure ())

/-- Source `updateMovieBookingAfterTransfer` (index.js 37-48). -/
def updateMovieBookingAfterTransfer (env : Env) (bookingId : String)
    (status transferResp ownerAccountId : JsVal) : Js Unit :=
  Js.tryCatch
    (refUpdate env "movie_bookings" bookingId
      [("payoutStatus", status), ("transferResponse", transferResp),
       ("theatreOwnerAccountId", ownerAccountId), ("payoutMethod", .str "Razorpay Route")])
    (fun _ => pure ())

/-- The candidate field names of a connected account id, in the order they are tried. -/
def candidateKeys : List String :=
  ["razorpayAccountId", "ownerAccountId", "accountId", "razorpay_account_id", "razorpay_accountId"]

/-- The test `typeof acc === 'string' && acc.startsWith('acc_')`. -/
def isAccountId : JsVal → Bool
  | .str s => startsWith s "acc_"
  | _ => false

/-- The loop over the candidate keys (index.js 76-83): the first value that is a string
starting with `acc_`, or `null`. -/
def scanCandidateKeys (user : Doc) : List String → JsVal
  | [] => .null
  | key :: rest =>
    let acc := user.get key
    if isAccountId acc then acc else scanCandidateKeys user rest

/-- Source `resolveTheatreOwnerAccountId` (index.js 51-88). -/
def resolveTheatreOwnerAccountId (env : Env) (theatreId : JsVal) (bookingData : Doc) :
    Js JsVal :=
  if !theatreId.truthy then pure .null
  else
    Js.tryCatch
      (do
        let theatreDoc ← docGet env "movie_theatres" theatreId
        match theatreDoc with
        | none => pure .null
        | some theatre =>
          let ownerId := (theatre.get "ownerId").or (bookingData.get "ownerId")
          if !ownerId.truthy then pure .null
          else do
            let userDoc ← docGet env "users" ownerId
            match userDoc with
            | none => pure .null
            | some user => pure (scanCandidateKeys user candidateKeys))
      (fun _ => pure .null)

/-- The method call `v.startsWith(pre)` on an arbitrary value: a `TypeError` unless the
value is a string. -/
def callStartsWith (name : String) (v : JsVal) (pre : String) : Js Bool :=
  match v with
  | .str s => pure (startsWith s pre)
  | .undefined =>
    Js.throw (.error "Cannot read properties of undefined (reading \"startsWith\")")
  | .null => Js.throw (.error "Cannot read properties of null (reading \"startsWith\")")
  | _ => Js.throw (.error (name ++ ".startsWith is not a function"))

/-- Source `getTheatreOwnerPaymentMethod` (index.js 203-211): the account id of a
payment method of type `razorpay`, or a throw. -/
def getTheatreOwnerPaymentMethod (ownerAccountId : JsVal) : Js JsVal :=
  if !ownerAccountId.truthy then
    Js.throw (.error "No valid Razorpay connected account ID for theatre owner.")
  else do
    let ok ← callStartsWith "ownerAccountId" ownerAccountId "acc_"
    if ok then pure ownerAccountId
    else Js.throw (.error "No valid Razorpay connected account ID for theatre owner.")

/-- Source `processRazorpayTransfer` (index.js 214-239): one transfer of
`Math.round(ownerShare * 100)` paise; a rejection is rethrown. -/
def processRazorpayTransfer (env : Env) (paymentId ownerShare accountId : JsVal) :
    Js JsVal :=
  Js.tryCatch
    (do
      let amountInPaise := toPaise ownerShare
      Js.emit (.transfer paymentId accountId amountInPaise)
      Js.ofExcept (env.paymentTransfer paymentId accountId amountInPaise))
    (fun error => Js.throw error)

/-- The resolution step of `onMovieBookingCreated` (index.js 113, 125-138): the value of
`ownerAccountId` after it, or `none` when the handler returned inside the step. -/
def resolveOwnerAccountStep (env : Env) (bookingId : String) (data : Doc) :
    Js (Option JsVal) :=
  if !(data.get "theatreOwnerAccountId").truthy
      || (data.get "theatreOwnerAccountId").strictEq (.str "owner_placeholder") then do
    let attempt ← Js.tryCatch
      (do
        let r ← resolveTheatreOwnerAccountId env (data.get "theatreId") data
        pure (some r))
      (fun error => do
        updatePayoutStatus env bookingId (.str "failed")
          (.str ("Owner account resolution error: " ++ error.message))
        pure none)
    match attempt with
    | none => pure none
    | some ownerAccountId =>
      if !ownerAccountId.truthy then do
        updatePayoutStatus env bookingId (.str "failed")
          (.str "Missing Razorpay connected account ID. Theatre owner must add their Razorpay account ID to receive payments.")
        pure none
      else pure (some ownerAccountId)
  else pure (some (data.get "theatreOwnerAccountId"))

/-- The body of the `try` block of `onMovieBookingCreated` (index.js 95-185). -/
def onMovieBookingCreatedBody (env : Env) (bookingId : String) (data : Doc) : Js Unit :=
  if !(data.get "paymentMethod").strictEq (.str "Online") then pure ()
  else if !(data.get "status").strictEq (.str "confirmed") then pure ()
  else if (data.get "payoutStatus").strictEq (.str "settled") then pure ()
  else
    let totalAmount := orZero (parseFloat (data.get "totalAmount"))
    let actualTicketPrice := orZero (parseFloat (data.get "actualTicketPrice"))
    let paymentId := data.get "razorpayPaymentId"
    let theatreId := data.get "theatreId"
    if totalAmount.leZero then
      updatePayoutStatus env bookingId (.str "failed") (.str "Invalid amount")
    else do
      let resolved ← resolveOwnerAccountStep env bookingId data
      match resolved with
      | none => pure ()
      | some ownerAccountId =>
        if !paymentId.truthy then
          updatePayoutStatus env bookingId (.str "failed")
            (.str "Missing Razorpay payment ID for transfer")
        else do
          let valid ← callStartsWith "ownerAccountId" ownerAccountId "acc_"
          if !valid then
            updatePayoutStatus env bookingId (.str "failed")
              (.str "Theatre owner does not have a valid Razorpay connected account ID.")
          else do
            let ownerShare := calculateTheatreOwnerShare (.num actualTicketPrice)
            let companyProfit := companyProfit totalAmount ownerShare
            let accountId ← getTheatreOwnerPaymentMethod ownerAccountId
            getRazorpayClient env
            let _ ← processRazorpayTransfer env paymentId ownerShare accountId
            updateMovieBookingAfterTransfer env bookingId (.str "settled") .null ownerAccountId
            refSet env "movie_booking_settlements" bookingId
              [("booking_id", .str bookingId),
               ("theatre_id", theatreId.or .null),
               ("total_paid", .num totalAmount),
               ("owner_share", ownerShare),
               ("platform_profit", .num companyProfit),
               ("razorpay_payment_id", paymentId),
               ("owner_account_id", ownerAccountId),
               ("settledAt", .serverTimestamp)]

/-- Source `onMovieBookingCreated` (index.js 91-195): the trigger on a created booking
document, with the snapshot data `data` of the document `movie_bookings/bookingId`. -/
def onMovieBookingCreated (env : Env) (bookingId : String) (data : Doc) : Js Unit :=
  Js.tryCatch (onMovieBookingCreatedBody env bookingId data)
    (fun error =>
      Js.tryCatch
        (updatePayoutStatus env bookingId (.str "failed")
          (.str ("Function error: " ++ error.message)))
        (fun _ => pure ()))

/-! ## Order creation: `createMovieBookingRazorpayOrder` -/

/-- The object returned by `createMovieBookingRazorpayOrder`. -/
structure OrderResult where
  orderId : JsVal
  ownerShare : JsVal
  platformProfit : JsVal
  actualTicketPrice : JsVal
  amount : JsVal
  deriving DecidableEq, Repr

/-- The body of the `try` block of `createMovieBookingRazorpayOrder` (index.js 244-298). -/
def createMovieBookingRazorpayOrderBody (env : Env) (data : Doc) : Js OrderResult :=
  let actualTicketPrice := data.get "actualTicketPrice"
  let totalAmount := data.get "totalAmount"
  let ownerAccountId := data.get "ownerAccountId"
  let bookingId := data.get "bookingId"
  let theatreId := data.get "theatreId"
  let currency :=
    if data.get "currency" = .undefined then JsVal.str "INR" else data.get "currency"
  if !actualTicketPrice.truthy || !totalAmount.truthy || !ownerAccountId.truthy
      || !bookingId.truthy then
    Js.throw (.https "invalid-argument" "Missing required parameters")
  else do
    let valid ← callStartsWith "ownerAccountId" ownerAccountId "acc_"
    if !valid then
      Js.throw (.https "failed-precondition" "Theatre Owner Razorpay Account ID is invalid")
    else do
      getRazorpayClient env
      let ownerShare := calculateTheatreOwnerShare actualTicketPrice
      let platformProfit := platformProfit totalAmount ownerShare
      let amount := toPaise totalAmount
      let transferAmount := toPaise ownerShare
      Js.emit (.orderCreate amount currency ownerAccountId transferAmount)
      let orderId ← Js.ofExcept (env.ordersCreate amount currency ownerAccountId transferAmount)
      let ref ← docRef orderId
      refSet env "movie_razorpay_orders" ref
        [("booking_id", bookingId),
         ("theatre_id", theatreId.or .null),
         ("total_paid", totalAmount),
         ("actual_ticket_price", actualTicketPrice),
         ("owner_share", ownerShare),
         ("platform_profit", .num platformProfit),
         ("razorpay_order_id", orderId),
         ("owner_account_id", ownerAccountId),
         ("createdAt", .serverTimestamp)]
      pure { orderId := orderId, ownerShare := ownerShare, platformProfit := .num platformProfit,
             actualTicketPrice := actualTicketPrice, amount := totalAmount }

/-- Source `createMovieBookingRazorpayOrder` (index.js 242-303): every error thrown in the
body is rethrown as an `HttpsError` of code `internal`. -/
def createMovieBookingRazorpayOrder (env : Env) (data : Doc) : Js OrderResult :=
  Js.tryCatch (createMovieBookingRazorpayOrderBody env data)
    (fun error => Js.throw (.https "internal" error.message))

/-! ## Notifications -/

/-- Source `sendNotificationToUser` (index.js 1075-1128): nothing is sent when the user
or the token is absent; an error is rethrown. -/
def sendNotificationToUser (env : Env) (userId : JsVal) (title : String) : Js Unit :=
  Js.tryCatch
    (do
      let userDoc ← docGet env "users" userId
      match userDoc with
      | none => pure ()
      | some userData =>
        let fcmToken := userData.get "fcmToken"
        if !fcmToken.truthy then pure ()
        else do
          Js.emit (.notify fcmToken title)
          match env.messagingSend fcmToken with
          | some m => Js.throw (.error m)
          | none => pure ())
    (fun error => Js.throw error)

/-- Source `sendNotificationToAdmin` (index.js 535-594): nothing is sent when the admin
user or the token is absent; an error is rethrown. -/
def sendNotificationToAdmin (env : Env) (title : String) : Js Unit :=
  Js.tryCatch
    (do
      let adminDoc ← Js.ofExcept env.adminQuery
      match adminDoc with
      | none => pure ()
      | some adminData =>
        let fcmToken := adminData.get "fcmToken"
        if !fcmToken.truthy then pure ()
        else do
          Js.emit (.notify fcmToken title)
          match env.messagingSend fcmToken with
          | some m => Js.throw (.error m)
          | none => pure ())
    (fun error => Js.throw error)

/-! ## Refund request creation: `createMovieBookingRefundRequest` -/

/-- The object returned by `createMovieBookingRefundRequest`. -/
structure RefundRequestResult where
  refundRequestId : String
  message : String
  deriving DecidableEq, Repr

/-- The body of the `try` block of `createMovieBookingRefundRequest` (index.js 795-873). -/
def createMovieBookingRefundRequestBody (env : Env) (data : Doc) : Js RefundRequestResult :=
  let bookingId := data.get "bookingId"
  let userId := data.get "userId"
  let amount := data.get "amount"
  let paymentId := data.get "paymentId"
  let reason :=
    if data.get "reason" = .undefined then JsVal.str "User requested cancellation"
    else data.get "reason"
  if !bookingId.truthy || !userId.truthy || !amount.truthy || !paymentId.truthy then
    Js.throw (.https "invalid-argument" "Missing required parameters")
  else do
    let bookingDoc ← docGet env "movie_bookings" bookingId
    let bookingData : Doc := bookingDoc.getD []
    let actualTicketPrice :=
      (bookingData.get "actualTicketPrice").or
        (.num ((parseFloat amount).mul (.fin (88 / 100))))
    let refundDocId ← collAdd env "refund_requests"
      [("bookingId", bookingId),
       ("userId", userId),
       ("theatreId", data.get "theatreId"),
       ("amount", .num (parseFloat amount)),
       ("actualTicketPrice", actualTicketPrice),
       ("paymentId", paymentId),
       ("reason", reason),
       ("status", .str "pending"),
       ("showDate", data.get "showDate"),
       ("movieTitle", data.get "movieTitle"),
       ("theatreName", data.get "theatreName"),
       ("selectedSeats", (data.get "selectedSeats").or (.arr [])),
       ("requestedAt", .serverTimestamp),
       ("processedAt", .null),
       ("refundId", .null),
       ("adminNotes", .str ""),
       ("createdBy", .str "user")]
    let _ ← docGet env "users" userId
    sendNotificationToAdmin env "New Refund Request"
    let bookingRef ← docRef bookingId
    refUpdate env "movie_bookings" bookingRef
      [("status", .str "cancelled"),
       ("refundRequestId", .str refundDocId),
       ("cancelledAt", .serverTimestamp)]
    pure { refundRequestId := refundDocId,
           message := "BookMyBiz movie booking refund request submitted successfully. Admin will review and process your refund within 24-48 hours." }

/-- Source `createMovieBookingRefundRequest` (index.js 793-879). -/
def createMovieBookingRefundRequest (env : Env) (data : Doc) : Js RefundRequestResult :=
  Js.tryCatch (createMovieBookingRefundRequestBody env data)
    (fun error => Js.throw (.https "internal" error.message))

/-! ## Refund processing: `processMovieBookingRefund` -/

/-- The `refundBreakdown` object returned to the caller. -/
structure RefundBreakdown where
  totalAmount : JsVal
  actualTicketPrice : JsVal
  platformAmount : JsVal
  theatreOwnerRecovered : JsVal
  deriving DecidableEq, Repr

/-- The value returned by `processMovieBookingRefund`. -/
inductive RefundResult where
  /-- The object returned on `reject`. -/
  | rejected (message : String)
  /-- The object returned on `approve`. -/
  | processed (refundId : JsVal) (message : String) (refundBreakdown : RefundBreakdown)
  /-- No `return` was reached: the action is neither `approve` nor `reject`. -/
  | undefined
  deriving DecidableEq, Repr

/-- Step 1 of the approval (index.js 941-978): the attempt to recover the ticket amount
from the theatre owner.  Returns `theatreOwnerRefunded` and `theatreOwnerRefundId`; any
error is swallowed and leaves them `false` and `null`. -/
def recoverFromTheatreOwner (env : Env) (refundData : Doc) (actualTicketPrice : JsVal) :
    Js (Bool × JsVal) :=
  Js.tryCatch
    (do
      let theatreDoc ← docGet env "movie_theatres" (refundData.get "theatreId")
      match theatreDoc with
      | none => pure (false, .null)
      | some theatreData =>
        let ownerId := theatreData.get "ownerId"
        if !ownerId.truthy then pure (false, .null)
        else do
          let ownerDoc ← docGet env "users" ownerId
          match ownerDoc with
          | none => pure (false, .null)
          | some ownerData =>
            let ownerAccountId := ownerData.get "razorpayAccountId"
            if !ownerAccountId.truthy then pure (false, .null)
            else do
              let valid ← callStartsWith "ownerAccountId" ownerAccountId "acc_"
              if !valid then pure (false, .null)
              else do
                let amount := toPaise actualTicketPrice
                Js.emit (.reverseTransfer ownerAccountId amount)
                let transferId ← Js.ofExcept (env.transfersCreate ownerAccountId amount)
                pure (true, transferId))
    (fun _ => pure (false, .null))

/-- The inner `try` block of the approval (index.js 930-1052). -/
def approveRefundBody (env : Env) (refundRequestId : String) (adminNotes : JsVal)
    (refundData : Doc) : Js RefundResult :=
  let totalAmount := refundData.get "amount"
  let actualTicketPrice :=
    (refundData.get "actualTicketPrice").or
      (.num ((toNumber totalAmount).div (.fin (112 / 100))))
  let platformAmount := JsVal.num ((toNumber totalAmount).sub (toNumber actualTicketPrice))
  do
    let (theatreOwnerRefunded, theatreOwnerRefundId) ←
      recoverFromTheatreOwner env refundData actualTicketPrice
    let refundAmount := toPaise totalAmount
    Js.emit (.refund (refundData.get "paymentId") refundAmount)
    let (refundId, refundStatus) ←
      Js.ofExcept (env.paymentRefund (refundData.get "paymentId") refundAmount)
    refUpdate env "refund_requests" refundRequestId
      [("status", .str "processed"),
       ("refundId", refundId),
       ("razorpayRefundId", refundId),
       ("refundStatus", refundStatus),
       ("adminNotes", adminNotes),
       ("processedAt", .serverTimestamp),
       ("refundBreakdown.totalAmount", totalAmount),
       ("refundBreakdown.actualTicketPrice", actualTicketPrice),
       ("refundBreakdown.platformAmount", platformAmount),
       ("refundBreakdown.theatreOwnerRecovered", .bool theatreOwnerRefunded),
       ("refundBreakdown.theatreOwnerRefundId", theatreOwnerRefundId)]
    let bookingRef ← docRef (refundData.get "bookingId")
    refUpdate env "movie_bookings" bookingRef
      [("refundStatus", .str "processed"),
       ("refundId", refundId),
       ("refundedAt", .serverTimestamp),
       ("refundBreakdown.totalAmount", totalAmount),
       ("refundBreakdown.actualTicketPrice", actualTicketPrice),
       ("refundBreakdown.platformAmount", platformAmount),
       ("refundBreakdown.theatreOwnerRecovered", .bool theatreOwnerRefunded)]
    sendNotificationToUser env (refundData.get "userId") "Refund Processed Successfully"
    pure (.processed refundId "Refund processed successfully"
      { totalAmount := totalAmount, actualTicketPrice := actualTicketPrice,
        platformAmount := platformAmount,
        theatreOwnerRecovered := .bool theatreOwnerRefunded })

/-- The body of the outer `try` block of `processMovieBookingRefund` (index.js 884-1066). -/
def processMovieBookingRefundBody (env : Env) (data : Doc) : Js RefundResult :=
  let refundRequestId := data.get "refundRequestId"
  let action := data.get "action"
  let adminNotes :=
    if data.get "adminNotes" = .undefined then JsVal.str "" else data.get "adminNotes"
  if !refundRequestId.truthy || !action.truthy then
    Js.throw (.https "invalid-argument" "Missing required parameters")
  else do
    let ref ← docRef refundRequestId
    let refundDoc ← refGet env "refund_requests" ref
    match refundDoc with
    | none => Js.throw (.https "not-found" "Refund request not found")
    | some refundData =>
      if !(refundData.get "status").strictEq (.str "pending") then
        Js.throw (.https "failed-precondition" "Refund request already processed")
      else if action.strictEq (.str "reject") then do
        refUpdate env "refund_requests" ref
          [("status", .str "rejected"), ("adminNotes", adminNotes),
           ("processedAt", .serverTimestamp)]
        sendNotificationToUser env (refundData.get "userId") "Refund Request Rejected"
        pure (.rejected "Refund request rejected")
      else if action.strictEq (.str "approve") then do
        getRazorpayClient env
        Js.tryCatch (approveRefundBody env ref adminNotes refundData)
          (fun razorpayError => do
            refUpdate env "refund_requests" ref
              [("status", .str "failed"),
               ("adminNotes", .str ("Razorpay refund failed: " ++ razorpayError.message)),
               ("processedAt", .serverTimestamp)]
            Js.throw (.https "internal" ("Refund processing failed: " ++ razorpayError.message)))
      else pure .undefined

/-- Source `processMovieBookingRefund` (index.js 882-1072): every error thrown in the body,
the `HttpsError`s of the validations included, is rethrown with code `internal`. -/
def processMovieBookingRefund (env : Env) (data : Doc) : Js RefundResult :=
  Js.tryCatch (processMovieBookingRefundBody env data)
    (fun error => Js.throw (.https "internal" error.message))

/-! ## Words of the specification -/

/-- A positive number, in the sense of the validation of the total amount. -/
def JsNum.isPositive : JsNum → Bool
  | .fin q => decide (0 < q)
  | .nan => false
  | .inf negative => !negative

/-- A negative number: a negative rational or minus infinity. -/
def JsNum.isNegative : JsNum → Bool
  | .fin q => decide (q < 0)
  | .nan => false
  | .inf negative => negative

/-- Whether the characters `needle` occur in `hay` as a contiguous run. -/
def containsChars (needle : List Char) : List Char → Bool
  | [] => needle.isEmpty
  | c :: cs => needle.isPrefixOf (c :: cs) || containsChars needle cs

/-- A failure reason that mentions the account of the owner: it contains the word
`account`. -/
def mentionsAccount (reason : String) : Bool := containsChars "account".toList reason.toList

/-- A connected account id: a string that starts with `acc_`. -/
def IsConnectedAccount (v : JsVal) : Prop := ∃ s, v = .str s ∧ startsWith s "acc_" = true

/-- The result of the resolver read off the store: each failed read and each absent
record gives `null`. -/
def resolveFromStore (env : Env) (w : World) (theatreId : JsVal) (bookingData : Doc) : JsVal :=
  match theatreId with
  | .str th =>
    if th = "" then .null
    else
      match env.readFault "movie_theatres" th, w.store "movie_theatres" th with
      | none, some theatre =>
        match (theatre.get "ownerId").or (bookingData.get "ownerId") with
        | .str o =>
          if o = "" then .null
          else
            match env.readFault "users" o, w.store "users" o with
            | none, some user => scanCandidateKeys user candidateKeys
            | _, _ => .null
        | _ => .null
      | _, _ => .null
  | _ => .null

/-- The account that the recovery step of a refund reads off the store: the
`razorpayAccountId` of the user who owns the theatre of the request, when it is a string
starting with `acc_`; `none` when a record is absent, a read fails or the field does not
hold such a string. -/
def recoveryAccount (env : Env) (w : World) (refundData : Doc) : Option JsVal :=
  match refundData.get "theatreId" with
  | .str th =>
    if th = "" then none
    else
      match env.readFault "movie_theatres" th, w.store "movie_theatres" th with
      | none, some theatre =>
        match theatre.get "ownerId" with
        | .str o =>
          if o = "" then none
          else
            match env.readFault "users" o, w.store "users" o with
            | none, some owner =>
              match owner.get "razorpayAccountId" with
              | .str a => if startsWith a "acc_" then some (.str a) else none
              | _ => none
            | _, _ => none
        | _ => none
      | _, _ => none
  | _ => none

/-- The ticket price used by the approval of a refund (index.js 932): the stored
`actualTicketPrice`, or the total amount divided by 1.12. -/
def refundTicketPrice (refundData : Doc) : JsVal :=
  (refundData.get "actualTicketPrice").or
    (.num ((toNumber (refundData.get "amount")).div (.fin (112 / 100))))

/-- The platform amount of a refund (index.js 933): total amount minus ticket price. -/
def refundPlatformAmount (refundData : Doc) : JsVal :=
  .num ((toNumber (refundData.get "amount")).sub (toNumber (refundTicketPrice refundData)))

/-- The fields that the approval writes to the refund request after the refund
(index.js 995-1009). -/
def processedFields (adminNotes : JsVal) (refundData : Doc) (refundId refundStatus : JsVal)
    (theatreOwnerRefunded : Bool) (theatreOwnerRefundId : JsVal) : Doc :=
  [("status", .str "processed"),
   ("refundId", refundId),
   ("razorpayRefundId", refundId),
   ("refundStatus", refundStatus),
   ("adminNotes", adminNotes),
   ("processedAt", .serverTimestamp),
   ("refundBreakdown.totalAmount", refundData.get "amount"),
   ("refundBreakdown.actualTicketPrice", refundTicketPrice refundData),
   ("refundBreakdown.platformAmount", refundPlatformAmount refundData),
   ("refundBreakdown.theatreOwnerRecovered", .bool theatreOwnerRefunded),
   ("refundBreakdown.theatreOwnerRefundId", theatreOwnerRefundId)]

/-- The fields that the approval writes to the booking after the refund
(index.js 1012-1022). -/
def bookingRefundFields (refundData : Doc) (refundId : JsVal) (theatreOwnerRefunded : Bool) :
    Doc :=
  [("refundStatus", .str "processed"),
   ("refundId", refundId),
   ("refundedAt", .serverTimestamp),
   ("refundBreakdown.totalAmount", refundData.get "amount"),
   ("refundBreakdown.actualTicketPrice", refundTicketPrice refundData),
   ("refundBreakdown.platformAmount", refundPlatformAmount refundData),
   ("refundBreakdown.theatreOwnerRecovered", .bool theatreOwnerRefunded)]

/-- The fields that the `catch` of the approval writes to the refund request
(index.js 1058-1062). -/
def failedFields (message : String) : Doc :=
  [("status", .str "failed"),
   ("adminNotes", .str ("Razorpay refund failed: " ++ message)),
   ("processedAt", .serverTimestamp)]

/-- The steps of the approval after the recovery step (index.js 980-1052);
`approveRefundBody` is the recovery step followed by these steps. -/
def finishRefund (env : Env) (refundRequestId : String) (adminNotes : JsVal)
    (refundData : Doc) (theatreOwnerRefunded : Bool) (theatreOwnerRefundId : JsVal) :
    Js RefundResult := do
  Js.emit (.refund (refundData.get "paymentId") (toPaise (refundData.get "amount")))
  let (refundId, refundStatus) ←
    Js.ofExcept (env.paymentRefund (refundData.get "paymentId")
      (toPaise (refundData.get "amount")))
  refUpdate env "refund_requests" refundRequestId
    (processedFields adminNotes refundData refundId refundStatus theatreOwnerRefunded
      theatreOwnerRefundId)
  let bookingRef ← docRef (refundData.get "bookingId")
  refUpdate env "movie_bookings" bookingRef
    (bookingRefundFields refundData refundId theatreOwnerRefunded)
  sendNotificationToUser env (refundData.get "userId") "Refund Processed Successfully"
  pure (.processed refundId "Refund processed successfully"
    { totalAmount := refundData.get "amount",
      actualTicketPrice := refundTicketPrice refundData,
      platformAmount := refundPlatformAmount refundData,
      theatreOwnerRecovered := .bool theatreOwnerRefunded })

/-- The admin notes of a call: the empty string when the caller passes none
(index.js 884). -/
def adminNotesOf (data : Doc) : JsVal :=
  if data.get "adminNotes" = .undefined then JsVal.str "" else data.get "adminNotes"

/-- The gateway calls of the recovery step: one reverse transfer of the ticket price from
the account that the lookup finds, or none. -/
def recoveryCalls (env : Env) (w : World) (refundData : Doc) : List Event :=
  match recoveryAccount env w refundData with
  | none => []
  | some acc => [.reverseTransfer acc (toPaise (refundTicketPrice refundData))]

/-- The result of `resolveTheatreOwnerAccountId` in a world, `null` standing in for a
throw (there is none, see `resolveTheatreOwnerAccountId_run`). -/
def resolverResult (env : Env) (w : World) (theatreId : JsVal) (bookingData : Doc) : JsVal :=
  match ((resolveTheatreOwnerAccountId env theatreId bookingData).run w).1 with
  | .ok v => v
  | .error _ => .null

/-- The owner account id of a booking after the resolution attempt: the id stored on the
booking, or the result of the resolver when that id is missing or the placeholder. -/
def accountAfterResolution (env : Env) (w : World) (data : Doc) : JsVal :=
  if !(data.get "theatreOwnerAccountId").truthy
      || (data.get "theatreOwnerAccountId").strictEq (.str "owner_placeholder") then
    resolverResult env w (data.get "theatreId") data
  else data.get "theatreOwnerAccountId"

/-- A gateway call in the log: a transfer, an order, a refund or a reverse transfer. -/
def Event.isGatewayCall : Event → Bool
  | .transfer _ _ _ => true
  | .orderCreate _ _ _ _ => true
  | .refund _ _ => true
  | .reverseTransfer _ _ => true
  | .write _ _ _ => false
  | .notify _ _ => false

/-- A refund call in the log. -/
def Event.isRefund : Event → Bool
  | .refund _ _ => true
  | _ => false

/-- A reverse transfer in the log. -/
def Event.isReverseTransfer : Event → Bool
  | .reverseTransfer _ _ => true
  | _ => false

/-- A write to a document of the given collection, in the log. -/
def Event.isWriteTo (coll : String) : Event → Bool
  | .write c _ _ => decide (c = coll)
  | _ => false

/-- A store write in the log. -/
def Event.isWrite : Event → Bool
  | .write _ _ _ => true
  | _ => false

/-- The events a run appended to the log of the world it started in. -/
def newEvents (before after : World) : List Event := after.log.drop before.log.length

/-- The world after an attempted `update` of a document, whatever its outcome. -/
def World.afterUpdate (env : Env) (coll id : String) (fields : Doc) (w : World) : World :=
  ((refUpdate env coll id fields).run w).2

/-- The world at the end of a successful payout of a booking with total `t`, ticket price
`p` and owner account `acc`: the transfer was logged, the booking update was attempted and
the settlement record was written. -/
def payoutWorld (env : Env) (bookingId : String) (data : Doc) (t p : ℚ) (acc : String)
    (w : World) : World :=
  { store :=
      ((w.logged (.transfer (data.get "razorpayPaymentId") (.str acc)
          (toPaise (.num (.fin p))))).afterUpdate env "movie_bookings" bookingId
        [("payoutStatus", .str "settled"), ("transferResponse", .null),
         ("theatreOwnerAccountId", .str acc), ("payoutMethod", .str "Razorpay Route")]).store.put
        "movie_booking_settlements" bookingId
        [("booking_id", .str bookingId),
         ("theatre_id", (data.get "theatreId").or .null),
         ("total_paid", .num (.fin t)),
         ("owner_share", .num (.fin p)),
         ("platform_profit", .num (companyProfit (.fin t) (.num (.fin p)))),
         ("razorpay_payment_id", data.get "razorpayPaymentId"),
         ("owner_account_id", .str acc),
         ("settledAt", .serverTimestamp)]
    log :=
      ((w.logged (.transfer (data.get "razorpayPaymentId") (.str acc)
          (toPaise (.num (.fin p))))).afterUpdate env "movie_bookings" bookingId
        [("payoutStatus", .str "settled"), ("transferResponse", .null),
         ("theatreOwnerAccountId", .str acc), ("payoutMethod", .str "Razorpay Route")]).log ++
        [.write "movie_booking_settlements" bookingId
          [("booking_id", .str bookingId),
           ("theatre_id", (data.get "theatreId").or .null),
           ("total_paid", .num (.fin t)),
           ("owner_share", .num (.fin p)),
           ("platform_profit", .num (companyProfit (.fin t) (.num (.fin p)))),
           ("razorpay_payment_id", data.get "razorpayPaymentId"),
           ("owner_account_id", .str acc),
           ("settledAt", .serverTimestamp)]] }

/-! ## Example environment -/

/-- An environment in which the credentials are set, the store has no fault and every
gateway call succeeds. -/
def okEnv : Env where
  razorpayKeyId := some "rzp_key"
  razorpayKeySecret := some "rzp_secret"
  readFault := fun _ _ => none
  writeFault := fun _ _ => none
  paymentTransfer := fun _ _ _ => .ok (.str "trf_1")
  ordersCreate := fun _ _ _ _ => .ok (.str "order_1")
  paymentRefund := fun _ _ => .ok (.str "rfnd_1", .str "processed")
  transfersCreate := fun _ _ => .ok (.str "trf_rev_1")
  messagingSend := fun _ => none
  newDocId := fun _ => "doc_1"
  adminQuery := .ok none

/-- A world whose store holds exactly one document and whose log is empty. -/
def oneDocWorld (coll id : String) (d : Doc) : World where
  store := fun c i => if c = coll ∧ i = id then some d else none
  log := []

/-- The booking of the payout example: total 500, ticket price 440, account `acc_X`,
payment `pay_Y`. -/
def paidBooking : Doc :=
  [("paymentMethod", .str "Online"), ("status", .str "confirmed"),
   ("payoutStatus", .str "pending"), ("totalAmount", .num (.fin 500)),
   ("actualTicketPrice", .num (.fin 440)), ("theatreOwnerAccountId", .str "acc_X"),
   ("razorpayPaymentId", .str "pay_Y"), ("theatreId", .str "th_1")]

/-- The order example: ticket price 440, total 500, account `acc_X`. -/
def orderRequest : Doc :=
  [("actualTicketPrice", .num (.fin 440)), ("totalAmount", .num (.fin 500)),
   ("ownerAccountId", .str "acc_X"), ("bookingId", .str "b1"), ("theatreId", .str "th_1")]

/-- A world with an empty store and an empty log. -/
def emptyWorld : World where
  store := fun _ _ => none
  log := []

/-- A refund request that was already processed, stored as `refund_requests/r1`. -/
def processedRefundWorld : World :=
  oneDocWorld "refund_requests" "r1"
    [("bookingId", .str "b1"), ("userId", .str "u1"), ("theatreId", .str "th_1"),
     ("amount", .num (.fin 112)), ("actualTicketPrice", .num (.fin 100)),
     ("paymentId", .str "pay_Y"), ("status", .str "processed")]

/-- The admin call that approves the refund request `r1`. -/
def approveRequest : Doc := [("refundRequestId", .str "r1"), ("action", .str "approve")]

/-- A theatre with owner `u1` whose user record has a malformed `razorpayAccountId` and a
valid `accountId`. -/
def ownerWorld : World where
  store := fun c i =>
    if c = "movie_theatres" ∧ i = "th_1" then some [("ownerId", .str "u1")]
    else if c = "users" ∧ i = "u1" then
      some [("razorpayAccountId", .str "rzp_9"), ("accountId", .str "acc_7")]
    else none
  log := []

/-- A theatre without an owner id, for the resolver example. -/
def ownerlessTheatreWorld : World :=
  oneDocWorld "movie_theatres" "th_1" [("name", .str "Regal")]

/-- The payout example with an account id that does not match the pattern and without a
payment id. -/
def badAccountNoPaymentBooking : Doc :=
  [("paymentMethod", .str "Online"), ("status", .str "confirmed"),
   ("payoutStatus", .str "pending"), ("totalAmount", .num (.fin 500)),
   ("actualTicketPrice", .num (.fin 440)), ("theatreOwnerAccountId", .str "bad_123"),
   ("theatreId", .str "th_1")]

/-- The payout example with an account id that does not match the pattern. -/
def badAccountBooking : Doc :=
  [("paymentMethod", .str "Online"), ("status", .str "confirmed"),
   ("payoutStatus", .str "pending"), ("totalAmount", .num (.fin 500)),
   ("actualTicketPrice", .num (.fin 440)), ("theatreOwnerAccountId", .str "bad_123"),
   ("razorpayPaymentId", .str "pay_Y"), ("theatreId", .str "th_1")]

/-- The environment `okEnv` with a gateway that rejects every transfer. -/
def rejectingEnv : Env :=
  { okEnv with paymentTransfer := fun _ _ _ => .error "The payment has not been captured" }

/-- The payout example with a total amount of zero. -/
def zeroAmountBooking : Doc :=
  [("paymentMethod", .str "Online"), ("status", .str "confirmed"),
   ("payoutStatus", .str "pending"), ("totalAmount", .num (.fin 0)),
   ("actualTicketPrice", .num (.fin 440)), ("theatreOwnerAccountId", .str "acc_X"),
   ("razorpayPaymentId", .str "pay_Y"), ("theatreId", .str "th_1")]

/-- The payout example after it was settled. -/
def settledBooking : Doc :=
  [("paymentMethod", .str "Online"), ("status", .str "confirmed"),
   ("payoutStatus", .str "settled"), ("totalAmount", .num (.fin 500)),
   ("actualTicketPrice", .num (.fin 440)), ("theatreOwnerAccountId", .str "acc_X"),
   ("razorpayPaymentId", .str "pay_Y"), ("theatreId", .str "th_1")]

/-- The order example without a ticket price. -/
def missingPriceOrder : Doc :=
  [("totalAmount", .num (.fin 500)), ("ownerAccountId", .str "acc_X"),
   ("bookingId", .str "b1"), ("theatreId", .str "th_1")]

/-- The order example with an account id that does not match the pattern. -/
def badAccountOrder : Doc :=
  [("actualTicketPrice", .num (.fin 440)), ("totalAmount", .num (.fin 500)),
   ("ownerAccountId", .str "bad_123"), ("bookingId", .str "b1"), ("theatreId", .str "th_1")]

/-- The order example with a negative ticket price. -/
def negativePriceOrder : Doc :=
  [("actualTicketPrice", .num (.fin (-440))), ("totalAmount", .num (.fin 500)),
   ("ownerAccountId", .str "acc_X"), ("bookingId", .str "b1"), ("theatreId", .str "th_1")]

/-- The payout example with a negative ticket price. -/
def negativePriceBooking : Doc :=
  [("paymentMethod", .str "Online"), ("status", .str "confirmed"),
   ("payoutStatus", .str "pending"), ("totalAmount", .num (.fin 500)),
   ("actualTicketPrice", .num (.fin (-440))), ("theatreOwnerAccountId", .str "acc_X"),
   ("razorpayPaymentId", .str "pay_Y"), ("theatreId", .str "th_1")]

/-- The payout example with a negative total amount. -/
def negativeTotalBooking : Doc :=
  [("paymentMethod", .str "Online"), ("status", .str "confirmed"),
   ("payoutStatus", .str "pending"), ("totalAmount", .num (.fin (-500))),
   ("actualTicketPrice", .num (.fin 440)), ("theatreOwnerAccountId", .str "acc_X"),
   ("razorpayPaymentId", .str "pay_Y"), ("theatreId", .str "th_1")]

/-- The environment `okEnv` with a store that rejects every write to the settlement
collection. -/
def settlementFaultEnv : Env :=
  { okEnv with
    writeFault := fun c _ =>
      if c = "movie_booking_settlements" then some "UNAVAILABLE: The service is currently unavailable"
      else none }

/-- A cancellation call for booking `b1` with the total amount 112. -/
def refundRequestInput : Doc :=
  [("bookingId", .str "b1"), ("userId", .str "u1"), ("theatreId", .str "th_1"),
   ("amount", .num (.fin 112)), ("paymentId", .str "pay_Y"), ("showDate", .str "2025-01-01"),
   ("movieTitle", .str "Film"), ("theatreName", .str "Regal")]

/-- A world whose booking `b1` has no stored `actualTicketPrice`. -/
def bookingWithoutPriceWorld : World :=
  oneDocWorld "movie_bookings" "b1"
    [("paymentMethod", .str "Online"), ("status", .str "confirmed"),
     ("totalAmount", .num (.fin 112))]

/-- A refund request of 112 with ticket price 100, for the example of the recovery
lookup. -/
def refundOf112 : Doc :=
  [("bookingId", .str "b1"), ("userId", .str "u1"), ("theatreId", .str "th_1"),
   ("amount", .num (.fin 112)), ("actualTicketPrice", .num (.fin 100)),
   ("paymentId", .str "pay_Y"), ("reason", .str "User requested cancellation"),
   ("status", .str "pending")]

/-- A world that holds the pending refund request `r1` of 112 and nothing else: there is
no booking document, no theatre and no user. -/
def pendingRefundWorld : World := oneDocWorld "refund_requests" "r1" refundOf112

/-- A world that holds the pending refund request `r1` of 112 and its booking `b1`; there
is no theatre and no user, so the recovery lookup finds no account. -/
def pendingRefundWithBookingWorld : World where
  store := fun c i =>
    if c = "refund_requests" ∧ i = "r1" then some refundOf112
    else if c = "movie_bookings" ∧ i = "b1" then
      some [("paymentMethod", .str "Online"), ("status", .str "cancelled"),
        ("totalAmount", .num (.fin 112)), ("actualTicketPrice", .num (.fin 100))]
    else none
  log := []

/-- The environment `okEnv` with a gateway that rejects every refund. -/
def refundRejectingEnv : Env :=
  { okEnv with paymentRefund := fun _ _ => .error "The payment has been fully refunded already" }

/-- The payout example with a ticket price above the total: total 500, ticket price 600. -/
def overpricedBooking : Doc :=
  [("paymentMethod", .str "Online"), ("status", .str "confirmed"),
   ("payoutStatus", .str "pending"), ("totalAmount", .num (.fin 500)),
   ("actualTicketPrice", .num (.fin 600)), ("theatreOwnerAccountId", .str "acc_X"),
   ("razorpayPaymentId", .str "pay_Y"), ("theatreId", .str "th_1")]

/-- The environment `okEnv` with a messaging service that rejects every message. -/
def notifyRejectingEnv : Env :=
  { okEnv with messagingSend := fun _ => some "data must only contain string values" }

/-- A world that holds the pending refund request `r1` of 112, its booking `b1` and the
user `u1` with a device token; there is no theatre, so the recovery lookup finds no
account. -/
def refundWithUserWorld : World where
  store := fun c i =>
    if c = "refund_requests" ∧ i = "r1" then some refundOf112
    else if c = "movie_bookings" ∧ i = "b1" then
      some [("paymentMethod", .str "Online"), ("status", .str "cancelled"),
        ("totalAmount", .num (.fin 112)), ("actualTicketPrice", .num (.fin 100))]
    else if c = "users" ∧ i = "u1" then some [("fcmToken", .str "tok_1")]
    else none
  log := []

/-- The order example with a negative total: ticket price 440, total -500. -/
def negativeTotalOrder : Doc :=
  [("actualTicketPrice", .num (.fin 440)), ("totalAmount", .num (.fin (-500))),
   ("ownerAccountId", .str "acc_X"), ("bookingId", .str "b1"), ("theatreId", .str "th_1")]

/-! ## Theorems on the rounding to binary64 -/

theorem roundHalfEven_intCast (n : ℤ) : roundHalfEven (n : ℚ) = n := by
  simp [roundHalfEven]

theorem abs_roundHalfEven_sub_le (x : ℚ) : |(roundHalfEven x : ℚ) - x| ≤ 1 / 2 := by
  have h1 := Int.floor_le x
  have h2 := Int.lt_floor_add_one x
  unfold roundHalfEven
  rw [abs_le]
  split_ifs with a b c
  · constructor <;> linarith
  · constructor <;> push_cast <;> linarith
  · constructor <;> linarith
  · constructor <;> push_cast <;> linarith

theorem roundHalfEven_eq_of_lt (x : ℚ) (n : ℤ) (h1 : (n : ℚ) - 1 / 2 < x)
    (h2 : x < (n : ℚ) + 1 / 2) : roundHalfEven x = n := by
  have h := abs_le.mp (abs_roundHalfEven_sub_le x)
  have ha : ((roundHalfEven x - n : ℤ) : ℚ) < 1 := by push_cast; linarith [h.1, h.2]
  have hb : (-1 : ℚ) < ((roundHalfEven x - n : ℤ) : ℚ) := by push_cast; linarith [h.1, h.2]
  have ha' : roundHalfEven x - n < 1 := by exact_mod_cast ha
  have hb' : -1 < roundHalfEven x - n := by exact_mod_cast hb
  omega

theorem roundHalfEven_mono {x y : ℚ} (h : x ≤ y) : roundHalfEven x ≤ roundHalfEven y := by
  have hx1 := Int.floor_le x
  have hx2 := Int.lt_floor_add_one x
  have hy1 := Int.floor_le y
  have hy2 := Int.lt_floor_add_one y
  have hf : ⌊x⌋ ≤ ⌊y⌋ := Int.floor_le_floor h
  have hxu : roundHalfEven x ≤ ⌊x⌋ + 1 := by
    unfold roundHalfEven
    split_ifs <;> omega
  have hyl : ⌊y⌋ ≤ roundHalfEven y := by
    unfold roundHalfEven
    split_ifs <;> omega
  rcases hf.lt_or_eq with hlt | heq
  · omega
  · unfold roundHalfEven
    rw [← heq]
    rw [← heq] at hy1 hy2
    split_ifs <;> first | omega | (exfalso; linarith)


theorem ulpExponent_eq (q : ℚ) (e : ℤ) (h1 : (2 : ℚ) ^ e ≤ |q|) (h2 : |q| < (2 : ℚ) ^ (e + 1))
    (he : -1022 ≤ e) : ulpExponent q = e - 52 := by
  have hpos : 0 < |q| := lt_of_lt_of_le (by positivity) h1
  have hl : Int.log 2 |q| = e := by
    apply le_antisymm
    · have := (Int.lt_zpow_iff_log_lt (b := 2) (by norm_num) hpos).mp (by exact_mod_cast h2)
      omega
    · exact (Int.zpow_le_iff_le_log (b := 2) (by norm_num) hpos).mp (by exact_mod_cast h1)
  unfold ulpExponent
  rw [hl, max_eq_left he]

theorem ulpExponent_zero : ulpExponent 0 = -52 := by
  simp [ulpExponent, Int.log]

theorem roundToDouble_zero : roundToDouble 0 = 0 := by
  simp [roundToDouble, roundHalfEven]

theorem roundToDouble_of_scaled (q : ℚ) (m : ℤ) (h : q / (2 : ℚ) ^ ulpExponent q = m) :
    roundToDouble q = q := by
  unfold roundToDouble
  rw [h, roundHalfEven_intCast, ← h]
  have : (2 : ℚ) ^ ulpExponent q ≠ 0 := by positivity
  field_simp

theorem ulpExponent_intCast_nonpos (n : ℤ) (h : |n| < 2 ^ 53) : ulpExponent (n : ℚ) ≤ 0 := by
  by_cases hn : n = 0
  · subst hn
    simp [ulpExponent_zero]
  · have hpos : (0 : ℚ) < |(n : ℚ)| := abs_pos.mpr (by exact_mod_cast hn)
    have hlt : |(n : ℚ)| < ((2 : ℕ) : ℚ) ^ (53 : ℤ) := by
      have h0 : ((|n| : ℤ) : ℚ) < ((2 ^ 53 : ℤ) : ℚ) := Int.cast_lt.mpr h
      rw [Int.cast_abs] at h0
      calc |(n : ℚ)| < ((2 ^ 53 : ℤ) : ℚ) := h0
        _ = ((2 : ℕ) : ℚ) ^ (53 : ℤ) := by norm_num
    have := (Int.lt_zpow_iff_log_lt (b := 2) (by norm_num) hpos).mp hlt
    unfold ulpExponent
    have h2 : max (Int.log 2 |(n : ℚ)|) (-1022) ≤ 52 := max_le (by omega) (by norm_num)
    omega

theorem roundToDouble_intCast (n : ℤ) (h : |n| < 2 ^ 53) : roundToDouble (n : ℚ) = n := by
  have hu := ulpExponent_intCast_nonpos n h
  obtain ⟨k, hk⟩ : ∃ k : ℕ, ulpExponent (n : ℚ) = -(k : ℤ) :=
    ⟨(-ulpExponent (n : ℚ)).toNat, by omega⟩
  apply roundToDouble_of_scaled (n : ℚ) (n * 2 ^ k)
  rw [hk, zpow_neg, zpow_natCast]
  push_cast
  field_simp

theorem abs_roundToDouble_sub_le (q : ℚ) (h : (2 : ℚ) ^ (-1022 : ℤ) ≤ |q|) :
    |roundToDouble q - q| ≤ |q| / 2 ^ 53 := by
  have hpos : 0 < |q| := lt_of_lt_of_le (by positivity) h
  have hlog : -1022 ≤ Int.log 2 |q| :=
    (Int.zpow_le_iff_le_log (b := 2) (by norm_num) hpos).mp (by exact_mod_cast h)
  have hle : (2 : ℚ) ^ Int.log 2 |q| ≤ |q| := by
    have := Int.zpow_log_le_self (b := 2) (r := |q|) (by norm_num) hpos
    exact_mod_cast this
  have hu : ulpExponent q = Int.log 2 |q| - 52 := by
    unfold ulpExponent
    rw [max_eq_left hlog]
  have hs : (0 : ℚ) < (2 : ℚ) ^ ulpExponent q := by positivity
  have hr := abs_roundHalfEven_sub_le (q / (2 : ℚ) ^ ulpExponent q)
  have heq : roundToDouble q - q =
      ((roundHalfEven (q / (2 : ℚ) ^ ulpExponent q) : ℚ) - q / (2 : ℚ) ^ ulpExponent q) *
        (2 : ℚ) ^ ulpExponent q := by
    unfold roundToDouble
    field_simp
  rw [heq, abs_mul, abs_of_pos hs]
  have h53 : (2 : ℚ) ^ ulpExponent q = (2 : ℚ) ^ Int.log 2 |q| / 2 ^ 52 := by
    rw [hu, zpow_sub₀ (by norm_num)]
    norm_num
  calc |(roundHalfEven (q / (2 : ℚ) ^ ulpExponent q) : ℚ) - q / (2 : ℚ) ^ ulpExponent q| *
        (2 : ℚ) ^ ulpExponent q
      ≤ 1 / 2 * (2 : ℚ) ^ ulpExponent q := by
        exact mul_le_mul_of_nonneg_right hr hs.le
    _ = (2 : ℚ) ^ Int.log 2 |q| / 2 ^ 53 := by
        rw [h53]
        ring
    _ ≤ |q| / 2 ^ 53 := by
        exact div_le_div_of_nonneg_right hle (by positivity)


theorem roundToDouble_nonneg (q : ℚ) (h : 0 ≤ q) : 0 ≤ roundToDouble q := by
  unfold roundToDouble
  have hs : (0 : ℚ) < (2 : ℚ) ^ ulpExponent q := by positivity
  have h0 : (0 : ℤ) ≤ roundHalfEven (q / (2 : ℚ) ^ ulpExponent q) := by
    have := roundHalfEven_mono (div_nonneg h hs.le)
    rwa [show (0 : ℚ) = ((0 : ℤ) : ℚ) by norm_num, roundHalfEven_intCast] at this
  have h1 : (0 : ℚ) ≤ (roundHalfEven (q / (2 : ℚ) ^ ulpExponent q) : ℚ) := by exact_mod_cast h0
  positivity

theorem roundToDouble_nonpos (q : ℚ) (h : q ≤ 0) : roundToDouble q ≤ 0 := by
  unfold roundToDouble
  have hs : (0 : ℚ) < (2 : ℚ) ^ ulpExponent q := by positivity
  have h0 : roundHalfEven (q / (2 : ℚ) ^ ulpExponent q) ≤ (0 : ℤ) := by
    have := roundHalfEven_mono (div_nonpos_of_nonpos_of_nonneg h hs.le)
    rwa [show (0 : ℚ) = ((0 : ℤ) : ℚ) by norm_num, roundHalfEven_intCast] at this
  have h1 : (roundHalfEven (q / (2 : ℚ) ^ ulpExponent q) : ℚ) ≤ 0 := by exact_mod_cast h0
  exact mul_nonpos_of_nonpos_of_nonneg h1 hs.le

theorem roundToDouble_mono_of_pos {x y : ℚ} (hx : 0 < x) (h : x ≤ y) :
    roundToDouble x ≤ roundToDouble y := by
  have hy : 0 < y := lt_of_lt_of_le hx h
  have hlog : Int.log 2 x ≤ Int.log 2 y := Int.log_mono_right hx h
  have hux : ulpExponent x = max (Int.log 2 x) (-1022) - 52 := by
    rw [ulpExponent, abs_of_pos hx]
  have huy : ulpExponent y = max (Int.log 2 y) (-1022) - 52 := by
    rw [ulpExponent, abs_of_pos hy]
  have hsx : (0 : ℚ) < (2 : ℚ) ^ ulpExponent x := by positivity
  have hsy : (0 : ℚ) < (2 : ℚ) ^ ulpExponent y := by positivity
  rcases (max_le_max hlog (le_refl (-1022 : ℤ))).lt_or_eq with hlt | heq
  · have hey : max (Int.log 2 y) (-1022) = Int.log 2 y := by
      apply max_eq_left
      have : -1022 ≤ max (Int.log 2 x) (-1022) := le_max_right _ _
      by_contra hc
      rw [max_eq_right (by omega)] at hlt
      omega
    have hylo : (2 : ℚ) ^ Int.log 2 y ≤ y := by
      have := Int.zpow_log_le_self (b := 2) (r := y) (by norm_num) hy
      exact_mod_cast this
    have hxhi : x < (2 : ℚ) ^ (Int.log 2 x + 1) := by
      have := Int.lt_zpow_succ_log_self (b := 2) (by norm_num) x
      exact_mod_cast this
    have hxhi2 : x ≤ (2 : ℚ) ^ (max (Int.log 2 x) (-1022) + 1) :=
      le_trans hxhi.le (zpow_le_zpow_right₀ (by norm_num) (by
        have := le_max_left (Int.log 2 x) (-1022)
        omega))
    have hxr : roundToDouble x ≤ (2 : ℚ) ^ (max (Int.log 2 x) (-1022) + 1) := by
      unfold roundToDouble
      have hq : x / (2 : ℚ) ^ ulpExponent x ≤ (((2 : ℤ) ^ 53 : ℤ) : ℚ) := by
        rw [div_le_iff₀ hsx, hux]
        calc x ≤ (2 : ℚ) ^ (max (Int.log 2 x) (-1022) + 1) := hxhi2
          _ = (((2 : ℤ) ^ 53 : ℤ) : ℚ) * (2 : ℚ) ^ (max (Int.log 2 x) (-1022) - 52) := by
            rw [show max (Int.log 2 x) (-1022) + 1 = 53 + (max (Int.log 2 x) (-1022) - 52) by ring,
              zpow_add₀ (by norm_num)]
            norm_num
      have hr := roundHalfEven_mono hq
      rw [roundHalfEven_intCast] at hr
      have hr2 : (roundHalfEven (x / (2 : ℚ) ^ ulpExponent x) : ℚ) ≤ (((2 : ℤ) ^ 53 : ℤ) : ℚ) := by
        exact_mod_cast hr
      calc (roundHalfEven (x / (2 : ℚ) ^ ulpExponent x) : ℚ) * (2 : ℚ) ^ ulpExponent x
          ≤ (((2 : ℤ) ^ 53 : ℤ) : ℚ) * (2 : ℚ) ^ ulpExponent x :=
            mul_le_mul_of_nonneg_right hr2 hsx.le
        _ = (2 : ℚ) ^ (max (Int.log 2 x) (-1022) + 1) := by
            rw [hux, show max (Int.log 2 x) (-1022) + 1 =
              53 + (max (Int.log 2 x) (-1022) - 52) by ring, zpow_add₀ (by norm_num)]
            norm_num
    have hyr : (2 : ℚ) ^ Int.log 2 y ≤ roundToDouble y := by
      unfold roundToDouble
      have hq : (((2 : ℤ) ^ 52 : ℤ) : ℚ) ≤ y / (2 : ℚ) ^ ulpExponent y := by
        rw [le_div_iff₀ hsy, huy, hey]
        calc (((2 : ℤ) ^ 52 : ℤ) : ℚ) * (2 : ℚ) ^ (Int.log 2 y - 52)
            = (2 : ℚ) ^ Int.log 2 y := by
              rw [zpow_sub₀ (by norm_num)]
              norm_num
              field_simp
          _ ≤ y := hylo
      have hr := roundHalfEven_mono hq
      rw [roundHalfEven_intCast] at hr
      have hr2 : (((2 : ℤ) ^ 52 : ℤ) : ℚ) ≤ (roundHalfEven (y / (2 : ℚ) ^ ulpExponent y) : ℚ) := by
        exact_mod_cast hr
      calc (2 : ℚ) ^ Int.log 2 y
          = (((2 : ℤ) ^ 52 : ℤ) : ℚ) * (2 : ℚ) ^ ulpExponent y := by
            rw [huy, hey, zpow_sub₀ (by norm_num)]
            norm_num
            field_simp
        _ ≤ (roundHalfEven (y / (2 : ℚ) ^ ulpExponent y) : ℚ) * (2 : ℚ) ^ ulpExponent y :=
            mul_le_mul_of_nonneg_right hr2 hsy.le
    calc roundToDouble x ≤ (2 : ℚ) ^ (max (Int.log 2 x) (-1022) + 1) := hxr
      _ ≤ (2 : ℚ) ^ Int.log 2 y := zpow_le_zpow_right₀ (by norm_num) (by omega)
      _ ≤ roundToDouble y := hyr
  · have hu : ulpExponent x = ulpExponent y := by rw [hux, huy, heq]
    unfold roundToDouble
    rw [hu]
    have hq : x / (2 : ℚ) ^ ulpExponent y ≤ y / (2 : ℚ) ^ ulpExponent y :=
      div_le_div_of_nonneg_right h hsy.le
    have hr : (roundHalfEven (x / (2 : ℚ) ^ ulpExponent y) : ℚ) ≤
        (roundHalfEven (y / (2 : ℚ) ^ ulpExponent y) : ℚ) := by
      exact_mod_cast roundHalfEven_mono hq
    exact mul_le_mul_of_nonneg_right hr hsy.le

theorem roundToDouble_mono_of_nonneg {x y : ℚ} (hy : 0 ≤ y) (h : x ≤ y) :
    roundToDouble x ≤ roundToDouble y := by
  rcases lt_or_le 0 x with hx | hx
  · exact roundToDouble_mono_of_pos hx h
  · exact le_trans (roundToDouble_nonpos x hx) (roundToDouble_nonneg y hy)


theorem abs_roundToDouble_le (q : ℚ) (h : (2 : ℚ) ^ (-1022 : ℤ) ≤ |q|) :
    |roundToDouble q| ≤ |q| * (1 + 1 / 2 ^ 53) := by
  have h1 := abs_roundToDouble_sub_le q h
  have h2 : |roundToDouble q| ≤ |roundToDouble q - q| + |q| := by
    have := abs_add (roundToDouble q - q) q
    simpa using this
  have : |q| * (1 + 1 / 2 ^ 53) = |q| / 2 ^ 53 + |q| := by ring
  linarith

theorem toDouble_fin_of_lt (q : ℚ) (h : |roundToDouble q| < (2 : ℚ) ^ (1024 : ℕ)) :
    (JsNum.fin q).toDouble = .fin (roundToDouble q) := by
  simp [JsNum.toDouble, not_le.mpr h]

theorem round_fin_eq (z : ℚ) (k : ℤ) (h1 : (k : ℚ) - 1 / 2 ≤ z) (h2 : z < (k : ℚ) + 1 / 2) :
    JsNum.round (.fin z) = .fin k := by
  have : ⌊z + 1 / 2⌋ = k := by
    rw [Int.floor_eq_iff]
    constructor <;> linarith
  simp only [JsNum.round, this]

/-- An amount with two decimals, up to 10^15 paise, converts to exactly its number of
paise: the two roundings to binary64 move the product by less than one half. -/
theorem toPaise_cents (k : ℤ) (hk : |k| ≤ 10 ^ 15) :
    toPaise (.num (.fin ((k : ℚ) / 100))) = .fin k := by
  by_cases h0 : k = 0
  · subst h0
    have hz0 : (JsNum.fin 0).toDouble = .fin 0 := by
      rw [toDouble_fin_of_lt 0 (by rw [roundToDouble_zero]; norm_num), roundToDouble_zero]
    simp only [toPaise, toNumber, Int.cast_zero, zero_div, hz0, JsNum.mul, zero_mul]
    exact round_fin_eq 0 0 (by norm_num) (by norm_num)
  have hkq : (1 : ℚ) ≤ |(k : ℚ)| := by
    have : (1 : ℤ) ≤ |k| := Int.one_le_abs h0
    exact_mod_cast this
  have hkb : |(k : ℚ)| ≤ 10 ^ 15 := by exact_mod_cast hk
  have hsmall : (2 : ℚ) ^ (-1022 : ℤ) ≤ 1 / 200 := by
    rw [zpow_neg, ← one_div]
    apply one_div_le_one_div_of_le (by norm_num)
    calc (200 : ℚ) ≤ 2 ^ (8 : ℤ) := by norm_num
      _ ≤ 2 ^ (1022 : ℤ) := zpow_le_zpow_right₀ (by norm_num) (by norm_num)
  have hbig : (10 : ℚ) ^ 16 < (2 : ℚ) ^ (1024 : ℕ) := by
    calc (10 : ℚ) ^ 16 < 2 ^ (64 : ℕ) := by norm_num
      _ ≤ 2 ^ (1024 : ℕ) := pow_le_pow_right₀ (by norm_num) (by norm_num)
  -- the operand
  have hd : |(k : ℚ) / 100| = |(k : ℚ)| / 100 := by
    rw [abs_div]
    norm_num
  have hd1 : (2 : ℚ) ^ (-1022 : ℤ) ≤ |(k : ℚ) / 100| := by
    rw [hd]
    linarith
  have ex := abs_roundToDouble_sub_le ((k : ℚ) / 100) hd1
  have ex2 := abs_roundToDouble_le ((k : ℚ) / 100) hd1
  rw [hd] at ex ex2
  have hx : (JsNum.fin ((k : ℚ) / 100)).toDouble = .fin (roundToDouble ((k : ℚ) / 100)) := by
    apply toDouble_fin_of_lt
    have : |(k : ℚ)| / 100 * (1 + 1 / 2 ^ 53) ≤ 10 ^ 16 := by
      have : (1 : ℚ) + 1 / 2 ^ 53 ≤ 2 := by norm_num
      nlinarith [abs_nonneg (k : ℚ)]
    linarith
  -- the product
  have ey0 : |roundToDouble ((k : ℚ) / 100) * 100 - k| ≤ |(k : ℚ)| / 2 ^ 53 := by
    have : roundToDouble ((k : ℚ) / 100) * 100 - k =
        (roundToDouble ((k : ℚ) / 100) - (k : ℚ) / 100) * 100 := by ring
    rw [this, abs_mul]
    have h100 : |(100 : ℚ)| = 100 := by norm_num
    rw [h100]
    have := mul_le_mul_of_nonneg_right ex (by norm_num : (0 : ℚ) ≤ 100)
    calc |roundToDouble ((k : ℚ) / 100) - (k : ℚ) / 100| * 100
        ≤ |(k : ℚ)| / 100 / 2 ^ 53 * 100 := this
      _ = |(k : ℚ)| / 2 ^ 53 := by ring
  have hy_lo : |(k : ℚ)| * (1 - 1 / 2 ^ 53) ≤ |roundToDouble ((k : ℚ) / 100) * 100| := by
    have := abs_sub_abs_le_abs_sub (k : ℚ) (roundToDouble ((k : ℚ) / 100) * 100)
    rw [abs_sub_comm] at this
    have e : |(k : ℚ)| * (1 - 1 / 2 ^ 53) = |(k : ℚ)| - |(k : ℚ)| / 2 ^ 53 := by ring
    linarith
  have hy_hi : |roundToDouble ((k : ℚ) / 100) * 100| ≤ |(k : ℚ)| * (1 + 1 / 2 ^ 53) := by
    have := abs_sub_abs_le_abs_sub (roundToDouble ((k : ℚ) / 100) * 100) (k : ℚ)
    have e : |(k : ℚ)| * (1 + 1 / 2 ^ 53) = |(k : ℚ)| + |(k : ℚ)| / 2 ^ 53 := by ring
    linarith
  have hy1 : (2 : ℚ) ^ (-1022 : ℤ) ≤ |roundToDouble ((k : ℚ) / 100) * 100| := by
    have : (1 : ℚ) / 200 ≤ |(k : ℚ)| * (1 - 1 / 2 ^ 53) := by
      have : (1 : ℚ) / 2 ≤ 1 - 1 / 2 ^ 53 := by norm_num
      nlinarith
    linarith
  have ez := abs_roundToDouble_sub_le _ hy1
  have ez2 := abs_roundToDouble_le _ hy1
  have hz : (JsNum.fin (roundToDouble ((k : ℚ) / 100) * 100)).toDouble =
      .fin (roundToDouble (roundToDouble ((k : ℚ) / 100) * 100)) := by
    apply toDouble_fin_of_lt
    have h2 : (1 : ℚ) + 1 / 2 ^ 53 ≤ 2 := by norm_num
    have h3 : |roundToDouble ((k : ℚ) / 100) * 100| ≤ 2 * 10 ^ 15 := by nlinarith
    have h4 : |roundToDouble ((k : ℚ) / 100) * 100| * (1 + 1 / 2 ^ 53) ≤ 10 ^ 16 := by
      nlinarith [abs_nonneg (roundToDouble ((k : ℚ) / 100) * 100)]
    linarith
  -- the distance of the rounded product to k
  have hfin : |roundToDouble (roundToDouble ((k : ℚ) / 100) * 100) - k| < 1 / 2 := by
    have htri : |roundToDouble (roundToDouble ((k : ℚ) / 100) * 100) - k| ≤
        |roundToDouble (roundToDouble ((k : ℚ) / 100) * 100) -
          roundToDouble ((k : ℚ) / 100) * 100| +
        |roundToDouble ((k : ℚ) / 100) * 100 - k| := abs_sub_le _ _ _
    have h5 : |roundToDouble ((k : ℚ) / 100) * 100| / 2 ^ 53 ≤
        |(k : ℚ)| * (1 + 1 / 2 ^ 53) / 2 ^ 53 :=
      div_le_div_of_nonneg_right hy_hi (by positivity)
    have h6 : |(k : ℚ)| * (1 + 1 / 2 ^ 53) / 2 ^ 53 + |(k : ℚ)| / 2 ^ 53 < 1 / 2 := by
      have : |(k : ℚ)| * (1 + 1 / 2 ^ 53) / 2 ^ 53 + |(k : ℚ)| / 2 ^ 53 =
          |(k : ℚ)| * ((2 + 1 / 2 ^ 53) / 2 ^ 53) := by ring
      rw [this]
      have h7 : ((2 : ℚ) + 1 / 2 ^ 53) / 2 ^ 53 < 1 / (4 * 10 ^ 15) := by norm_num
      have h8 : (0 : ℚ) ≤ (2 + 1 / 2 ^ 53) / 2 ^ 53 := by positivity
      calc |(k : ℚ)| * ((2 + 1 / 2 ^ 53) / 2 ^ 53)
          ≤ 10 ^ 15 * ((2 + 1 / 2 ^ 53) / 2 ^ 53) := mul_le_mul_of_nonneg_right hkb h8
        _ < 10 ^ 15 * (1 / (4 * 10 ^ 15)) := by
            apply mul_lt_mul_of_pos_left h7 (by positivity)
        _ < 1 / 2 := by norm_num
    linarith
  have hab := abs_lt.mp hfin
  simp only [toPaise, toNumber, hx, JsNum.mul, hz]
  exact round_fin_eq _ k (by linarith [hab.1]) (by linarith [hab.2])

theorem roundToDouble_eq (q : ℚ) (e n : ℤ) (hq : 0 ≤ q) (h1 : (2 : ℚ) ^ e ≤ q)
    (h2 : q < (2 : ℚ) ^ (e + 1)) (he : -1022 ≤ e)
    (h3 : (n : ℚ) - 1 / 2 < q / (2 : ℚ) ^ (e - 52))
    (h4 : q / (2 : ℚ) ^ (e - 52) < (n : ℚ) + 1 / 2) :
    roundToDouble q = (n : ℚ) * (2 : ℚ) ^ (e - 52) := by
  unfold roundToDouble
  rw [ulpExponent_eq q e (by rwa [abs_of_nonneg hq]) (by rwa [abs_of_nonneg hq]) he,
    roundHalfEven_eq_of_lt _ n h3 h4]

theorem toPaise_eval (q r z : ℚ) (k : ℤ) (hr : roundToDouble q = r)
    (hz : roundToDouble (r * 100) = z) (hr0 : 0 ≤ r) (hr1 : r < 10 ^ 16)
    (hz0 : 0 ≤ z) (hz1 : z < 10 ^ 16) (h1 : (k : ℚ) - 1 / 2 ≤ z) (h2 : z < (k : ℚ) + 1 / 2) :
    toPaise (.num (.fin q)) = .fin k := by
  have hb : (10 : ℚ) ^ 16 < (2 : ℚ) ^ (1024 : ℕ) := by
    calc (10 : ℚ) ^ 16 < 2 ^ (64 : ℕ) := by norm_num
      _ ≤ 2 ^ (1024 : ℕ) := pow_le_pow_right₀ (by norm_num) (by norm_num)
  have hx : (JsNum.fin q).toDouble = .fin r := by
    rw [toDouble_fin_of_lt q (by rw [hr, abs_of_nonneg hr0]; exact lt_trans hr1 hb), hr]
  have hy : (JsNum.fin (r * 100)).toDouble = .fin z := by
    rw [toDouble_fin_of_lt (r * 100) (by rw [hz, abs_of_nonneg hz0]; exact lt_trans hz1 hb), hz]
  simp only [toPaise, toNumber, hx, JsNum.mul, hy]
  exact round_fin_eq z k h1 h2

/-- The conversion at prices whose product with 100 lies next to a half, where the
rounding of the product to a double decides the result: the model gives what
`Math.round(x * 100)` gives on doubles.  The price 0.615 gives 62 (the double nearest to
0.615 is below it, and its exact product with 100 would round to 61); the prices 1.005
and 8.325 give 100 and 832 (their exact products with 100 would round to 101 and 833). -/
theorem toPaise_near_half :
    toPaise (.num (.fin (123 / 200))) = .fin 62 ∧
    toPaise (.num (.fin (2769713770832855 / 4503599627370496))) = .fin 62 ∧
    ⌊(2769713770832855 / 4503599627370496 : ℚ) * 100 + 1 / 2⌋ = 61 ∧
    toPaise (.num (.fin (201 / 200))) = .fin 100 ∧
    ⌊(201 / 200 : ℚ) * 100 + 1 / 2⌋ = 101 ∧
    toPaise (.num (.fin (333 / 40))) = .fin 832 ∧
    ⌊(333 / 40 : ℚ) * 100 + 1 / 2⌋ = 833 := by
  refine ⟨?_, ?_, ?_, ?_, ?_, ?_, ?_⟩
  · apply toPaise_eval (123 / 200) (2769713770832855 / 4503599627370496)
      (123 / 2) 62
    · rw [roundToDouble_eq (123 / 200) (-1) 5539427541665710 (by norm_num) (by norm_num)
        (by norm_num) (by norm_num) (by norm_num) (by norm_num)]
      norm_num
    · rw [roundToDouble_eq _ 5 8655355533852672 (by norm_num) (by norm_num) (by norm_num)
        (by norm_num) (by norm_num) (by norm_num)]
      norm_num
    · norm_num
    · norm_num
    · norm_num
    · norm_num
    · norm_num
    · norm_num
  · apply toPaise_eval (2769713770832855 / 4503599627370496) (2769713770832855 / 4503599627370496)
      (123 / 2) 62
    · rw [roundToDouble_eq (2769713770832855 / 4503599627370496) (-1) 5539427541665710 (by norm_num) (by norm_num)
        (by norm_num) (by norm_num) (by norm_num) (by norm_num)]
      norm_num
    · rw [roundToDouble_eq _ 5 8655355533852672 (by norm_num) (by norm_num) (by norm_num)
        (by norm_num) (by norm_num) (by norm_num)]
      norm_num
    · norm_num
    · norm_num
    · norm_num
    · norm_num
    · norm_num
    · norm_num
  · rw [Int.floor_eq_iff]
    constructor <;> norm_num
  · apply toPaise_eval (201 / 200) (1131529406376837 / 1125899906842624)
      (7072058789855231 / 70368744177664) 100
    · rw [roundToDouble_eq (201 / 200) 0 4526117625507348 (by norm_num) (by norm_num)
        (by norm_num) (by norm_num) (by norm_num) (by norm_num)]
      norm_num
    · rw [roundToDouble_eq _ 6 7072058789855231 (by norm_num) (by norm_num) (by norm_num)
        (by norm_num) (by norm_num) (by norm_num)]
      norm_num
    · norm_num
    · norm_num
    · norm_num
    · norm_num
    · norm_num
    · norm_num
  · rw [Int.floor_eq_iff]
    constructor <;> norm_num
  · apply toPaise_eval (333 / 40) (2343279181116211 / 281474976710656)
      (7322747440988159 / 8796093022208) 832
    · rw [roundToDouble_eq (333 / 40) 3 4686558362232422 (by norm_num) (by norm_num)
        (by norm_num) (by norm_num) (by norm_num) (by norm_num)]
      norm_num
    · rw [roundToDouble_eq _ 9 7322747440988159 (by norm_num) (by norm_num) (by norm_num)
        (by norm_num) (by norm_num) (by norm_num)]
      norm_num
    · norm_num
    · norm_num
    · norm_num
    · norm_num
    · norm_num
    · norm_num
  · rw [Int.floor_eq_iff]
    constructor <;> norm_num

theorem JsNum.inf_le_inf_false (n : Bool) : (JsNum.inf n).le (.inf false) = true := by
  cases n <;> rfl

theorem JsNum.fin_le_inf_false (a : ℚ) : (JsNum.fin a).le (.inf false) = true := rfl

theorem JsNum.inf_true_le_fin (b : ℚ) : (JsNum.inf true).le (.fin b) = true := rfl

theorem JsNum.fin_le_fin (a b : ℚ) : (JsNum.fin a).le (.fin b) = decide (a ≤ b) := rfl

theorem JsNum.inf_mul_hundred (n : Bool) : (JsNum.inf n).mul (.fin 100) = .inf n := by
  have h : ¬ ((100 : ℚ) < 0) := by norm_num
  simp [JsNum.mul, h]

theorem toDouble_le (x y : JsNum) (h : x.le y = true) (h0 : (JsNum.fin 0).le y = true) :
    x.toDouble.le y.toDouble = true ∧ (JsNum.fin 0).le y.toDouble = true := by
  cases y with
  | nan => cases x <;> simp [JsNum.le] at h
  | inf n =>
    cases n with
    | true => simp [JsNum.le] at h0
    | false =>
      cases x with
      | nan => simp [JsNum.le] at h
      | inf m => exact ⟨JsNum.inf_le_inf_false m, rfl⟩
      | fin a =>
        simp only [JsNum.toDouble]
        split_ifs
        · exact ⟨JsNum.inf_le_inf_false _, rfl⟩
        · exact ⟨rfl, rfl⟩
  | fin b =>
    have hb : 0 ≤ b := by simpa [JsNum.le] using h0
    have hrb := roundToDouble_nonneg b hb
    have hnb : decide (b < 0) = false := by simpa using hb
    cases x with
    | nan => simp [JsNum.le] at h
    | inf m =>
      cases m with
      | false => simp [JsNum.le] at h
      | true =>
        simp only [JsNum.toDouble, hnb]
        split_ifs
        · exact ⟨rfl, rfl⟩
        · exact ⟨rfl, by simpa [JsNum.fin_le_fin] using hrb⟩
    | fin a =>
      have hab : a ≤ b := by simpa [JsNum.le] using h
      have hm := roundToDouble_mono_of_nonneg hb hab
      simp only [JsNum.toDouble, hnb]
      by_cases hob : (2 : ℚ) ^ (1024 : ℕ) ≤ |roundToDouble b|
      · rw [if_pos hob]
        split_ifs
        · exact ⟨JsNum.inf_le_inf_false _, rfl⟩
        · exact ⟨rfl, rfl⟩
      · rw [if_neg hob]
        rw [abs_of_nonneg hrb] at hob
        by_cases hoa : (2 : ℚ) ^ (1024 : ℕ) ≤ |roundToDouble a|
        · rw [if_pos hoa]
          by_cases ha : a < 0
          · have hda : decide (a < 0) = true := by simpa using ha
            rw [hda]
            exact ⟨rfl, by simpa [JsNum.fin_le_fin] using hrb⟩
          · exfalso
            rw [abs_of_nonneg (roundToDouble_nonneg a (not_lt.mp ha))] at hoa
            exact hob (le_trans hoa hm)
        · rw [if_neg hoa]
          exact ⟨by simpa [JsNum.fin_le_fin] using hm, by simpa [JsNum.fin_le_fin] using hrb⟩

theorem mul_hundred_le (x y : JsNum) (h : x.le y = true) (h0 : (JsNum.fin 0).le y = true) :
    (x.mul (.fin 100)).le (y.mul (.fin 100)) = true ∧
      (JsNum.fin 0).le (y.mul (.fin 100)) = true := by
  cases y with
  | nan => cases x <;> simp [JsNum.le] at h
  | inf n =>
    cases n with
    | true => simp [JsNum.le] at h0
    | false =>
      rw [JsNum.inf_mul_hundred]
      cases x with
      | nan => simp [JsNum.le] at h
      | inf m =>
        rw [JsNum.inf_mul_hundred]
        exact ⟨JsNum.inf_le_inf_false m, rfl⟩
      | fin a => exact ⟨rfl, rfl⟩
  | fin b =>
    have hb : 0 ≤ b := by simpa [JsNum.le] using h0
    have hb2 : (0 : ℚ) ≤ b * 100 := by positivity
    cases x with
    | nan => simp [JsNum.le] at h
    | inf m =>
      cases m with
      | false => simp [JsNum.le] at h
      | true =>
        rw [JsNum.inf_mul_hundred]
        exact ⟨rfl, by simpa [JsNum.mul, JsNum.fin_le_fin] using hb2⟩
    | fin a =>
      have hab : a ≤ b := by simpa [JsNum.le] using h
      have hab2 : a * 100 ≤ b * 100 := by linarith
      exact ⟨by simpa [JsNum.mul, JsNum.fin_le_fin] using hab2,
        by simpa [JsNum.mul, JsNum.fin_le_fin] using hb2⟩

theorem round_le (x y : JsNum) (h : x.le y = true) (h0 : (JsNum.fin 0).le y = true) :
    x.round.le y.round = true ∧ (JsNum.fin 0).le y.round = true := by
  cases y with
  | nan => cases x <;> simp [JsNum.le] at h
  | inf n =>
    cases n with
    | true => simp [JsNum.le] at h0
    | false =>
      cases x with
      | nan => simp [JsNum.le] at h
      | inf m => exact ⟨JsNum.inf_le_inf_false m, rfl⟩
      | fin a => exact ⟨rfl, rfl⟩
  | fin b =>
    have hb : 0 ≤ b := by simpa [JsNum.le] using h0
    have hfb : (0 : ℤ) ≤ ⌊b + 1 / 2⌋ := Int.floor_nonneg.mpr (by linarith)
    have hfb2 : (0 : ℚ) ≤ (⌊b + 1 / 2⌋ : ℚ) := by exact_mod_cast hfb
    cases x with
    | nan => simp [JsNum.le] at h
    | inf m =>
      cases m with
      | false => simp [JsNum.le] at h
      | true =>
        simp only [JsNum.round, JsNum.le, decide_eq_true_eq]
        exact ⟨trivial, hfb2⟩
    | fin a =>
      have hab : a ≤ b := by simpa [JsNum.le] using h
      have hfl : ⌊a + 1 / 2⌋ ≤ ⌊b + 1 / 2⌋ := Int.floor_le_floor (by linarith)
      have hfl2 : (⌊a + 1 / 2⌋ : ℚ) ≤ (⌊b + 1 / 2⌋ : ℚ) := by exact_mod_cast hfl
      simp only [JsNum.round, JsNum.le, decide_eq_true_eq]
      exact ⟨hfl2, hfb2⟩

/-- The conversion to paise keeps the order of amounts below a non-negative amount, and
a non-negative amount converts to a non-negative number of paise. -/
theorem toPaise_le (p t : ℚ) (ht : 0 ≤ t) (h : p ≤ t) :
    (toPaise (.num (.fin p))).le (toPaise (.num (.fin t))) = true ∧
      (JsNum.fin 0).le (toPaise (.num (.fin t))) = true := by
  have h1 := toDouble_le (.fin p) (.fin t) (by simpa [JsNum.le] using h)
    (by simpa [JsNum.le] using ht)
  have h2 := mul_hundred_le _ _ h1.1 h1.2
  have h3 := toDouble_le _ _ h2.1 h2.2
  exact round_le _ _ h3.1 h3.2


theorem abs_roundToDouble_sub_le_add (q : ℚ) :
    |roundToDouble q - q| ≤ |q| / 2 ^ 53 + (2 : ℚ) ^ (-1075 : ℤ) := by
  have hδ0 : (0 : ℚ) ≤ (2 : ℚ) ^ (-1075 : ℤ) := by positivity
  by_cases hq0 : q = 0
  · subst hq0
    rw [roundToDouble_zero]
    simpa using hδ0
  by_cases hq : (2 : ℚ) ^ (-1022 : ℤ) ≤ |q|
  · have := abs_roundToDouble_sub_le q hq
    linarith
  · have hpos : 0 < |q| := abs_pos.mpr hq0
    have hu : ulpExponent q = -1074 := by
      unfold ulpExponent
      have hl : Int.log 2 |q| ≤ -1022 := by
        have hlt : |q| < ((2 : ℕ) : ℚ) ^ (-1022 : ℤ) := by
          rw [Nat.cast_ofNat]
          exact not_le.mp hq
        have := (Int.lt_zpow_iff_log_lt (b := 2) (by norm_num) hpos).mp hlt
        omega
      rw [max_eq_right hl]
      norm_num
    have hs : (0 : ℚ) < (2 : ℚ) ^ ulpExponent q := by positivity
    have hr := abs_roundHalfEven_sub_le (q / (2 : ℚ) ^ ulpExponent q)
    have heq : roundToDouble q - q =
        ((roundHalfEven (q / (2 : ℚ) ^ ulpExponent q) : ℚ) - q / (2 : ℚ) ^ ulpExponent q) *
          (2 : ℚ) ^ ulpExponent q := by
      unfold roundToDouble
      field_simp
    rw [heq, abs_mul, abs_of_pos hs]
    have hval : (1 : ℚ) / 2 * (2 : ℚ) ^ ulpExponent q = (2 : ℚ) ^ (-1075 : ℤ) := by
      rw [hu, show (-1075 : ℤ) = -1 + -1074 by norm_num, zpow_add₀ (by norm_num)]
      norm_num
    have h0 : (0 : ℚ) ≤ |q| / 2 ^ 53 := by positivity
    calc |(roundHalfEven (q / (2 : ℚ) ^ ulpExponent q) : ℚ) - q / (2 : ℚ) ^ ulpExponent q| *
          (2 : ℚ) ^ ulpExponent q
        ≤ 1 / 2 * (2 : ℚ) ^ ulpExponent q := mul_le_mul_of_nonneg_right hr hs.le
      _ = (2 : ℚ) ^ (-1075 : ℤ) := hval
      _ ≤ |q| / 2 ^ 53 + (2 : ℚ) ^ (-1075 : ℤ) := by linarith

/-- For every amount up to 10^13 the number of paise is an integer within one half of the
hundredfold amount, up to the two roundings to binary64, which move the product by at
most `(|p * 100| + 1) / 2 ^ 51`. -/
theorem toPaise_near (p : ℚ) (hp : |p| ≤ 10 ^ 13) :
    ∃ k : ℤ, toPaise (.num (.fin p)) = .fin k ∧
      |(k : ℚ) - p * 100| ≤ 1 / 2 + (|p * 100| + 1) / 2 ^ 51 := by
  have hb : (10 : ℚ) ^ 16 < (2 : ℚ) ^ (1024 : ℕ) := by
    calc (10 : ℚ) ^ 16 < 2 ^ (64 : ℕ) := by norm_num
      _ ≤ 2 ^ (1024 : ℕ) := pow_le_pow_right₀ (by norm_num) (by norm_num)
  have hδ : (2 : ℚ) ^ (-1075 : ℤ) ≤ 1 / 2 ^ 64 := by
    calc (2 : ℚ) ^ (-1075 : ℤ) ≤ (2 : ℚ) ^ (-64 : ℤ) :=
          zpow_le_zpow_right₀ (by norm_num) (by norm_num)
      _ = 1 / 2 ^ 64 := by norm_num
  have hδ0 : (0 : ℚ) ≤ (2 : ℚ) ^ (-1075 : ℤ) := by positivity
  have hp0 := abs_nonneg p
  have hP : |p * 100| = |p| * 100 := by
    rw [abs_mul]
    norm_num
  have ex := abs_roundToDouble_sub_le_add p
  have hxa : |roundToDouble p| ≤ |p| + (|p| / 2 ^ 53 + (2 : ℚ) ^ (-1075 : ℤ)) := by
    have h := abs_sub_abs_le_abs_sub (roundToDouble p) p
    linarith
  have hx : (JsNum.fin p).toDouble = .fin (roundToDouble p) := by
    apply toDouble_fin_of_lt
    have : |p| / 2 ^ 53 ≤ |p| := div_le_self hp0 (by norm_num)
    have h64 : (1 : ℚ) / 2 ^ 64 ≤ 1 := by norm_num
    have : |roundToDouble p| ≤ 3 * 10 ^ 13 := by linarith
    linarith
  have ey0 : |roundToDouble p * 100 - p * 100| ≤ (|p| / 2 ^ 53 + (2 : ℚ) ^ (-1075 : ℤ)) * 100 := by
    have : roundToDouble p * 100 - p * 100 = (roundToDouble p - p) * 100 := by ring
    rw [this, abs_mul]
    have h100 : |(100 : ℚ)| = 100 := by norm_num
    rw [h100]
    exact mul_le_mul_of_nonneg_right ex (by norm_num)
  have hya : |roundToDouble p * 100| ≤ |p| * 100 + (|p| / 2 ^ 53 + (2 : ℚ) ^ (-1075 : ℤ)) * 100 := by
    have h := abs_sub_abs_le_abs_sub (roundToDouble p * 100) (p * 100)
    rw [hP] at h
    linarith
  have ez := abs_roundToDouble_sub_le_add (roundToDouble p * 100)
  have hza : |roundToDouble (roundToDouble p * 100)| ≤ |roundToDouble p * 100| +
      (|roundToDouble p * 100| / 2 ^ 53 + (2 : ℚ) ^ (-1075 : ℤ)) := by
    have h := abs_sub_abs_le_abs_sub (roundToDouble (roundToDouble p * 100))
      (roundToDouble p * 100)
    linarith
  have hy53 : |roundToDouble p * 100| / 2 ^ 53 ≤ |roundToDouble p * 100| :=
    div_le_self (abs_nonneg _) (by norm_num)
  have hp53 : |p| / 2 ^ 53 ≤ |p| := div_le_self hp0 (by norm_num)
  have h64 : (1 : ℚ) / 2 ^ 64 ≤ 1 := by norm_num
  have hz : (JsNum.fin (roundToDouble p * 100)).toDouble =
      .fin (roundToDouble (roundToDouble p * 100)) := by
    apply toDouble_fin_of_lt
    have : |roundToDouble p * 100| ≤ 3 * 10 ^ 15 := by linarith
    have : |roundToDouble (roundToDouble p * 100)| ≤ 7 * 10 ^ 15 := by linarith
    linarith
  refine ⟨⌊roundToDouble (roundToDouble p * 100) + 1 / 2⌋, ?_, ?_⟩
  · simp only [toPaise, toNumber, hx, JsNum.mul, hz, JsNum.round]
  · have hf1 := Int.floor_le (roundToDouble (roundToDouble p * 100) + 1 / 2)
    have hf2 := Int.lt_floor_add_one (roundToDouble (roundToDouble p * 100) + 1 / 2)
    have hkz : |(⌊roundToDouble (roundToDouble p * 100) + 1 / 2⌋ : ℚ) -
        roundToDouble (roundToDouble p * 100)| ≤ 1 / 2 := by
      rw [abs_le]
      constructor <;> linarith
    have htri : |(⌊roundToDouble (roundToDouble p * 100) + 1 / 2⌋ : ℚ) - p * 100| ≤
        |(⌊roundToDouble (roundToDouble p * 100) + 1 / 2⌋ : ℚ) -
          roundToDouble (roundToDouble p * 100)| +
        (|roundToDouble (roundToDouble p * 100) - roundToDouble p * 100| +
          |roundToDouble p * 100 - p * 100|) := by
      have a1 := abs_sub_le (⌊roundToDouble (roundToDouble p * 100) + 1 / 2⌋ : ℚ)
        (roundToDouble (roundToDouble p * 100)) (p * 100)
      have a2 := abs_sub_le (roundToDouble (roundToDouble p * 100)) (roundToDouble p * 100)
        (p * 100)
      linarith
    have hfrac : |roundToDouble p * 100| / 2 ^ 53 ≤
        (|p| * 100 + (|p| / 2 ^ 53 + (2 : ℚ) ^ (-1075 : ℤ)) * 100) / 2 ^ 53 :=
      div_le_div_of_nonneg_right hya (by positivity)
    have hgoal : (|p| * 100 + (|p| / 2 ^ 53 + (2 : ℚ) ^ (-1075 : ℤ)) * 100) / 2 ^ 53 + (2 : ℚ) ^ (-1075 : ℤ) +
        (|p| / 2 ^ 53 + (2 : ℚ) ^ (-1075 : ℤ)) * 100 ≤ (|p| * 100 + 1) / 2 ^ 51 := by
      have e1 : (|p| * 100 + (|p| / 2 ^ 53 + (2 : ℚ) ^ (-1075 : ℤ)) * 100) / 2 ^ 53 + (2 : ℚ) ^ (-1075 : ℤ) +
          (|p| / 2 ^ 53 + (2 : ℚ) ^ (-1075 : ℤ)) * 100 =
          |p| * (100 * (2 + 1 / 2 ^ 53) / 2 ^ 53) + ((2 : ℚ) ^ (-1075 : ℤ)) * (100 / 2 ^ 53 + 101) := by
        ring
      have e2 : (|p| * 100 + 1) / 2 ^ 51 = |p| * (100 / 2 ^ 51) + 1 / 2 ^ 51 := by ring
      rw [e1, e2]
      have c1 : (100 : ℚ) * (2 + 1 / 2 ^ 53) / 2 ^ 53 ≤ 100 / 2 ^ 51 := by norm_num
      have c2 : (2 : ℚ) ^ (-1075 : ℤ) * (100 / 2 ^ 53 + 101) ≤ 1 / 2 ^ 51 := by
        have : (2 : ℚ) ^ (-1075 : ℤ) * (100 / 2 ^ 53 + 101) ≤ 1 / 2 ^ 64 * (100 / 2 ^ 53 + 101) :=
          mul_le_mul_of_nonneg_right hδ (by positivity)
        have : (1 : ℚ) / 2 ^ 64 * (100 / 2 ^ 53 + 101) ≤ 1 / 2 ^ 51 := by norm_num
        linarith
      have c3 := mul_le_mul_of_nonneg_left c1 hp0
      linarith
    rw [hP]
    linarith

/-! ## Running computations -/

@[simp] theorem Js.run_pure {α : Type} (a : α) (w : World) :
    (pure a : Js α).run w = (.ok a, w) := rfl

@[simp] theorem Js.run_bind {α β : Type} (m : Js α) (f : α → Js β) (w : World) :
    (m >>= f).run w =
      match m.run w with
      | (.ok a, w1) => (f a).run w1
      | (.error e, w1) => (.error e, w1) := rfl

@[simp] theorem Js.run_throw {α : Type} (e : JsError) (w : World) :
    (Js.throw e : Js α).run w = (.error e, w) := rfl

@[simp] theorem Js.run_tryCatch {α : Type} (body : Js α) (handler : JsError → Js α)
    (w : World) :
    (Js.tryCatch body handler).run w =
      match body.run w with
      | (.ok a, w1) => (.ok a, w1)
      | (.error e, w1) => (handler e).run w1 := rfl

@[simp] theorem Js.run_emit (e : Event) (w : World) :
    (Js.emit e).run w = (.ok (), { w with log := w.log ++ [e] }) := rfl

@[simp] theorem Js.run_ite {α : Type} (c : Prop) [Decidable c] (a b : Js α) (w : World) :
    (if c then a else b).run w = if c then a.run w else b.run w := by
  split <;> rfl

@[simp] theorem Js.run_ofExcept_ok {α : Type} (a : α) (w : World) :
    (Js.ofExcept (.ok a) : Js α).run w = (.ok a, w) := rfl

@[simp] theorem Js.run_ofExcept_error {α : Type} (m : String) (w : World) :
    (Js.ofExcept (.error m) : Js α).run w = (.error (.error m), w) := rfl

theorem refUpdate_run (env : Env) (coll id : String) (fields : Doc) (w : World) :
    (refUpdate env coll id fields).run w =
      if fields.hasUndefined then
        (.error (.error "Cannot use \"undefined\" as a Firestore value."),
          w.logged (.write coll id fields))
      else
        match env.writeFault coll id with
        | some m => (.error (.error m), w.logged (.write coll id fields))
        | none =>
          match w.store coll id with
          | none =>
            (.error (.error "NOT_FOUND: No document to update"), w.logged (.write coll id fields))
          | some d =>
            (.ok (), { store := w.store.put coll id (d.merge fields),
                       log := w.log ++ [.write coll id fields] }) := by
  simp only [refUpdate, Js.run_bind, Js.run_emit, Js.run_ite, Js.run_throw, World.logged]
  split
  · rfl
  · cases env.writeFault coll id with
    | some m => rfl
    | none =>
      cases h : w.store coll id <;> simp [Js.run, h]

theorem afterUpdate_log (env : Env) (coll id : String) (fields : Doc) (w : World) :
    (w.afterUpdate env coll id fields).log = w.log ++ [.write coll id fields] := by
  simp only [World.afterUpdate, refUpdate_run]
  split
  · rfl
  · split
    · rfl
    · split <;> rfl

theorem afterUpdate_store_other (env : Env) (coll id : String) (fields : Doc) (w : World)
    (c i : String) (h : ¬ (c = coll ∧ i = id)) :
    (w.afterUpdate env coll id fields).store c i = w.store c i := by
  simp only [World.afterUpdate, refUpdate_run]
  split
  · rfl
  · split
    · rfl
    · split
      · rfl
      · simp [Store.put, h]

theorem afterUpdate_store_same (env : Env) (coll id : String) (fields : Doc) (w : World)
    (d : Doc) (hd : w.store coll id = some d) (hf : env.writeFault coll id = none)
    (hu : fields.hasUndefined = false) :
    (w.afterUpdate env coll id fields).store coll id = some (d.merge fields) := by
  simp [World.afterUpdate, refUpdate_run, hd, hf, hu, Store.put]

/-- A run of `updatePayoutStatus` never throws: it attempts one update of the booking. -/
theorem updatePayoutStatus_run (env : Env) (bookingId : String) (status reason : JsVal)
    (w : World) :
    (updatePayoutStatus env bookingId status reason).run w =
      (.ok (), w.afterUpdate env "movie_bookings" bookingId
        [("payoutStatus", status), ("payoutError", reason)]) := by
  simp only [updatePayoutStatus, Js.run_tryCatch, Js.run_pure, World.afterUpdate]
  generalize (refUpdate env "movie_bookings" bookingId _).run w = r
  obtain ⟨o, w1⟩ := r
  cases o <;> rfl

/-- Reading a field that an update wrote gives the written value. -/
theorem Doc.get_merge_payoutStatus (d : Doc) (status reason : JsVal) :
    (d.merge [("payoutStatus", status), ("payoutError", reason)]).get "payoutStatus" = status ∧
    (d.merge [("payoutStatus", status), ("payoutError", reason)]).get "payoutError" = reason := by
  constructor <;> simp [Doc.merge, Doc.get, List.lookup]

theorem orZero_leZero_of_not_isPositive (n : JsNum) (h : n.isPositive = false) :
    (orZero n).leZero = true := by
  cases n with
  | fin q =>
    by_cases hq : q = 0
    · simp [orZero, JsNum.truthy, JsNum.leZero, hq]
    · simp [JsNum.isPositive] at h
      simp [orZero, JsNum.truthy, JsNum.leZero, hq, h]
  | nan => simp [orZero, JsNum.truthy, JsNum.leZero]
  | inf negative =>
    simp [JsNum.isPositive] at h
    simp [orZero, JsNum.truthy, JsNum.leZero, h]

theorem JsVal.strictEq_str (v : JsVal) (s : String) :
    v.strictEq (.str s) = decide (v = .str s) := by
  cases v with
  | num n => cases n <;> simp [JsVal.strictEq]
  | _ => simp [JsVal.strictEq]

theorem newEvents_of_log (w w1 : World) (l : List Event) (h : w1.log = w.log ++ l) :
    newEvents w w1 = l := by
  simp [newEvents, h]

/-- A run of `updateMovieBookingAfterTransfer` never throws: it attempts one update. -/
theorem updateMovieBookingAfterTransfer_run (env : Env) (bookingId : String)
    (status transferResp ownerAccountId : JsVal) (w : World) :
    (updateMovieBookingAfterTransfer env bookingId status transferResp ownerAccountId).run w =
      (.ok (), w.afterUpdate env "movie_bookings" bookingId
        [("payoutStatus", status), ("transferResponse", transferResp),
         ("theatreOwnerAccountId", ownerAccountId), ("payoutMethod", .str "Razorpay Route")]) := by
  simp only [updateMovieBookingAfterTransfer, Js.run_tryCatch, Js.run_pure, World.afterUpdate]
  generalize (refUpdate env "movie_bookings" bookingId _).run w = r
  obtain ⟨o, w1⟩ := r
  cases o <;> rfl

theorem refSet_run (env : Env) (coll id : String) (fields : Doc) (w : World) :
    (refSet env coll id fields).run w =
      if fields.hasUndefined then
        (.error (.error "Cannot use \"undefined\" as a Firestore value."),
          w.logged (.write coll id fields))
      else
        match env.writeFault coll id with
        | some m => (.error (.error m), w.logged (.write coll id fields))
        | none =>
          (.ok (), { store := w.store.put coll id fields,
                     log := w.log ++ [.write coll id fields] }) := by
  simp only [refSet, Js.run_bind, Js.run_emit, Js.run_ite, Js.run_throw, World.logged]
  split
  · rfl
  · cases env.writeFault coll id <;> rfl

@[simp] theorem callStartsWith_str (name s pre : String) (w : World) :
    (callStartsWith name (.str s) pre).run w = (.ok (startsWith s pre), w) := rfl

theorem getRazorpayClient_run_ok (env : Env) (keyId keySecret : String) (w : World)
    (hkey : env.razorpayKeyId = some keyId) (hkey1 : keyId ≠ "")
    (hsec : env.razorpayKeySecret = some keySecret) (hsec1 : keySecret ≠ "") :
    (getRazorpayClient env).run w = (.ok (), w) := by
  simp [getRazorpayClient, hkey, hsec, JsVal.truthy, hkey1, hsec1]

theorem orZero_fin (q : ℚ) : orZero (.fin q) = .fin q := by
  by_cases h : q = 0 <;> simp [orZero, JsNum.truthy, h]

theorem JsVal.or_null_ne_undefined (v : JsVal) : v.or .null ≠ .undefined := by
  unfold JsVal.or
  split
  · intro h
    simp_all [JsVal.truthy]
  · simp

theorem startsWith_ne_empty (s : String) (h : startsWith s "acc_" = true) : s ≠ "" := by
  intro hs
  subst hs
  simp [startsWith] at h

theorem docRef_run (id : JsVal) (w : World) :
    (∃ s, id = .str s ∧ s ≠ "" ∧ (docRef id).run w = (.ok s, w)) ∨
    ((∀ s, id = .str s → s = "") ∧ ∃ e, (docRef id).run w = (.error e, w)) := by
  cases id with
  | str s =>
    by_cases h : s = ""
    · right
      refine ⟨fun _ hs => by cases hs; exact h, ?_⟩
      exact ⟨.error "Value for argument \"documentPath\" must be a non-empty string.",
        by simp [docRef, h]⟩
    · left
      exact ⟨s, rfl, h, by simp [docRef, h]⟩
  | _ =>
    right
    constructor
    · intro s hs
      cases hs
    · exact ⟨_, rfl⟩

theorem refGet_run (env : Env) (coll id : String) (w : World) :
    (refGet env coll id).run w =
      match env.readFault coll id with
      | some m => (.error (.error m), w)
      | none => (.ok (w.store coll id), w) := rfl

theorem docGet_run_str (env : Env) (coll s : String) (w : World) (h : s ≠ "") :
    (docGet env coll (.str s)).run w =
      match env.readFault coll s with
      | some m => (.error (.error m), w)
      | none => (.ok (w.store coll s), w) := by
  simp [docGet, docRef, h, refGet_run]

/-- A read either throws or returns a snapshot; the world is the same after it. -/
theorem docGet_run (env : Env) (coll : String) (id : JsVal) (w : World) :
    ∃ r, (docGet env coll id).run w = (r, w) := by
  rcases docRef_run id w with ⟨s, hid, hs, _⟩ | ⟨_, e, he⟩
  · subst hid
    rw [docGet_run_str env coll s w hs]
    cases env.readFault coll s <;> exact ⟨_, rfl⟩
  · exact ⟨.error e, by simp [docGet, he]⟩

/-- The resolver never throws and leaves the world as it is. -/
theorem resolveTheatreOwnerAccountId_run (env : Env) (theatreId : JsVal) (bookingData : Doc)
    (w : World) :
    (resolveTheatreOwnerAccountId env theatreId bookingData).run w =
      (.ok (resolverResult env w theatreId bookingData), w) := by
  have key : ∃ v, (resolveTheatreOwnerAccountId env theatreId bookingData).run w = (.ok v, w) := by
    unfold resolveTheatreOwnerAccountId
    by_cases ht : theatreId.truthy = true
    · simp only [ht, Bool.not_true, Bool.false_eq_true, if_false, Js.run_tryCatch, Js.run_bind]
      obtain ⟨r, hr⟩ := docGet_run env "movie_theatres" theatreId w
      rw [hr]
      rcases r with e | (_ | theatre)
      · exact ⟨_, rfl⟩
      · exact ⟨_, rfl⟩
      · by_cases ho : ((theatre.get "ownerId").or (bookingData.get "ownerId")).truthy = true
        · simp only [ho, Bool.not_true, Bool.false_eq_true, if_false, Js.run_bind]
          obtain ⟨r2, hr2⟩ := docGet_run env "users"
            ((theatre.get "ownerId").or (bookingData.get "ownerId")) w
          rw [hr2]
          rcases r2 with e | (_ | user) <;> exact ⟨_, rfl⟩
        · simp [ho]
    · simp [ht]
  obtain ⟨v, hv⟩ := key
  simp [resolverResult, hv]

theorem resolverResult_eq (env : Env) (w : World) (theatreId : JsVal) (bookingData : Doc) :
    resolverResult env w theatreId bookingData =
      resolveFromStore env w theatreId bookingData := by
  unfold resolverResult resolveFromStore resolveTheatreOwnerAccountId
  cases theatreId with
  | str th =>
    by_cases hth : th = ""
    · simp [hth, JsVal.truthy]
    · simp only [JsVal.truthy, hth, ne_eq, not_false_eq_true, decide_True, Bool.not_true,
        Bool.false_eq_true, if_false, Js.run_tryCatch, Js.run_bind, docGet_run_str _ _ _ _ hth]
      cases env.readFault "movie_theatres" th with
      | some m => rfl
      | none =>
        cases w.store "movie_theatres" th with
        | none => rfl
        | some theatre =>
          simp only []
          cases ho : (theatre.get "ownerId").or (bookingData.get "ownerId") with
          | str o =>
            by_cases hoe : o = ""
            · simp [hoe, JsVal.truthy]
            · simp only [JsVal.truthy, hoe, ne_eq, not_false_eq_true, decide_True, Bool.not_true,
                Bool.false_eq_true, if_false, Js.run_bind, docGet_run_str _ _ _ _ hoe]
              cases env.readFault "users" o with
              | some m => rfl
              | none => cases w.store "users" o <;> rfl
          | undefined => rfl
          | null => rfl
          | bool b => cases b <;> simp [JsVal.truthy, docGet, docRef]
          | num n => by_cases hn : n.truthy = true <;> simp [JsVal.truthy, docGet, docRef, hn]
          | arr items => simp [JsVal.truthy, docGet, docRef]
          | serverTimestamp => simp [JsVal.truthy, docGet, docRef]
  | undefined => rfl
  | null => rfl
  | bool b => cases b <;> simp [JsVal.truthy, docGet, docRef]
  | num n => by_cases hn : n.truthy = true <;> simp [JsVal.truthy, docGet, docRef, hn]
  | arr items => simp [JsVal.truthy, docGet, docRef]
  | serverTimestamp => simp [JsVal.truthy, docGet, docRef]

theorem isAccountId_iff (v : JsVal) : isAccountId v = true ↔ IsConnectedAccount v := by
  cases v <;> simp [isAccountId, IsConnectedAccount]

/-- The loop over a list of keys returns the value of the first key whose value is a
connected account id, or `null` when there is none. -/
theorem scanCandidateKeys_spec (user : Doc) (keys : List String) :
    (scanCandidateKeys user keys = .null ∧ ∀ k ∈ keys, ¬ IsConnectedAccount (user.get k)) ∨
    (∃ pre k post, keys = pre ++ k :: post ∧ (∀ j ∈ pre, ¬ IsConnectedAccount (user.get j)) ∧
      IsConnectedAccount (user.get k) ∧ scanCandidateKeys user keys = user.get k) := by
  induction keys with
  | nil => exact Or.inl ⟨rfl, by simp⟩
  | cons key rest ih =>
    by_cases hk : isAccountId (user.get key) = true
    · right
      exact ⟨[], key, rest, rfl, by simp, (isAccountId_iff _).1 hk, by simp [scanCandidateKeys, hk]⟩
    · have hk1 : ¬ IsConnectedAccount (user.get key) := fun h => hk ((isAccountId_iff _).2 h)
      have hs : scanCandidateKeys user (key :: rest) = scanCandidateKeys user rest := by
        simp [scanCandidateKeys, hk]
      rcases ih with ⟨hn, hall⟩ | ⟨pre, k, post, hkeys, hpre, hacc, hres⟩
      · left
        refine ⟨by rw [hs, hn], ?_⟩
        intro k hmem
        rcases List.mem_cons.1 hmem with h | h
        · rw [h]
          exact hk1
        · exact hall k h
      · right
        refine ⟨key :: pre, k, post, by rw [hkeys]; rfl, ?_, hacc, by rw [hs, hres]⟩
        intro j hmem
        rcases List.mem_cons.1 hmem with h | h
        · rw [h]
          exact hk1
        · exact hpre j h

theorem resolveOwnerAccountStep_run (env : Env) (bookingId : String) (data : Doc) (w : World) :
    (resolveOwnerAccountStep env bookingId data).run w =
      if (accountAfterResolution env w data).truthy then
        (.ok (some (accountAfterResolution env w data)), w)
      else
        (.ok none, w.afterUpdate env "movie_bookings" bookingId
          [("payoutStatus", .str "failed"),
           ("payoutError", .str "Missing Razorpay connected account ID. Theatre owner must add their Razorpay account ID to receive payments.")]) := by
  unfold resolveOwnerAccountStep accountAfterResolution
  split
  · by_cases hr : (resolverResult env w (data.get "theatreId") data).truthy = true
    · simp [resolveTheatreOwnerAccountId_run, hr]
    · simp [resolveTheatreOwnerAccountId_run, hr, updatePayoutStatus_run]
  · rename_i h
    have ht : (data.get "theatreOwnerAccountId").truthy = true := by
      by_contra hc
      exact h (by simp [hc])
    simp [ht]

theorem orZero_leZero_of_isPositive (n : JsNum) (h : n.isPositive = true) :
    (orZero n).leZero = false := by
  cases n with
  | fin q =>
    simp [JsNum.isPositive] at h
    simp [orZero_fin, JsNum.leZero, h]
  | nan => simp [JsNum.isPositive] at h
  | inf negative =>
    simp [JsNum.isPositive] at h
    simp [orZero, JsNum.truthy, JsNum.leZero, h]

/-- The outcome of a failed validation: one update of the booking with status `failed`
and the reason; no other call. -/
theorem failed_update_outcome (env : Env) (bookingId : String) (reason : String) (w : World) :
    newEvents w (w.afterUpdate env "movie_bookings" bookingId
        [("payoutStatus", .str "failed"), ("payoutError", .str reason)]) =
      [.write "movie_bookings" bookingId
        [("payoutStatus", .str "failed"), ("payoutError", .str reason)]] ∧
    (∀ d, w.store "movie_bookings" bookingId = some d →
      env.writeFault "movie_bookings" bookingId = none →
      ∃ d1, (w.afterUpdate env "movie_bookings" bookingId
          [("payoutStatus", .str "failed"), ("payoutError", .str reason)]).store
            "movie_bookings" bookingId = some d1 ∧
        d1.get "payoutStatus" = .str "failed" ∧ d1.get "payoutError" = .str reason) := by
  constructor
  · exact newEvents_of_log _ _ _ (afterUpdate_log _ _ _ _ _)
  · intro d hd hf
    exact ⟨_, afterUpdate_store_same _ _ _ _ _ d hd hf (by simp [Doc.hasUndefined]),
      Doc.get_merge_payoutStatus d _ _⟩

/-- The values that the amount validation does not take for a positive number: zero, a
negative number, a missing field, `null` and text without a numeric start; text with a
numeric start counts as that number. -/
theorem parseFloat_examples :
    (parseFloat (.num (.fin 0))).isPositive = false ∧
    (parseFloat (.num (.fin (-5)))).isPositive = false ∧
    (parseFloat .undefined).isPositive = false ∧
    (parseFloat .null).isPositive = false ∧
    (parseFloat (.str "abc")).isPositive = false ∧
    (parseFloat (.str "")).isPositive = false ∧
    parseFloat (.str "-3") = .fin (-3) ∧
    parseFloat (.str " 12.5abc") = .fin (25 / 2) := by
  refine ⟨by simp [parseFloat, JsNum.isPositive], by simp [parseFloat, JsNum.isPositive],
    rfl, rfl, by decide, by decide, ?_, ?_⟩
  · simp [parseFloat, parseFloatChars, takeSign, takeDecimal, takeExponent, digitsToNat,
      applySign, isJsSpace]
  · simp [parseFloat, parseFloatChars, takeSign, takeDecimal, takeExponent, digitsToNat,
      applySign, isJsSpace]
    norm_num

/-! ## Theorems on the payout handler -/

/-- C5: for a booking whose `payoutStatus` is already `settled`, the handler returns
without a gateway call and without a store write: the world (the store with the booking
document and the settlement collection, and the call log) is unchanged. -/
theorem onMovieBookingCreated_settled_noop (env : Env) (bookingId : String) (data : Doc)
    (w : World) (h : data.get "payoutStatus" = .str "settled") :
    (onMovieBookingCreated env bookingId data).run w = (.ok (), w) := by
  simp only [onMovieBookingCreated, onMovieBookingCreatedBody, Js.run_tryCatch, h]
  by_cases h1 : (data.get "paymentMethod").strictEq (.str "Online") = true
  · by_cases h2 : (data.get "status").strictEq (.str "confirmed") = true
    · simp [h1, h2, JsVal.strictEq_str]
    · simp [h1, h2]
  · simp [h1]

/-- C3: for an Online, confirmed, not yet settled booking whose total amount does not
parse to a positive number, the handler returns normally after a single call: the update
of the booking with `payoutStatus` `failed` and `payoutError` `Invalid amount`.  No
gateway call is made, no settlement record is written, and when the booking document
exists and the store accepts the write the document carries these two fields. -/
theorem onMovieBookingCreated_invalid_amount (env : Env) (bookingId : String) (data : Doc)
    (w : World)
    (hm : data.get "paymentMethod" = .str "Online")
    (hs : data.get "status" = .str "confirmed")
    (hp : data.get "payoutStatus" ≠ .str "settled")
    (ht : (parseFloat (data.get "totalAmount")).isPositive = false) :
    ∃ w1, (onMovieBookingCreated env bookingId data).run w = (.ok (), w1) ∧
      newEvents w w1 = [.write "movie_bookings" bookingId
        [("payoutStatus", .str "failed"), ("payoutError", .str "Invalid amount")]] ∧
      (∀ i, w1.store "movie_booking_settlements" i = w.store "movie_booking_settlements" i) ∧
      (∀ d, w.store "movie_bookings" bookingId = some d →
        env.writeFault "movie_bookings" bookingId = none →
        ∃ d1, w1.store "movie_bookings" bookingId = some d1 ∧
          d1.get "payoutStatus" = .str "failed" ∧ d1.get "payoutError" = .str "Invalid amount") := by
  have hz := orZero_leZero_of_not_isPositive _ ht
  refine ⟨w.afterUpdate env "movie_bookings" bookingId
    [("payoutStatus", .str "failed"), ("payoutError", .str "Invalid amount")], ?_, ?_, ?_, ?_⟩
  · simp [onMovieBookingCreated, onMovieBookingCreatedBody, JsVal.strictEq_str, hm, hs, hp, hz,
      updatePayoutStatus_run]
  · exact newEvents_of_log _ _ _ (afterUpdate_log _ _ _ _ _)
  · intro i
    exact afterUpdate_store_other _ _ _ _ _ _ _ (by simp)
  · intro d hd hf
    refine ⟨_, afterUpdate_store_same _ _ _ _ _ d hd hf (by simp [Doc.hasUndefined]), ?_⟩
    exact Doc.get_merge_payoutStatus d _ _

/-- The run of a payout whose transfer the gateway accepts and whose settlement record the
store accepts. -/
theorem payout_run_eq (env : Env) (bookingId : String) (data : Doc)
    (w : World) (t p : ℚ) (acc keyId keySecret : String) (resp : JsVal)
    (hm : data.get "paymentMethod" = .str "Online")
    (hs : data.get "status" = .str "confirmed")
    (hp : data.get "payoutStatus" ≠ .str "settled")
    (ht : parseFloat (data.get "totalAmount") = .fin t) (htpos : 0 < t)
    (hprice : parseFloat (data.get "actualTicketPrice") = .fin p)
    (hpay : (data.get "razorpayPaymentId").truthy = true)
    (hacc : accountAfterResolution env w data = .str acc) (hpre : startsWith acc "acc_" = true)
    (hkey : env.razorpayKeyId = some keyId) (hkey1 : keyId ≠ "")
    (hsec : env.razorpayKeySecret = some keySecret) (hsec1 : keySecret ≠ "")
    (hgw : env.paymentTransfer (data.get "razorpayPaymentId") (.str acc)
      (toPaise (.num (.fin p))) = .ok resp)
    (hw2 : env.writeFault "movie_booking_settlements" bookingId = none) :
    (onMovieBookingCreated env bookingId data).run w =
      (.ok (), payoutWorld env bookingId data t p acc w) := by
  have hz : (JsNum.fin t).leZero = false := by
    simp [JsNum.leZero, htpos]
  have hat : (JsVal.str acc).truthy = true := by
    simp [JsVal.truthy, startsWith_ne_empty acc hpre]
  have hpu : data.get "razorpayPaymentId" ≠ .undefined := by
    intro h
    simp [h, JsVal.truthy] at hpay
  have hor : (data.get "theatreId").or .null ≠ .undefined := JsVal.or_null_ne_undefined _
  simp [onMovieBookingCreated, onMovieBookingCreatedBody, JsVal.strictEq_str, hm, hs, hp, ht,
    hprice, hz, hacc, hat, hpay, hpre, getTheatreOwnerPaymentMethod, resolveOwnerAccountStep_run,
    getRazorpayClient_run_ok env keyId keySecret _ hkey hkey1 hsec hsec1,
    processRazorpayTransfer, calculateTheatreOwnerShare, orZero_fin, hgw,
    updateMovieBookingAfterTransfer_run, refSet_run, Doc.hasUndefined, hpu, hor, hw2,
    payoutWorld, World.logged]

/-- The settlement record in the world after a successful payout. -/
theorem payoutWorld_settlement (env : Env) (bookingId : String) (data : Doc) (t p : ℚ)
    (acc : String) (w : World) :
    (payoutWorld env bookingId data t p acc w).store "movie_booking_settlements" bookingId =
      some [("booking_id", .str bookingId),
         ("theatre_id", (data.get "theatreId").or .null),
         ("total_paid", .num (.fin t)),
         ("owner_share", .num (.fin p)),
         ("platform_profit", .num (companyProfit (.fin t) (.num (.fin p)))),
         ("razorpay_payment_id", data.get "razorpayPaymentId"),
         ("owner_account_id", .str acc),
         ("settledAt", .serverTimestamp)] := by
  simp [payoutWorld, Store.put]

/-- C2: an Online, confirmed, not yet settled booking with a positive total `t`, ticket
price `p`, a payment id and an owner account id that starts with `acc_` is paid out when
the gateway accepts the transfer and the store accepts the writes: the handler makes
exactly one gateway call, a transfer of `Math.round(p * 100)` on the payment id to that
account, then updates the booking to `settled` and writes the settlement record with
`total_paid = t`, `owner_share = p` and `platform_profit = t - p`, whose sum is `t`.
The amount `Math.round(p * 100)` is the one the source computes on doubles: for a price
of `k` paise (`p = k / 100`, up to `10 ^ 15` paise) it is exactly `k`, and for every price
up to `10 ^ 13` it is an integer within one half of `p * 100`, up to the rounding of the
product to a double. -/
theorem onMovieBookingCreated_payout (env : Env) (bookingId : String) (data : Doc)
    (w : World) (t p : ℚ) (acc keyId keySecret : String) (d : Doc) (resp : JsVal)
    (hm : data.get "paymentMethod" = .str "Online")
    (hs : data.get "status" = .str "confirmed")
    (hp : data.get "payoutStatus" ≠ .str "settled")
    (ht : parseFloat (data.get "totalAmount") = .fin t) (htpos : 0 < t)
    (hprice : parseFloat (data.get "actualTicketPrice") = .fin p)
    (hpay : (data.get "razorpayPaymentId").truthy = true)
    (hacc : accountAfterResolution env w data = .str acc) (hpre : startsWith acc "acc_" = true)
    (hkey : env.razorpayKeyId = some keyId) (hkey1 : keyId ≠ "")
    (hsec : env.razorpayKeySecret = some keySecret) (hsec1 : keySecret ≠ "")
    (hgw : env.paymentTransfer (data.get "razorpayPaymentId") (.str acc)
      (toPaise (.num (.fin p))) = .ok resp)
    (hdoc : w.store "movie_bookings" bookingId = some d)
    (hw1 : env.writeFault "movie_bookings" bookingId = none)
    (hw2 : env.writeFault "movie_booking_settlements" bookingId = none) :
    ∃ w1 d1 rec, (onMovieBookingCreated env bookingId data).run w = (.ok (), w1) ∧
      (newEvents w w1).filter Event.isGatewayCall =
        [.transfer (data.get "razorpayPaymentId") (.str acc) (toPaise (.num (.fin p)))] ∧
      (∀ k : ℤ, |k| ≤ 10 ^ 15 → p = (k : ℚ) / 100 → toPaise (.num (.fin p)) = .fin k) ∧
      (|p| ≤ 10 ^ 13 → ∃ k : ℤ, toPaise (.num (.fin p)) = .fin k ∧
        |(k : ℚ) - p * 100| ≤ 1 / 2 + (|p * 100| + 1) / 2 ^ 51) ∧
      w1.store "movie_bookings" bookingId = some d1 ∧
      d1.get "payoutStatus" = .str "settled" ∧
      w1.store "movie_booking_settlements" bookingId = some rec ∧
      rec.get "total_paid" = .num (.fin t) ∧
      rec.get "owner_share" = .num (.fin p) ∧
      rec.get "platform_profit" = .num (.fin (t - p)) ∧
      (JsNum.fin p).add (.fin (t - p)) = .fin t := by
  have hrun := payout_run_eq env bookingId data w t p acc keyId keySecret
    resp hm hs hp ht htpos hprice hpay hacc hpre hkey hkey1 hsec hsec1 hgw hw2
  have hst := afterUpdate_store_same env "movie_bookings" bookingId
    [("payoutStatus", .str "settled"), ("transferResponse", .null),
     ("theatreOwnerAccountId", .str acc), ("payoutMethod", .str "Razorpay Route")]
    (w.logged (.transfer (data.get "razorpayPaymentId") (.str acc) (toPaise (.num (.fin p)))))
    d hdoc hw1 (by simp [Doc.hasUndefined])
  refine ⟨payoutWorld env bookingId data t p acc w,
    d.merge [("payoutStatus", .str "settled"), ("transferResponse", .null),
      ("theatreOwnerAccountId", .str acc), ("payoutMethod", .str "Razorpay Route")],
    _, hrun, ?_, ?_, toPaise_near p, ?_, ?_, payoutWorld_settlement env bookingId data t p acc w,
    ?_, ?_, ?_, ?_⟩
  · simp [newEvents, payoutWorld, afterUpdate_log, World.logged, Event.isGatewayCall,
      List.filter]
  · intro k hk hpk
    rw [hpk]
    exact toPaise_cents k hk
  · simpa [payoutWorld, Store.put] using hst
  · simp [Doc.merge, Doc.get, List.lookup]
  · simp [Doc.get, List.lookup]
  · simp [Doc.get, List.lookup]
  · simp [Doc.get, List.lookup, companyProfit, toNumber, JsNum.sub]
  · simp [JsNum.add]

/-- Witness of C5: the settled example booking is left untouched. -/
theorem onMovieBookingCreated_settled_noop_witness :
    (onMovieBookingCreated okEnv "b1" settledBooking).run
        (oneDocWorld "movie_bookings" "b1" settledBooking) =
      (.ok (), oneDocWorld "movie_bookings" "b1" settledBooking) :=
  onMovieBookingCreated_settled_noop okEnv "b1" settledBooking
    (oneDocWorld "movie_bookings" "b1" settledBooking) (by rfl)

/-- Witness of C3: the example booking with total amount zero. -/
theorem onMovieBookingCreated_invalid_amount_witness :
    ∃ w1, (onMovieBookingCreated okEnv "b1" zeroAmountBooking).run
        (oneDocWorld "movie_bookings" "b1" zeroAmountBooking) = (.ok (), w1) ∧
      newEvents (oneDocWorld "movie_bookings" "b1" zeroAmountBooking) w1 =
        [.write "movie_bookings" "b1"
          [("payoutStatus", .str "failed"), ("payoutError", .str "Invalid amount")]] ∧
      ∃ d1, w1.store "movie_bookings" "b1" = some d1 ∧
        d1.get "payoutStatus" = .str "failed" ∧ d1.get "payoutError" = .str "Invalid amount" := by
  obtain ⟨w1, hrun, hev, _, hdoc⟩ :=
    onMovieBookingCreated_invalid_amount okEnv "b1" zeroAmountBooking
      (oneDocWorld "movie_bookings" "b1" zeroAmountBooking) (by rfl) (by rfl) (by decide)
      (by simp [zeroAmountBooking, Doc.get, List.lookup, parseFloat, JsNum.isPositive])
  exact ⟨w1, hrun, hev, hdoc zeroAmountBooking (by simp [oneDocWorld]) (by rfl)⟩

theorem toPaise_440 : toPaise (.num (.fin 440)) = .fin 44000 := by
  have h := toPaise_cents 44000 (by norm_num)
  norm_num at h
  exact h

/-- Witness of C2: total 500 and ticket price 440 give one transfer of 44000 paise to
`acc_X` on `pay_Y`, a settled booking and a settlement record with owner share 440 and
platform profit 60. -/
theorem onMovieBookingCreated_payout_witness :
    ∃ w1 d1 rec, (onMovieBookingCreated okEnv "b1" paidBooking).run
        (oneDocWorld "movie_bookings" "b1" paidBooking) = (.ok (), w1) ∧
      (newEvents (oneDocWorld "movie_bookings" "b1" paidBooking) w1).filter Event.isGatewayCall =
        [.transfer (.str "pay_Y") (.str "acc_X") (.fin 44000)] ∧
      w1.store "movie_bookings" "b1" = some d1 ∧
      d1.get "payoutStatus" = .str "settled" ∧
      w1.store "movie_booking_settlements" "b1" = some rec ∧
      rec.get "total_paid" = .num (.fin 500) ∧
      rec.get "owner_share" = .num (.fin 440) ∧
      rec.get "platform_profit" = .num (.fin 60) := by
  obtain ⟨w1, d1, rec, hrun, hev, _, _, hb, hs, hr, ht, ho, hpp, _⟩ :=
    onMovieBookingCreated_payout okEnv "b1" paidBooking
      (oneDocWorld "movie_bookings" "b1" paidBooking) 500 440 "acc_X" "rzp_key" "rzp_secret"
      paidBooking (.str "trf_1") (by rfl) (by rfl) (by decide) (by rfl) (by norm_num) (by rfl)
      (by decide) (by rfl) (by decide) (by rfl) (by decide) (by rfl) (by decide) (by rfl)
      (by simp [oneDocWorld]) (by rfl) (by rfl)
  refine ⟨w1, d1, rec, hrun, ?_, hb, hs, hr, ht, ho, ?_⟩
  · rw [hev, toPaise_440]
    rfl
  · rw [hpp]
    norm_num

/-- C4, amended: for an Online, confirmed, not yet settled booking with a positive total
whose owner account id is missing after the resolution attempt, or is a non-empty string
that does not start with `acc_`, the handler returns normally after a single call, the
update of the booking with `payoutStatus` `failed` and a reason; the gateway is not
called.  The reason mentions the account when the account is missing or the payment id is
present. -/
theorem onMovieBookingCreated_bad_account (env : Env) (bookingId : String) (data : Doc)
    (w : World)
    (hm : data.get "paymentMethod" = .str "Online")
    (hs : data.get "status" = .str "confirmed")
    (hp : data.get "payoutStatus" ≠ .str "settled")
    (ht : (parseFloat (data.get "totalAmount")).isPositive = true)
    (hacc : (accountAfterResolution env w data).truthy = false ∨
      ∃ s, accountAfterResolution env w data = .str s ∧ s ≠ "" ∧ startsWith s "acc_" = false) :
    ∃ w1 reason, (onMovieBookingCreated env bookingId data).run w = (.ok (), w1) ∧
      newEvents w w1 = [.write "movie_bookings" bookingId
        [("payoutStatus", .str "failed"), ("payoutError", .str reason)]] ∧
      ((accountAfterResolution env w data).truthy = false ∨
        (data.get "razorpayPaymentId").truthy = true → mentionsAccount reason = true) ∧
      (∀ d, w.store "movie_bookings" bookingId = some d →
        env.writeFault "movie_bookings" bookingId = none →
        ∃ d1, w1.store "movie_bookings" bookingId = some d1 ∧
          d1.get "payoutStatus" = .str "failed" ∧ d1.get "payoutError" = .str reason) := by
  have hz := orZero_leZero_of_isPositive _ ht
  rcases hacc with hmiss | ⟨a, ha, hne, hpre⟩
  · refine ⟨_, "Missing Razorpay connected account ID. Theatre owner must add their Razorpay account ID to receive payments.", ?_,
      (failed_update_outcome env bookingId _ w).1, fun _ => by decide,
      (failed_update_outcome env bookingId _ w).2⟩
    simp [onMovieBookingCreated, onMovieBookingCreatedBody, JsVal.strictEq_str, hm, hs, hp, hz,
      resolveOwnerAccountStep_run, hmiss, updatePayoutStatus_run]
  · have hat : (JsVal.str a).truthy = true := by simp [JsVal.truthy, hne]
    by_cases hpay : (data.get "razorpayPaymentId").truthy = true
    · refine ⟨_, "Theatre owner does not have a valid Razorpay connected account ID.", ?_,
        (failed_update_outcome env bookingId _ w).1, fun _ => by decide,
        (failed_update_outcome env bookingId _ w).2⟩
      simp [onMovieBookingCreated, onMovieBookingCreatedBody, JsVal.strictEq_str, hm, hs, hp, hz,
        resolveOwnerAccountStep_run, ha, hat, hpay, hpre, updatePayoutStatus_run]
    · refine ⟨_, "Missing Razorpay payment ID for transfer", ?_,
        (failed_update_outcome env bookingId _ w).1, ?_,
        (failed_update_outcome env bookingId _ w).2⟩
      · simp [onMovieBookingCreated, onMovieBookingCreatedBody, JsVal.strictEq_str, hm, hs, hp,
          hz, resolveOwnerAccountStep_run, ha, hat, hpay, updatePayoutStatus_run]
      · intro h
        rcases h with h | h
        · rw [ha, hat] at h
          cases h
        · exact absurd h hpay

/-- Witness of C4, amended: the example booking with account id `bad_123` and a payment
id fails with the reason about the invalid account. -/
theorem onMovieBookingCreated_bad_account_witness :
    ∃ w1 reason, (onMovieBookingCreated okEnv "b1" badAccountBooking).run
        (oneDocWorld "movie_bookings" "b1" badAccountBooking) = (.ok (), w1) ∧
      newEvents (oneDocWorld "movie_bookings" "b1" badAccountBooking) w1 =
        [.write "movie_bookings" "b1"
          [("payoutStatus", .str "failed"), ("payoutError", .str reason)]] ∧
      mentionsAccount reason = true := by
  obtain ⟨w1, reason, hrun, hev, hment, _⟩ :=
    onMovieBookingCreated_bad_account okEnv "b1" badAccountBooking
      (oneDocWorld "movie_bookings" "b1" badAccountBooking) (by rfl) (by rfl) (by decide)
      (by simp [badAccountBooking, Doc.get, List.lookup, parseFloat, JsNum.isPositive])
      (Or.inr ⟨"bad_123", by rfl, by decide, by decide⟩)
  exact ⟨w1, reason, hrun, hev, hment (Or.inr (by decide))⟩

/-- C4, counterexample: the example booking has a positive total and the account id
`bad_123`, which is present and does not start with `acc_`, but no payment id; the
handler records the reason `Missing Razorpay payment ID for transfer`, which does not
mention the account. -/
theorem onMovieBookingCreated_bad_account_counterexample :
    (parseFloat (badAccountNoPaymentBooking.get "totalAmount")).isPositive = true ∧
    accountAfterResolution okEnv (oneDocWorld "movie_bookings" "b1" badAccountNoPaymentBooking)
      badAccountNoPaymentBooking = .str "bad_123" ∧
    startsWith "bad_123" "acc_" = false ∧
    ∃ w1 d1, (onMovieBookingCreated okEnv "b1" badAccountNoPaymentBooking).run
        (oneDocWorld "movie_bookings" "b1" badAccountNoPaymentBooking) = (.ok (), w1) ∧
      w1.store "movie_bookings" "b1" = some d1 ∧
      d1.get "payoutStatus" = .str "failed" ∧
      d1.get "payoutError" = .str "Missing Razorpay payment ID for transfer" ∧
      mentionsAccount "Missing Razorpay payment ID for transfer" = false := by
  refine ⟨by simp [badAccountNoPaymentBooking, Doc.get, List.lookup, parseFloat,
    JsNum.isPositive], by rfl, by decide, ?_⟩
  have hz : (orZero (parseFloat (badAccountNoPaymentBooking.get "totalAmount"))).leZero = false :=
    orZero_leZero_of_isPositive _ (by
      simp [badAccountNoPaymentBooking, Doc.get, List.lookup, parseFloat, JsNum.isPositive])
  have ha : accountAfterResolution okEnv
      (oneDocWorld "movie_bookings" "b1" badAccountNoPaymentBooking)
      badAccountNoPaymentBooking = .str "bad_123" := by rfl
  have hrun : (onMovieBookingCreated okEnv "b1" badAccountNoPaymentBooking).run
      (oneDocWorld "movie_bookings" "b1" badAccountNoPaymentBooking) =
      (.ok (), (oneDocWorld "movie_bookings" "b1" badAccountNoPaymentBooking).afterUpdate okEnv
        "movie_bookings" "b1" [("payoutStatus", .str "failed"),
          ("payoutError", .str "Missing Razorpay payment ID for transfer")]) := by
    have h1 : badAccountNoPaymentBooking.get "paymentMethod" = .str "Online" := by rfl
    have h2 : badAccountNoPaymentBooking.get "status" = .str "confirmed" := by rfl
    have h3 : badAccountNoPaymentBooking.get "payoutStatus" ≠ .str "settled" := by decide
    have h4 : (badAccountNoPaymentBooking.get "razorpayPaymentId").truthy = false := by rfl
    have h5 : (JsVal.str "bad_123").truthy = true := by decide
    simp [onMovieBookingCreated, onMovieBookingCreatedBody, JsVal.strictEq_str, h1, h2, h3, hz,
      resolveOwnerAccountStep_run, ha, h4, h5, updatePayoutStatus_run]
  obtain ⟨d1, hd1, hst, herr⟩ :=
    (failed_update_outcome okEnv "b1" "Missing Razorpay payment ID for transfer"
      (oneDocWorld "movie_bookings" "b1" badAccountNoPaymentBooking)).2
      badAccountNoPaymentBooking (by simp [oneDocWorld]) (by rfl)
  exact ⟨_, d1, hrun, hd1, hst, herr, by decide⟩

/-- C6: for a booking that passes the payout validations, when the gateway rejects the
transfer with message `m` the handler returns normally; it made the one transfer call and
then one update of the booking with `payoutStatus` `failed` and `payoutError`
`Function error: m`; no settlement record is written and there is no second transfer. -/
theorem onMovieBookingCreated_gateway_failure (env : Env) (bookingId : String) (data : Doc)
    (w : World) (acc keyId keySecret m : String)
    (hm : data.get "paymentMethod" = .str "Online")
    (hs : data.get "status" = .str "confirmed")
    (hp : data.get "payoutStatus" ≠ .str "settled")
    (ht : (parseFloat (data.get "totalAmount")).isPositive = true)
    (hpay : (data.get "razorpayPaymentId").truthy = true)
    (hacc : accountAfterResolution env w data = .str acc) (hpre : startsWith acc "acc_" = true)
    (hkey : env.razorpayKeyId = some keyId) (hkey1 : keyId ≠ "")
    (hsec : env.razorpayKeySecret = some keySecret) (hsec1 : keySecret ≠ "")
    (hgw : env.paymentTransfer (data.get "razorpayPaymentId") (.str acc)
      (toPaise (.num (orZero (parseFloat (data.get "actualTicketPrice"))))) = .error m) :
    ∃ w1, (onMovieBookingCreated env bookingId data).run w = (.ok (), w1) ∧
      newEvents w w1 =
        [.transfer (data.get "razorpayPaymentId") (.str acc)
            (toPaise (.num (orZero (parseFloat (data.get "actualTicketPrice"))))),
         .write "movie_bookings" bookingId
            [("payoutStatus", .str "failed"), ("payoutError", .str ("Function error: " ++ m))]] ∧
      (∀ i, w1.store "movie_booking_settlements" i = w.store "movie_booking_settlements" i) ∧
      (∀ d, w.store "movie_bookings" bookingId = some d →
        env.writeFault "movie_bookings" bookingId = none →
        ∃ d1, w1.store "movie_bookings" bookingId = some d1 ∧
          d1.get "payoutStatus" = .str "failed" ∧
          d1.get "payoutError" = .str ("Function error: " ++ m)) := by
  have hz := orZero_leZero_of_isPositive _ ht
  have hat : (JsVal.str acc).truthy = true := by
    simp [JsVal.truthy, startsWith_ne_empty acc hpre]
  refine ⟨(w.logged (.transfer (data.get "razorpayPaymentId") (.str acc)
      (toPaise (.num (orZero (parseFloat (data.get "actualTicketPrice"))))))).afterUpdate env
      "movie_bookings" bookingId
      [("payoutStatus", .str "failed"), ("payoutError", .str ("Function error: " ++ m))],
    ?_, ?_, ?_, ?_⟩
  · simp [onMovieBookingCreated, onMovieBookingCreatedBody, JsVal.strictEq_str, hm, hs, hp, hz,
      resolveOwnerAccountStep_run, hacc, hat, hpay, hpre, getTheatreOwnerPaymentMethod,
      getRazorpayClient_run_ok env keyId keySecret _ hkey hkey1 hsec hsec1,
      processRazorpayTransfer, calculateTheatreOwnerShare, hgw, updatePayoutStatus_run,
      JsError.message, World.logged]
  · exact newEvents_of_log _ _ _ (by simp [afterUpdate_log, World.logged])
  · intro i
    rw [afterUpdate_store_other _ _ _ _ _ _ _ (by simp)]
    rfl
  · intro d hd hf
    exact ⟨_, afterUpdate_store_same _ _ _ _ _ d hd hf (by simp [Doc.hasUndefined]),
      Doc.get_merge_payoutStatus d _ _⟩

/-- Witness of C6: the example booking with a gateway that rejects the transfer. -/
theorem onMovieBookingCreated_gateway_failure_witness :
    ∃ w1, (onMovieBookingCreated rejectingEnv "b1" paidBooking).run
        (oneDocWorld "movie_bookings" "b1" paidBooking) = (.ok (), w1) ∧
      newEvents (oneDocWorld "movie_bookings" "b1" paidBooking) w1 =
        [.transfer (.str "pay_Y") (.str "acc_X") (.fin 44000),
         .write "movie_bookings" "b1"
            [("payoutStatus", .str "failed"),
             ("payoutError", .str "Function error: The payment has not been captured")]] := by
  obtain ⟨w1, hrun, hev, _, _⟩ :=
    onMovieBookingCreated_gateway_failure rejectingEnv "b1" paidBooking
      (oneDocWorld "movie_bookings" "b1" paidBooking) "acc_X" "rzp_key" "rzp_secret"
      "The payment has not been captured" (by rfl) (by rfl) (by decide)
      (by simp [paidBooking, Doc.get, List.lookup, parseFloat, JsNum.isPositive])
      (by decide) (by rfl) (by decide) (by rfl) (by decide) (by rfl) (by decide) (by rfl)
  refine ⟨w1, hrun, ?_⟩
  rw [hev]
  have h : toPaise (.num (orZero (parseFloat (paidBooking.get "actualTicketPrice")))) =
      .fin 44000 := by
    have h1 : parseFloat (paidBooking.get "actualTicketPrice") = .fin 440 := by rfl
    rw [h1, orZero_fin, toPaise_440]
  rw [h]
  rfl

/-- The run of an order creation on numeric amounts that the gateway and the store
accept. -/
theorem createMovieBookingRazorpayOrder_run (env : Env) (data : Doc) (w : World) (t p : ℚ)
    (acc keyId keySecret orderId : String)
    (hprice : data.get "actualTicketPrice" = .num (.fin p)) (hp0 : p ≠ 0)
    (htotal : data.get "totalAmount" = .num (.fin t)) (ht0 : t ≠ 0)
    (hacc : data.get "ownerAccountId" = .str acc) (hpre : startsWith acc "acc_" = true)
    (hbid : (data.get "bookingId").truthy = true)
    (hkey : env.razorpayKeyId = some keyId) (hkey1 : keyId ≠ "")
    (hsec : env.razorpayKeySecret = some keySecret) (hsec1 : keySecret ≠ "")
    (hgw : ∀ currency, env.ordersCreate (toPaise (.num (.fin t))) currency (.str acc)
      (toPaise (.num (.fin p))) = .ok (.str orderId)) (hoid : orderId ≠ "")
    (hw : env.writeFault "movie_razorpay_orders" orderId = none) :
    ∃ w1, (createMovieBookingRazorpayOrder env data).run w =
      (.ok { orderId := .str orderId, ownerShare := .num (.fin p),
             platformProfit := .num (platformProfit (.num (.fin t)) (.num (.fin p))),
             actualTicketPrice := .num (.fin p), amount := .num (.fin t) }, w1) := by
  have hat : (JsVal.str acc).truthy = true := by
    simp [JsVal.truthy, startsWith_ne_empty acc hpre]
  have hbu : data.get "bookingId" ≠ .undefined := by
    intro h
    simp [h, JsVal.truthy] at hbid
  have hor : (data.get "theatreId").or .null ≠ .undefined := JsVal.or_null_ne_undefined _
  have hpt : (JsVal.num (.fin p)).truthy = true := by simp [JsVal.truthy, JsNum.truthy, hp0]
  have htt : (JsVal.num (.fin t)).truthy = true := by simp [JsVal.truthy, JsNum.truthy, ht0]
  simp [createMovieBookingRazorpayOrder, createMovieBookingRazorpayOrderBody, hprice, htotal,
    hacc, hat, hpt, htt, hbid, hpre,
    getRazorpayClient_run_ok env keyId keySecret _ hkey hkey1 hsec hsec1,
    calculateTheatreOwnerShare, hgw, docRef, hoid, refSet_run, Doc.hasUndefined, hbu, hor, hw]

/-- C1: `calculateTheatreOwnerShare` returns the ticket price `p`, and the platform profit
is `t - p`, as an expression of the payout handler and of the order creation, in the
settlement record that a payout of total `t` and ticket price `p` writes, and in the
result that an order creation on total `t` and ticket price `p` returns. -/
theorem settlement_split (p t : ℚ) :
    calculateTheatreOwnerShare (.num (.fin p)) = .num (.fin p) ∧
    companyProfit (.fin t) (calculateTheatreOwnerShare (.num (.fin p))) = .fin (t - p) ∧
    platformProfit (.num (.fin t)) (calculateTheatreOwnerShare (.num (.fin p))) = .fin (t - p) ∧
    (∀ (env : Env) (bookingId : String) (data : Doc) (w : World)
        (acc keyId keySecret : String) (resp : JsVal),
      data.get "paymentMethod" = .str "Online" → data.get "status" = .str "confirmed" →
      data.get "payoutStatus" ≠ .str "settled" →
      parseFloat (data.get "totalAmount") = .fin t → 0 < t →
      parseFloat (data.get "actualTicketPrice") = .fin p →
      (data.get "razorpayPaymentId").truthy = true →
      accountAfterResolution env w data = .str acc → startsWith acc "acc_" = true →
      env.razorpayKeyId = some keyId → keyId ≠ "" →
      env.razorpayKeySecret = some keySecret → keySecret ≠ "" →
      env.paymentTransfer (data.get "razorpayPaymentId") (.str acc)
        (toPaise (.num (.fin p))) = .ok resp →
      env.writeFault "movie_booking_settlements" bookingId = none →
      ∃ w1 rec, (onMovieBookingCreated env bookingId data).run w = (.ok (), w1) ∧
        w1.store "movie_booking_settlements" bookingId = some rec ∧
        rec.get "owner_share" = .num (.fin p) ∧
        rec.get "platform_profit" = .num (.fin (t - p))) ∧
    (∀ (env : Env) (data : Doc) (w : World) (acc keyId keySecret orderId : String),
      data.get "actualTicketPrice" = .num (.fin p) → p ≠ 0 →
      data.get "totalAmount" = .num (.fin t) → t ≠ 0 →
      data.get "ownerAccountId" = .str acc → startsWith acc "acc_" = true →
      (data.get "bookingId").truthy = true →
      env.razorpayKeyId = some keyId → keyId ≠ "" →
      env.razorpayKeySecret = some keySecret → keySecret ≠ "" →
      (∀ currency, env.ordersCreate (toPaise (.num (.fin t))) currency (.str acc)
        (toPaise (.num (.fin p))) = .ok (.str orderId)) → orderId ≠ "" →
      env.writeFault "movie_razorpay_orders" orderId = none →
      ∃ w1 r, (createMovieBookingRazorpayOrder env data).run w = (.ok r, w1) ∧
        r.ownerShare = .num (.fin p) ∧ r.platformProfit = .num (.fin (t - p))) := by
  refine ⟨rfl, rfl, rfl, ?_, ?_⟩
  · intro env bookingId data w acc keyId keySecret resp hm hs hp ht htpos hprice hpay hacc hpre
      hkey hkey1 hsec hsec1 hgw hw2
    refine ⟨payoutWorld env bookingId data t p acc w, _,
      payout_run_eq env bookingId data w t p acc keyId keySecret resp hm hs
        hp ht htpos hprice hpay hacc hpre hkey hkey1 hsec hsec1 hgw hw2,
      payoutWorld_settlement env bookingId data t p acc w, ?_, ?_⟩
    · simp [Doc.get, List.lookup]
    · simp [Doc.get, List.lookup, companyProfit, toNumber, JsNum.sub]
  · intro env data w acc keyId keySecret orderId hprice hp0 htotal ht0 hacc hpre hbid hkey hkey1
      hsec hsec1 hgw hoid hw
    obtain ⟨w1, hrun⟩ := createMovieBookingRazorpayOrder_run env data w t p acc keyId keySecret
      orderId hprice hp0 htotal ht0 hacc hpre hbid hkey hkey1 hsec hsec1 hgw hoid hw
    exact ⟨w1, _, hrun, rfl, rfl⟩

/-- Witness of C1: ticket price 440 and total 500 give owner share 440 and platform
profit 60, in the settlement record of the example booking and in the result of the
example order. -/
theorem settlement_split_witness :
    calculateTheatreOwnerShare (.num (.fin 440)) = .num (.fin 440) ∧
    companyProfit (.fin 500) (calculateTheatreOwnerShare (.num (.fin 440))) = .fin 60 ∧
    platformProfit (.num (.fin 500)) (calculateTheatreOwnerShare (.num (.fin 440))) = .fin 60 ∧
    (∃ w1 rec, (onMovieBookingCreated okEnv "b1" paidBooking).run
        (oneDocWorld "movie_bookings" "b1" paidBooking) = (.ok (), w1) ∧
      w1.store "movie_booking_settlements" "b1" = some rec ∧
      rec.get "owner_share" = .num (.fin 440) ∧ rec.get "platform_profit" = .num (.fin 60)) ∧
    (∃ w1 r, (createMovieBookingRazorpayOrder okEnv orderRequest).run emptyWorld = (.ok r, w1) ∧
      r.ownerShare = .num (.fin 440) ∧ r.platformProfit = .num (.fin 60)) := by
  obtain ⟨h1, h2, h3, h4, h5⟩ := settlement_split 440 500
  have e : (500 : ℚ) - 440 = 60 := by norm_num
  rw [e] at h2 h3 h4 h5
  refine ⟨h1, h2, h3, ?_, ?_⟩
  · exact h4 okEnv "b1" paidBooking (oneDocWorld "movie_bookings" "b1" paidBooking) "acc_X"
      "rzp_key" "rzp_secret" (.str "trf_1") (by rfl) (by rfl) (by decide) (by rfl)
      (by norm_num) (by rfl) (by decide) (by rfl) (by decide) (by rfl) (by decide) (by rfl)
      (by decide) (by rfl) (by rfl)
  · exact h5 okEnv orderRequest emptyWorld "acc_X" "rzp_key" "rzp_secret" "order_1" (by rfl)
      (by norm_num) (by rfl) (by norm_num) (by rfl) (by decide) (by decide) (by rfl)
      (by decide) (by rfl) (by decide) (fun _ => rfl) (by decide) (by rfl)

/-! ## Theorems on the account resolver -/

/-- C7: when the resolver reaches the user record of the owner (the theatre id is a
non-empty string, the theatre is read and has an owner id, taken from the theatre or else
from the booking, and the user is read), it returns normally, without an effect, the
value of the first key of the list razorpayAccountId, ownerAccountId, accountId,
razorpay_account_id, razorpay_accountId whose value is a string starting with `acc_`, and
`null` when no key has such a value; a result other than `null` is a string starting
with `acc_`. -/
theorem resolveTheatreOwnerAccountId_first_match (env : Env) (w : World) (bookingData : Doc)
    (th o : String) (theatre user : Doc)
    (hth : th ≠ "") (hrt : env.readFault "movie_theatres" th = none)
    (ht : w.store "movie_theatres" th = some theatre)
    (ho : (theatre.get "ownerId").or (bookingData.get "ownerId") = .str o) (hoe : o ≠ "")
    (hru : env.readFault "users" o = none) (hu : w.store "users" o = some user) :
    ∃ r, (resolveTheatreOwnerAccountId env (.str th) bookingData).run w = (.ok r, w) ∧
      ((r = .null ∧
          ∀ k ∈ ["razorpayAccountId", "ownerAccountId", "accountId", "razorpay_account_id",
            "razorpay_accountId"], ¬ IsConnectedAccount (user.get k)) ∨
        (∃ pre k post,
          ["razorpayAccountId", "ownerAccountId", "accountId", "razorpay_account_id",
            "razorpay_accountId"] = pre ++ k :: post ∧
          (∀ j ∈ pre, ¬ IsConnectedAccount (user.get j)) ∧
          IsConnectedAccount (user.get k) ∧ r = user.get k)) ∧
      (r ≠ .null → IsConnectedAccount r) := by
  have hr : resolveFromStore env w (.str th) bookingData = scanCandidateKeys user candidateKeys := by
    simp [resolveFromStore, hth, hrt, ht, ho, hoe, hru, hu]
  refine ⟨scanCandidateKeys user candidateKeys, ?_, ?_, ?_⟩
  · rw [resolveTheatreOwnerAccountId_run, resolverResult_eq, hr]
  · exact scanCandidateKeys_spec user candidateKeys
  · intro hne
    rcases scanCandidateKeys_spec user candidateKeys with ⟨hn, _⟩ | ⟨_, k, _, _, _, hacc, hres⟩
    · exact absurd hn hne
    · rw [hres]
      exact hacc

/-- C8: the resolver never throws and has no effect; it returns `null` when the theatre
id is empty or missing, when the theatre record is absent, when neither the theatre nor
the booking data carries an owner id, when the user record of the owner is absent, and
when the read of the theatre or of the user fails. -/
theorem resolveTheatreOwnerAccountId_never_throws (env : Env) (w : World) (theatreId : JsVal)
    (bookingData : Doc) :
    ∃ r, (resolveTheatreOwnerAccountId env theatreId bookingData).run w = (.ok r, w) ∧
      (theatreId.truthy = false → r = .null) ∧
      (∀ th, theatreId = .str th → w.store "movie_theatres" th = none → r = .null) ∧
      (∀ th theatre, theatreId = .str th → w.store "movie_theatres" th = some theatre →
        (theatre.get "ownerId").truthy = false → (bookingData.get "ownerId").truthy = false →
        r = .null) ∧
      (∀ th theatre o, theatreId = .str th → w.store "movie_theatres" th = some theatre →
        (theatre.get "ownerId").or (bookingData.get "ownerId") = .str o →
        w.store "users" o = none → r = .null) ∧
      (∀ th m, theatreId = .str th → env.readFault "movie_theatres" th = some m → r = .null) ∧
      (∀ th theatre o m, theatreId = .str th → w.store "movie_theatres" th = some theatre →
        (theatre.get "ownerId").or (bookingData.get "ownerId") = .str o →
        env.readFault "users" o = some m → r = .null) := by
  refine ⟨resolveFromStore env w theatreId bookingData, ?_, ?_, ?_, ?_, ?_, ?_, ?_⟩
  · rw [resolveTheatreOwnerAccountId_run, resolverResult_eq]
  · intro h
    cases theatreId <;> simp_all [resolveFromStore, JsVal.truthy]
  · intro th hid hs
    subst hid
    simp only [resolveFromStore, hs]
    split
    · rfl
    · cases env.readFault "movie_theatres" th <;> rfl
  · intro th theatre hid hs h1 h2
    subst hid
    have hor : ((theatre.get "ownerId").or (bookingData.get "ownerId")).truthy = false := by
      simp [JsVal.or, h1, h2]
    simp only [resolveFromStore, hs]
    split
    · rfl
    · cases env.readFault "movie_theatres" th with
      | some m => rfl
      | none =>
        simp only []
        cases hv : (theatre.get "ownerId").or (bookingData.get "ownerId") with
        | str o =>
          have : o = "" := by simpa [hv, JsVal.truthy] using hor
          simp [this]
        | _ => rfl
  · intro th theatre o hid hs ho hu
    subst hid
    by_cases hth : th = ""
    · simp [resolveFromStore, hth]
    · by_cases hoe : o = ""
      · cases hrf : env.readFault "movie_theatres" th <;>
          simp [resolveFromStore, hth, hs, ho, hoe, hrf]
      · cases hrf : env.readFault "movie_theatres" th <;>
          cases hru : env.readFault "users" o <;>
          simp [resolveFromStore, hth, hs, ho, hoe, hrf, hru, hu]
  · intro th m hid hf
    subst hid
    simp only [resolveFromStore, hf]
    split <;> rfl
  · intro th theatre o m hid hs ho hf
    subst hid
    by_cases hth : th = ""
    · simp [resolveFromStore, hth]
    · by_cases hoe : o = ""
      · cases hrf : env.readFault "movie_theatres" th <;>
          simp [resolveFromStore, hth, hs, ho, hoe, hrf]
      · cases hrf : env.readFault "movie_theatres" th <;>
          simp [resolveFromStore, hth, hs, ho, hoe, hrf, hf]

/-- Witness of C7: the user record of the example has a malformed `razorpayAccountId`,
no `ownerAccountId` and the valid `accountId` `acc_7`, which is the result. -/
theorem resolveTheatreOwnerAccountId_first_match_witness :
    ∃ r, (resolveTheatreOwnerAccountId okEnv (.str "th_1") []).run ownerWorld =
        (.ok r, ownerWorld) ∧
      r = .str "acc_7" ∧ IsConnectedAccount r := by
  obtain ⟨r, hrun, hcases, hne⟩ :=
    resolveTheatreOwnerAccountId_first_match okEnv ownerWorld [] "th_1" "u1"
      [("ownerId", .str "u1")]
      [("razorpayAccountId", .str "rzp_9"), ("accountId", .str "acc_7")]
      (by decide) (by rfl) (by rfl) (by rfl) (by decide) (by rfl) (by rfl)
  have hr : r = .str "acc_7" := by
    have h := resolveTheatreOwnerAccountId_run okEnv (.str "th_1") [] ownerWorld
    rw [hrun] at h
    have h2 : r = resolverResult okEnv ownerWorld (.str "th_1") [] := by
      injection h with h1 _
      injection h1
    rw [h2, resolverResult_eq]
    rfl
  refine ⟨r, hrun, hr, hne ?_⟩
  rw [hr]
  decide

/-- Witness of C8: a theatre without an owner id and a booking without a fallback owner
id give `null`. -/
theorem resolveTheatreOwnerAccountId_never_throws_witness :
    ∃ r, (resolveTheatreOwnerAccountId okEnv (.str "th_1") []).run ownerlessTheatreWorld =
        (.ok r, ownerlessTheatreWorld) ∧ r = .null := by
  obtain ⟨r, hrun, _, _, hno, _, _, _⟩ :=
    resolveTheatreOwnerAccountId_never_throws okEnv ownerlessTheatreWorld (.str "th_1") []
  exact ⟨r, hrun, hno "th_1" [("name", .str "Regal")] rfl (by rfl) (by rfl) (by rfl)⟩

/-! ## Theorems on refund processing -/

/-- The run of `processMovieBookingRefund` on a refund request that exists and is not
pending: the `failed-precondition` error of the check is caught by the outer handler and
rethrown with code `internal`; the world is unchanged. -/
theorem processMovieBookingRefund_not_pending_run (env : Env) (data : Doc) (w : World)
    (rid : String) (refundData : Doc)
    (hid : data.get "refundRequestId" = .str rid) (hne : rid ≠ "")
    (hact : (data.get "action").truthy = true)
    (hrf : env.readFault "refund_requests" rid = none)
    (hdoc : w.store "refund_requests" rid = some refundData)
    (hst : refundData.get "status" ≠ .str "pending") :
    (processMovieBookingRefund env data).run w =
      (.error (.https "internal" "Refund request already processed"), w) := by
  have hrt : (JsVal.str rid).truthy = true := by simp [JsVal.truthy, hne]
  simp [processMovieBookingRefund, processMovieBookingRefundBody, hid, hrt, hact, docRef, hne,
    refGet_run, hrf, hdoc, JsVal.strictEq_str, hst, JsError.message]

/-- C9, the code at the failing input: approving the refund request `r1`, whose status is
`processed`, fails with an error of code `internal` (message `Refund request already
processed`), not with code `failed-precondition`. -/
theorem processMovieBookingRefund_processed_internal :
    (processMovieBookingRefund okEnv approveRequest).run processedRefundWorld =
      (.error (.https "internal" "Refund request already processed"), processedRefundWorld) ∧
    JsError.https "internal" "Refund request already processed" ≠
      JsError.https "failed-precondition" "Refund request already processed" := by
  constructor
  · exact processMovieBookingRefund_not_pending_run okEnv approveRequest processedRefundWorld
      "r1" _ (by rfl) (by decide) (by decide) (by rfl) (by rfl) (by decide)
  · decide

/-- C10: for a refund request that exists and whose status is not `pending`,
`processMovieBookingRefund` ends in a throw with the world unchanged, whatever the action,
the environment and the rest of the input: no gateway call is made, and the refund
request, the booking and every other document are as before. -/
theorem processMovieBookingRefund_not_pending_noop (env : Env) (data : Doc) (w : World)
    (rid : String) (refundData : Doc)
    (hid : data.get "refundRequestId" = .str rid)
    (hdoc : w.store "refund_requests" rid = some refundData)
    (hst : refundData.get "status" ≠ .str "pending") :
    ∃ e, (processMovieBookingRefund env data).run w = (.error e, w) := by
  by_cases hne : rid = ""
  · refine ⟨.https "internal" "Missing required parameters", ?_⟩
    simp [processMovieBookingRefund, processMovieBookingRefundBody, hid, hne, JsVal.truthy,
      JsError.message]
  · have hrt : (JsVal.str rid).truthy = true := by simp [JsVal.truthy, hne]
    by_cases hact : (data.get "action").truthy = true
    · cases hrf : env.readFault "refund_requests" rid with
      | none =>
        exact ⟨_, processMovieBookingRefund_not_pending_run env data w rid refundData hid hne
          hact hrf hdoc hst⟩
      | some m =>
        refine ⟨.https "internal" m, ?_⟩
        simp [processMovieBookingRefund, processMovieBookingRefundBody, hid, hrt, hact, docRef,
          hne, refGet_run, hrf, JsError.message]
    · refine ⟨.https "internal" "Missing required parameters", ?_⟩
      simp [processMovieBookingRefund, processMovieBookingRefundBody, hid, hrt, hact,
        JsError.message]

/-- Witness of C10: approving the processed refund request `r1` throws and leaves the
world, with its empty call log, as it was. -/
theorem processMovieBookingRefund_not_pending_noop_witness :
    ∃ e, (processMovieBookingRefund okEnv approveRequest).run processedRefundWorld =
      (.error e, processedRefundWorld) ∧ processedRefundWorld.log = [] :=
  let ⟨e, h⟩ := processMovieBookingRefund_not_pending_noop okEnv approveRequest
    processedRefundWorld "r1"
    [("bookingId", .str "b1"), ("userId", .str "u1"), ("theatreId", .str "th_1"),
     ("amount", .num (.fin 112)), ("actualTicketPrice", .num (.fin 100)),
     ("paymentId", .str "pay_Y"), ("status", .str "processed")]
    (by rfl) (by rfl) (by decide)
  ⟨e, h, rfl⟩

/-! ## Theorems on order creation -/

/-- The run of an order creation with a missing required parameter: the
`invalid-argument` error is rethrown with code `internal`; nothing else happens. -/
theorem createMovieBookingRazorpayOrder_missing_run (env : Env) (data : Doc) (w : World)
    (h : (data.get "actualTicketPrice").truthy = false ∨ (data.get "totalAmount").truthy = false ∨
      (data.get "ownerAccountId").truthy = false ∨ (data.get "bookingId").truthy = false) :
    (createMovieBookingRazorpayOrder env data).run w =
      (.error (.https "internal" "Missing required parameters"), w) := by
  have hc : (!(data.get "actualTicketPrice").truthy || !(data.get "totalAmount").truthy ||
      !(data.get "ownerAccountId").truthy || !(data.get "bookingId").truthy) = true := by
    rcases h with h | h | h | h <;> simp [h]
  simp [createMovieBookingRazorpayOrder, createMovieBookingRazorpayOrderBody, hc,
    JsError.message]

/-- The run of an order creation whose account id is a string that does not start with
`acc_`: the `failed-precondition` error is rethrown with code `internal`. -/
theorem createMovieBookingRazorpayOrder_bad_account_run (env : Env) (data : Doc) (w : World)
    (acc : String)
    (h1 : (data.get "actualTicketPrice").truthy = true)
    (h2 : (data.get "totalAmount").truthy = true)
    (h3 : data.get "ownerAccountId" = .str acc) (h3t : acc ≠ "")
    (h4 : (data.get "bookingId").truthy = true)
    (hpre : startsWith acc "acc_" = false) :
    (createMovieBookingRazorpayOrder env data).run w =
      (.error (.https "internal" "Theatre Owner Razorpay Account ID is invalid"), w) := by
  have hat : (JsVal.str acc).truthy = true := by simp [JsVal.truthy, h3t]
  simp [createMovieBookingRazorpayOrder, createMovieBookingRazorpayOrderBody, h1, h2, h3, hat,
    h4, hpre, JsError.message]

/-- C16, the code at the failing inputs: an order request without a ticket price and an
order request with the account id `bad_123` both fail with an error of code `internal`
(messages `Missing required parameters` and `Theatre Owner Razorpay Account ID is
invalid`), not with `invalid-argument` and `failed-precondition`; in both runs the world
is unchanged, so no gateway order is created. -/
theorem createMovieBookingRazorpayOrder_validation_internal :
    (createMovieBookingRazorpayOrder okEnv missingPriceOrder).run emptyWorld =
      (.error (.https "internal" "Missing required parameters"), emptyWorld) ∧
    (createMovieBookingRazorpayOrder okEnv badAccountOrder).run emptyWorld =
      (.error (.https "internal" "Theatre Owner Razorpay Account ID is invalid"), emptyWorld) ∧
    JsError.https "internal" "Missing required parameters" ≠
      JsError.https "invalid-argument" "Missing required parameters" ∧
    JsError.https "internal" "Theatre Owner Razorpay Account ID is invalid" ≠
      JsError.https "failed-precondition" "Theatre Owner Razorpay Account ID is invalid" := by
  refine ⟨?_, ?_, by decide, by decide⟩
  · exact createMovieBookingRazorpayOrder_missing_run okEnv missingPriceOrder emptyWorld
      (Or.inl (by rfl))
  · exact createMovieBookingRazorpayOrder_bad_account_run okEnv badAccountOrder emptyWorld
      "bad_123" (by decide) (by decide) (by rfl) (by decide) (by decide) (by decide)

/-! ## Theorems on what the payout records -/

/-- The booking document in the world after a successful payout, when the document
existed and the store accepted the update. -/
theorem payoutWorld_booking (env : Env) (bookingId : String) (data : Doc) (t p : ℚ)
    (acc : String) (w : World) (d : Doc)
    (hdoc : w.store "movie_bookings" bookingId = some d)
    (hw1 : env.writeFault "movie_bookings" bookingId = none) :
    (payoutWorld env bookingId data t p acc w).store "movie_bookings" bookingId =
      some (d.merge [("payoutStatus", .str "settled"), ("transferResponse", .null),
        ("theatreOwnerAccountId", .str acc), ("payoutMethod", .str "Razorpay Route")]) := by
  have hst := afterUpdate_store_same env "movie_bookings" bookingId
    [("payoutStatus", .str "settled"), ("transferResponse", .null),
     ("theatreOwnerAccountId", .str acc), ("payoutMethod", .str "Razorpay Route")]
    (w.logged (.transfer (data.get "razorpayPaymentId") (.str acc) (toPaise (.num (.fin p)))))
    d hdoc hw1 (by simp [Doc.hasUndefined])
  simpa [payoutWorld, Store.put] using hst

/-- C17, the code at the failing input: in the payout of the example booking the gateway
returns the transfer response `trf_1`, and the booking document is written with
`payoutStatus` `settled` and `transferResponse` `null`: the response of the gateway is
not recorded. -/
theorem onMovieBookingCreated_transferResponse_null :
    okEnv.paymentTransfer (.str "pay_Y") (.str "acc_X") (toPaise (.num (.fin 440))) =
      .ok (.str "trf_1") ∧
    ∃ w1 d1, (onMovieBookingCreated okEnv "b1" paidBooking).run
        (oneDocWorld "movie_bookings" "b1" paidBooking) = (.ok (), w1) ∧
      w1.store "movie_bookings" "b1" = some d1 ∧
      d1.get "payoutStatus" = .str "settled" ∧
      d1.get "transferResponse" = .null ∧
      d1.get "transferResponse" ≠ .str "trf_1" := by
  refine ⟨rfl, _, _, payout_run_eq okEnv "b1" paidBooking
      (oneDocWorld "movie_bookings" "b1" paidBooking) 500 440 "acc_X" "rzp_key" "rzp_secret"
      (.str "trf_1") (by rfl) (by rfl) (by decide) (by rfl) (by norm_num) (by rfl)
      (by decide) (by rfl) (by decide) (by rfl) (by decide) (by rfl) (by decide) (by rfl)
      (by rfl),
    payoutWorld_booking okEnv "b1" paidBooking 500 440 "acc_X" _ paidBooking
      (by simp [oneDocWorld]) (by rfl), ?_, ?_, ?_⟩
  · simp [Doc.merge, Doc.get, List.lookup]
  · simp [Doc.merge, Doc.get, List.lookup]
  · simp [Doc.merge, Doc.get, List.lookup]

/-- The run of a payout whose transfer the gateway accepts and whose settlement record
the store rejects with message `m`: the error reaches the outer `catch`, which updates the
booking to `failed`. -/
theorem payout_settlement_fault_run (env : Env) (bookingId : String) (data : Doc)
    (w : World) (t p : ℚ) (acc keyId keySecret m : String) (resp : JsVal)
    (hm : data.get "paymentMethod" = .str "Online")
    (hs : data.get "status" = .str "confirmed")
    (hp : data.get "payoutStatus" ≠ .str "settled")
    (ht : parseFloat (data.get "totalAmount") = .fin t) (htpos : 0 < t)
    (hprice : parseFloat (data.get "actualTicketPrice") = .fin p)
    (hpay : (data.get "razorpayPaymentId").truthy = true)
    (hacc : accountAfterResolution env w data = .str acc) (hpre : startsWith acc "acc_" = true)
    (hkey : env.razorpayKeyId = some keyId) (hkey1 : keyId ≠ "")
    (hsec : env.razorpayKeySecret = some keySecret) (hsec1 : keySecret ≠ "")
    (hgw : env.paymentTransfer (data.get "razorpayPaymentId") (.str acc)
      (toPaise (.num (.fin p))) = .ok resp)
    (hw2 : env.writeFault "movie_booking_settlements" bookingId = some m) :
    ∃ rec, (onMovieBookingCreated env bookingId data).run w =
      (.ok (), ((((w.logged (.transfer (data.get "razorpayPaymentId") (.str acc)
          (toPaise (.num (.fin p))))).afterUpdate env "movie_bookings" bookingId
        [("payoutStatus", .str "settled"), ("transferResponse", .null),
         ("theatreOwnerAccountId", .str acc), ("payoutMethod", .str "Razorpay Route")]).logged
        (.write "movie_booking_settlements" bookingId rec)).afterUpdate env "movie_bookings"
        bookingId [("payoutStatus", .str "failed"),
          ("payoutError", .str ("Function error: " ++ m))])) := by
  have hz : (JsNum.fin t).leZero = false := by
    simp [JsNum.leZero, htpos]
  have hat : (JsVal.str acc).truthy = true := by
    simp [JsVal.truthy, startsWith_ne_empty acc hpre]
  have hpu : data.get "razorpayPaymentId" ≠ .undefined := by
    intro h
    simp [h, JsVal.truthy] at hpay
  have hor : (data.get "theatreId").or .null ≠ .undefined := JsVal.or_null_ne_undefined _
  refine ⟨[("booking_id", .str bookingId),
         ("theatre_id", (data.get "theatreId").or .null),
         ("total_paid", .num (.fin t)),
         ("owner_share", .num (.fin p)),
         ("platform_profit", .num (companyProfit (.fin t) (.num (.fin p)))),
         ("razorpay_payment_id", data.get "razorpayPaymentId"),
         ("owner_account_id", .str acc),
         ("settledAt", .serverTimestamp)], ?_⟩
  simp [onMovieBookingCreated, onMovieBookingCreatedBody, JsVal.strictEq_str, hm, hs, hp, ht,
    hprice, hz, hacc, hat, hpay, hpre, getTheatreOwnerPaymentMethod, resolveOwnerAccountStep_run,
    getRazorpayClient_run_ok env keyId keySecret _ hkey hkey1 hsec hsec1,
    processRazorpayTransfer, calculateTheatreOwnerShare, orZero_fin, hgw,
    updateMovieBookingAfterTransfer_run, refSet_run, Doc.hasUndefined, hpu, hor, hw2,
    updatePayoutStatus_run, JsError.message, World.logged]

/-- C20, the code at the failing input: the example booking is paid out (the gateway
accepts the transfer of 44000 paise) in an environment whose store rejects the write of
the settlement record; the run has logged the transfer, and the booking document ends
with `payoutStatus` `failed`. -/
theorem onMovieBookingCreated_failed_after_transfer :
    settlementFaultEnv.paymentTransfer (.str "pay_Y") (.str "acc_X") (toPaise (.num (.fin 440))) =
      .ok (.str "trf_1") ∧
    ∃ w1 d1, (onMovieBookingCreated settlementFaultEnv "b1" paidBooking).run
        (oneDocWorld "movie_bookings" "b1" paidBooking) = (.ok (), w1) ∧
      (newEvents (oneDocWorld "movie_bookings" "b1" paidBooking) w1).filter Event.isGatewayCall =
        [.transfer (.str "pay_Y") (.str "acc_X") (.fin 44000)] ∧
      w1.store "movie_bookings" "b1" = some d1 ∧
      d1.get "payoutStatus" = .str "failed" ∧
      d1.get "payoutError" =
        .str "Function error: UNAVAILABLE: The service is currently unavailable" := by
  refine ⟨rfl, ?_⟩
  obtain ⟨rec, hrun⟩ := payout_settlement_fault_run settlementFaultEnv "b1" paidBooking
      (oneDocWorld "movie_bookings" "b1" paidBooking) 500 440 "acc_X" "rzp_key" "rzp_secret"
      "UNAVAILABLE: The service is currently unavailable"
      (.str "trf_1") (by rfl) (by rfl) (by decide) (by rfl) (by norm_num) (by rfl)
      (by decide) (by rfl) (by decide) (by rfl) (by decide) (by rfl) (by decide) (by rfl)
      (by rfl)
  have h1 := afterUpdate_store_same settlementFaultEnv "movie_bookings" "b1"
    [("payoutStatus", .str "settled"), ("transferResponse", .null),
     ("theatreOwnerAccountId", .str "acc_X"), ("payoutMethod", .str "Razorpay Route")]
    ((oneDocWorld "movie_bookings" "b1" paidBooking).logged
      (.transfer (paidBooking.get "razorpayPaymentId") (.str "acc_X") (toPaise (.num (.fin 440)))))
    paidBooking (by simp [oneDocWorld, World.logged]) (by rfl) (by simp [Doc.hasUndefined])
  have h2 := afterUpdate_store_same settlementFaultEnv "movie_bookings" "b1"
    [("payoutStatus", .str "failed"),
     ("payoutError", .str ("Function error: " ++ "UNAVAILABLE: The service is currently unavailable"))]
    ((((oneDocWorld "movie_bookings" "b1" paidBooking).logged
      (.transfer (paidBooking.get "razorpayPaymentId") (.str "acc_X")
        (toPaise (.num (.fin 440))))).afterUpdate settlementFaultEnv "movie_bookings" "b1"
      [("payoutStatus", .str "settled"), ("transferResponse", .null),
       ("theatreOwnerAccountId", .str "acc_X"), ("payoutMethod", .str "Razorpay Route")]).logged
      (.write "movie_booking_settlements" "b1" rec))
    (paidBooking.merge [("payoutStatus", .str "settled"), ("transferResponse", .null),
       ("theatreOwnerAccountId", .str "acc_X"), ("payoutMethod", .str "Razorpay Route")])
    h1 (by rfl) (by simp [Doc.hasUndefined])
  refine ⟨_, _, hrun, ?_, h2, ?_, ?_⟩
  · have hp : paidBooking.get "razorpayPaymentId" = .str "pay_Y" := by rfl
    simp [newEvents, afterUpdate_log, World.logged, oneDocWorld, Event.isGatewayCall,
      List.filter, toPaise_440, hp]
  · exact (Doc.get_merge_payoutStatus _ _ _).1
  · exact (Doc.get_merge_payoutStatus _ _ _).2

/-! ## Theorems on negative amounts -/

/-- The gateway call of an order creation on numeric amounts that the gateway and the
store accept. -/
theorem createMovieBookingRazorpayOrder_events (env : Env) (data : Doc) (w : World) (t p : ℚ)
    (acc keyId keySecret orderId : String)
    (hprice : data.get "actualTicketPrice" = .num (.fin p)) (hp0 : p ≠ 0)
    (htotal : data.get "totalAmount" = .num (.fin t)) (ht0 : t ≠ 0)
    (hacc : data.get "ownerAccountId" = .str acc) (hpre : startsWith acc "acc_" = true)
    (hbid : (data.get "bookingId").truthy = true)
    (hkey : env.razorpayKeyId = some keyId) (hkey1 : keyId ≠ "")
    (hsec : env.razorpayKeySecret = some keySecret) (hsec1 : keySecret ≠ "")
    (hgw : ∀ currency, env.ordersCreate (toPaise (.num (.fin t))) currency (.str acc)
      (toPaise (.num (.fin p))) = .ok (.str orderId)) (hoid : orderId ≠ "")
    (hw : env.writeFault "movie_razorpay_orders" orderId = none) :
    ∃ w1 r, (createMovieBookingRazorpayOrder env data).run w = (.ok r, w1) ∧
      r.ownerShare = .num (.fin p) ∧
      (newEvents w w1).filter Event.isGatewayCall =
        [.orderCreate (toPaise (.num (.fin t)))
          (if data.get "currency" = .undefined then .str "INR" else data.get "currency")
          (.str acc) (toPaise (.num (.fin p)))] := by
  have hat : (JsVal.str acc).truthy = true := by
    simp [JsVal.truthy, startsWith_ne_empty acc hpre]
  have hbu : data.get "bookingId" ≠ .undefined := by
    intro h
    simp [h, JsVal.truthy] at hbid
  have hor : (data.get "theatreId").or .null ≠ .undefined := JsVal.or_null_ne_undefined _
  have hpt : (JsVal.num (.fin p)).truthy = true := by simp [JsVal.truthy, JsNum.truthy, hp0]
  have htt : (JsVal.num (.fin t)).truthy = true := by simp [JsVal.truthy, JsNum.truthy, ht0]
  simp [createMovieBookingRazorpayOrder, createMovieBookingRazorpayOrderBody, hprice, htotal,
    hacc, hat, hpt, htt, hbid, hpre,
    getRazorpayClient_run_ok env keyId keySecret _ hkey hkey1 hsec hsec1,
    calculateTheatreOwnerShare, hgw, docRef, hoid, refSet_run, Doc.hasUndefined, hbu, hor, hw]
  refine ⟨_, _, ⟨rfl, rfl⟩, rfl, ?_⟩
  simp [newEvents, Event.isGatewayCall, List.filter]

theorem toPaise_neg_440 : toPaise (.num (.fin (-440))) = .fin (-44000) := by
  have h := toPaise_cents (-44000) (by norm_num)
  norm_num at h
  exact h

theorem toPaise_500 : toPaise (.num (.fin 500)) = .fin 50000 := by
  have h := toPaise_cents 50000 (by norm_num)
  norm_num at h
  exact h

theorem toPaise_neg_500 : toPaise (.num (.fin (-500))) = .fin (-50000) := by
  have h := toPaise_cents (-50000) (by norm_num)
  norm_num at h
  exact h

/-- C19, amended: for every booking whose total amount is negative (a negative number, or
text that parses to one), `onMovieBookingCreated` computes no owner share and sends
nothing to the gateway: the run returns without a gateway call and without a settlement
record; when the booking is Online, confirmed and not yet settled, its only call is the
update of the booking with `failed` and `Invalid amount`. -/
theorem onMovieBookingCreated_negative_total (env : Env) (bookingId : String) (data : Doc)
    (w : World) (hneg : (parseFloat (data.get "totalAmount")).isNegative = true) :
    ∃ w1, (onMovieBookingCreated env bookingId data).run w = (.ok (), w1) ∧
      (newEvents w w1).filter Event.isGatewayCall = [] ∧
      (newEvents w w1).filter (Event.isWriteTo "movie_booking_settlements") = [] ∧
      (data.get "paymentMethod" = .str "Online" → data.get "status" = .str "confirmed" →
        data.get "payoutStatus" ≠ .str "settled" →
        newEvents w w1 = [.write "movie_bookings" bookingId
          [("payoutStatus", .str "failed"), ("payoutError", .str "Invalid amount")]]) := by
  have hz : (orZero (parseFloat (data.get "totalAmount"))).leZero = true := by
    apply orZero_leZero_of_not_isPositive
    cases hn : parseFloat (data.get "totalAmount") with
    | fin q =>
      rw [hn] at hneg
      have hq : q < 0 := by simpa [JsNum.isNegative] using hneg
      simp [JsNum.isPositive, le_of_lt hq]
    | nan =>
      rw [hn] at hneg
      simp [JsNum.isNegative] at hneg
    | inf negative =>
      rw [hn] at hneg
      simp only [JsNum.isNegative] at hneg
      simp [JsNum.isPositive, hneg]
  have hnil : newEvents w w = [] := newEvents_of_log w w [] (by simp)
  by_cases hm : data.get "paymentMethod" = .str "Online"
  · by_cases hs : data.get "status" = .str "confirmed"
    · by_cases hp : data.get "payoutStatus" = .str "settled"
      · refine ⟨w, ?_, by rw [hnil]; rfl, by rw [hnil]; rfl, fun _ _ h => absurd hp h⟩
        simp [onMovieBookingCreated, onMovieBookingCreatedBody, JsVal.strictEq_str, hm, hs, hp]
      · have hev := (failed_update_outcome env bookingId "Invalid amount" w).1
        refine ⟨w.afterUpdate env "movie_bookings" bookingId
          [("payoutStatus", .str "failed"), ("payoutError", .str "Invalid amount")], ?_, ?_, ?_,
          fun _ _ _ => hev⟩
        · simp [onMovieBookingCreated, onMovieBookingCreatedBody, JsVal.strictEq_str, hm, hs,
            hp, hz, updatePayoutStatus_run]
        · rw [hev]
          rfl
        · rw [hev]
          simp [List.filter, Event.isWriteTo]
    · refine ⟨w, ?_, by rw [hnil]; rfl, by rw [hnil]; rfl, fun _ h _ => absurd h hs⟩
      simp [onMovieBookingCreated, onMovieBookingCreatedBody, JsVal.strictEq_str, hm, hs]
  · refine ⟨w, ?_, by rw [hnil]; rfl, by rw [hnil]; rfl, fun h _ _ => absurd h hm⟩
    simp [onMovieBookingCreated, onMovieBookingCreatedBody, JsVal.strictEq_str, hm]

/-- Witness of C19, amended: the example booking with total -500 gets the single update
to `failed` with `Invalid amount`; there is no gateway call and no settlement record. -/
theorem onMovieBookingCreated_negative_total_witness :
    ∃ w1, (onMovieBookingCreated okEnv "b1" negativeTotalBooking).run
        (oneDocWorld "movie_bookings" "b1" negativeTotalBooking) = (.ok (), w1) ∧
      (newEvents (oneDocWorld "movie_bookings" "b1" negativeTotalBooking) w1).filter
        Event.isGatewayCall = [] ∧
      (newEvents (oneDocWorld "movie_bookings" "b1" negativeTotalBooking) w1).filter
        (Event.isWriteTo "movie_booking_settlements") = [] ∧
      newEvents (oneDocWorld "movie_bookings" "b1" negativeTotalBooking) w1 =
        [.write "movie_bookings" "b1"
          [("payoutStatus", .str "failed"), ("payoutError", .str "Invalid amount")]] := by
  obtain ⟨w1, hrun, hgw, hset, hev⟩ :=
    onMovieBookingCreated_negative_total okEnv "b1" negativeTotalBooking
      (oneDocWorld "movie_bookings" "b1" negativeTotalBooking) (by decide)
  exact ⟨w1, hrun, hgw, hset, hev (by rfl) (by rfl) (by decide)⟩

/-- C19, counterexample: with the negative ticket price -440 and total 500,
`onMovieBookingCreated` pays out: it sends a transfer of -44000 paise to the gateway and
records the owner share -440; `createMovieBookingRazorpayOrder` returns the owner share
-440 after sending the gateway an order whose transfer amount is -44000 paise.  With the
negative total -500 and ticket price 440, `createMovieBookingRazorpayOrder` sends the
gateway an order of -50000 paise. -/
theorem negative_amount_counterexample :
    parseFloat (negativePriceBooking.get "actualTicketPrice") = .fin (-440) ∧
    (∃ w1 rec, (onMovieBookingCreated okEnv "b1" negativePriceBooking).run
        (oneDocWorld "movie_bookings" "b1" negativePriceBooking) = (.ok (), w1) ∧
      (newEvents (oneDocWorld "movie_bookings" "b1" negativePriceBooking) w1).filter
        Event.isGatewayCall = [.transfer (.str "pay_Y") (.str "acc_X") (.fin (-44000))] ∧
      w1.store "movie_booking_settlements" "b1" = some rec ∧
      rec.get "owner_share" = .num (.fin (-440))) ∧
    negativePriceOrder.get "actualTicketPrice" = .num (.fin (-440)) ∧
    (∃ w1 r, (createMovieBookingRazorpayOrder okEnv negativePriceOrder).run emptyWorld =
        (.ok r, w1) ∧
      r.ownerShare = .num (.fin (-440)) ∧
      (newEvents emptyWorld w1).filter Event.isGatewayCall =
        [.orderCreate (.fin 50000) (.str "INR") (.str "acc_X") (.fin (-44000))]) ∧
    negativeTotalOrder.get "totalAmount" = .num (.fin (-500)) ∧
    (∃ w1 r, (createMovieBookingRazorpayOrder okEnv negativeTotalOrder).run emptyWorld =
        (.ok r, w1) ∧
      (newEvents emptyWorld w1).filter Event.isGatewayCall =
        [.orderCreate (.fin (-50000)) (.str "INR") (.str "acc_X") (.fin 44000)]) := by
  refine ⟨by rfl, ?_, by rfl, ?_, by rfl, ?_⟩
  · refine ⟨_, _, payout_run_eq okEnv "b1" negativePriceBooking
        (oneDocWorld "movie_bookings" "b1" negativePriceBooking) 500 (-440) "acc_X" "rzp_key"
        "rzp_secret" (.str "trf_1") (by rfl) (by rfl) (by decide) (by rfl) (by norm_num)
        (by rfl) (by decide) (by rfl) (by decide) (by rfl) (by decide) (by rfl) (by decide)
        (by rfl) (by rfl), ?_,
      payoutWorld_settlement okEnv "b1" negativePriceBooking 500 (-440) "acc_X" _, ?_⟩
    · have hp : negativePriceBooking.get "razorpayPaymentId" = .str "pay_Y" := by rfl
      simp [newEvents, payoutWorld, afterUpdate_log, World.logged, oneDocWorld,
        Event.isGatewayCall, List.filter, toPaise_neg_440, hp]
    · simp [Doc.get, List.lookup]
  · obtain ⟨w1, r, hrun, hshare, hev⟩ :=
      createMovieBookingRazorpayOrder_events okEnv negativePriceOrder emptyWorld 500 (-440)
        "acc_X" "rzp_key" "rzp_secret" "order_1" (by rfl) (by norm_num) (by rfl) (by norm_num)
        (by rfl) (by decide) (by decide) (by rfl) (by decide) (by rfl) (by decide)
        (fun _ => rfl) (by decide) (by rfl)
    refine ⟨w1, r, hrun, hshare, ?_⟩
    rw [hev, toPaise_500, toPaise_neg_440]
    rfl
  · obtain ⟨w1, r, hrun, _, hev⟩ :=
      createMovieBookingRazorpayOrder_events okEnv negativeTotalOrder emptyWorld (-500) 440
        "acc_X" "rzp_key" "rzp_secret" "order_1" (by rfl) (by norm_num) (by rfl) (by norm_num)
        (by rfl) (by decide) (by decide) (by rfl) (by decide) (by rfl) (by decide)
        (fun _ => rfl) (by decide) (by rfl)
    refine ⟨w1, r, hrun, ?_⟩
    rw [hev, toPaise_neg_500, toPaise_440]
    rfl

/-! ## Theorems on refund request creation -/

theorem collAdd_run (env : Env) (coll : String) (fields : Doc) (w : World) :
    (collAdd env coll fields).run w =
      if fields.hasUndefined then
        (.error (.error "Cannot use \"undefined\" as a Firestore value."),
          w.logged (.write coll (env.newDocId coll) fields))
      else
        match env.writeFault coll (env.newDocId coll) with
        | some m => (.error (.error m), w.logged (.write coll (env.newDocId coll) fields))
        | none =>
          (.ok (env.newDocId coll),
            { store := w.store.put coll (env.newDocId coll) fields,
              log := w.log ++ [.write coll (env.newDocId coll) fields] }) := by
  simp only [collAdd, Js.run_bind, Js.run_emit, Js.run_ite, Js.run_throw, World.logged]
  split
  · rfl
  · cases env.writeFault coll (env.newDocId coll) <;> rfl

theorem JsVal.or_ne_undefined (v d : JsVal) (hd : d ≠ .undefined) : v.or d ≠ .undefined := by
  unfold JsVal.or
  split
  · intro h
    simp_all [JsVal.truthy]
  · exact hd

/-- The refund request that a cancellation call writes for a booking without a stored
ticket price, when the store accepts the reads and writes and no admin user is found. -/
theorem createMovieBookingRefundRequest_run (env : Env) (data : Doc) (w : World)
    (b u : String) (bk : Doc)
    (hb : data.get "bookingId" = .str b) (hbne : b ≠ "")
    (hu : data.get "userId" = .str u) (hune : u ≠ "")
    (ha : (data.get "amount").truthy = true)
    (hp : (data.get "paymentId").truthy = true)
    (h1 : data.get "theatreId" ≠ .undefined) (h2 : data.get "showDate" ≠ .undefined)
    (h3 : data.get "movieTitle" ≠ .undefined) (h4 : data.get "theatreName" ≠ .undefined)
    (hrb : env.readFault "movie_bookings" b = none) (hru : env.readFault "users" u = none)
    (hbk : w.store "movie_bookings" b = some bk)
    (hnp : (bk.get "actualTicketPrice").truthy = false)
    (hwr : env.writeFault "refund_requests" (env.newDocId "refund_requests") = none)
    (hwb : env.writeFault "movie_bookings" b = none)
    (hadmin : env.adminQuery = .ok none) :
    ∃ w1 r rec, (createMovieBookingRefundRequest env data).run w = (.ok r, w1) ∧
      w1.store "refund_requests" (env.newDocId "refund_requests") = some rec ∧
      rec.get "amount" = .num (parseFloat (data.get "amount")) ∧
      rec.get "actualTicketPrice" =
        .num ((parseFloat (data.get "amount")).mul (.fin (88 / 100))) := by
  have hbt : (JsVal.str b).truthy = true := by simp [JsVal.truthy, hbne]
  have hut : (JsVal.str u).truthy = true := by simp [JsVal.truthy, hune]
  have hpu : data.get "paymentId" ≠ .undefined := by
    intro h
    simp [h, JsVal.truthy] at hp
  have hreason : (if data.get "reason" = .undefined then JsVal.str "User requested cancellation"
      else data.get "reason") ≠ .undefined := by
    split
    · simp
    · assumption
  have hseats : (data.get "selectedSeats").or (.arr []) ≠ .undefined :=
    JsVal.or_ne_undefined _ _ (by simp)
  have hprice : (bk.get "actualTicketPrice").or
      (.num ((parseFloat (data.get "amount")).mul (.fin (88 / 100)))) =
      .num ((parseFloat (data.get "amount")).mul (.fin (88 / 100))) := by
    simp [JsVal.or, hnp]
  simp [createMovieBookingRefundRequest, createMovieBookingRefundRequestBody, hb, hu, hbt, hut,
    ha, hp, docGet_run_str, hbne, hune, hrb, hru, hbk, hprice, collAdd_run, Doc.hasUndefined,
    h1, h2, h3, h4, hpu, hreason, hseats, hwr, sendNotificationToAdmin, hadmin, docRef,
    refUpdate_run, hwb, Store.put]
  constructor <;> simp [Doc.get, List.lookup]

/-- C13, the code at the failing input: for the booking `b1`, which has no stored
`actualTicketPrice`, the cancellation call with total amount 112 creates the refund
request `doc_1` with `actualTicketPrice` 98.56, which is 112 times 0.88, and not 100,
which is 112 divided by 1.12. -/
theorem createMovieBookingRefundRequest_fallback_price :
    ∃ w1 r rec, (createMovieBookingRefundRequest okEnv refundRequestInput).run
        bookingWithoutPriceWorld = (.ok r, w1) ∧
      w1.store "refund_requests" "doc_1" = some rec ∧
      rec.get "amount" = .num (.fin 112) ∧
      rec.get "actualTicketPrice" = .num (.fin (2464 / 25)) ∧
      (2464 / 25 : ℚ) = 112 * (88 / 100) ∧
      (2464 / 25 : ℚ) ≠ 112 / (112 / 100) := by
  obtain ⟨w1, r, rec, hrun, hst, ham, hpr⟩ :=
    createMovieBookingRefundRequest_run okEnv refundRequestInput bookingWithoutPriceWorld
      "b1" "u1" [("paymentMethod", .str "Online"), ("status", .str "confirmed"),
        ("totalAmount", .num (.fin 112))]
      (by rfl) (by decide) (by rfl) (by decide) (by decide) (by decide) (by decide) (by decide)
      (by decide) (by decide) (by rfl) (by rfl) (by simp [bookingWithoutPriceWorld, oneDocWorld])
      (by rfl) (by rfl) (by rfl) (by rfl)
  refine ⟨w1, r, rec, hrun, hst, ?_, ?_, by norm_num, by norm_num⟩
  · rw [ham]
    rfl
  · rw [hpr]
    have : parseFloat (refundRequestInput.get "amount") = .fin 112 := by rfl
    rw [this]
    simp only [JsNum.mul]
    norm_num

/-! ## Theorems on the recovery step of a refund -/

/-- The recovery step never throws: it attempts one reverse transfer when the lookup finds
an account, and none otherwise. -/
theorem recoverFromTheatreOwner_run (env : Env) (refundData : Doc) (actualTicketPrice : JsVal)
    (w : World) :
    (recoverFromTheatreOwner env refundData actualTicketPrice).run w =
      match recoveryAccount env w refundData with
      | none => (.ok (false, .null), w)
      | some acc =>
        match env.transfersCreate acc (toPaise actualTicketPrice) with
        | .ok transferId =>
          (.ok (true, transferId), w.logged (.reverseTransfer acc (toPaise actualTicketPrice)))
        | .error _ =>
          (.ok (false, .null), w.logged (.reverseTransfer acc (toPaise actualTicketPrice))) := by
  unfold recoverFromTheatreOwner recoveryAccount
  cases hth : refundData.get "theatreId" with
  | str th =>
    by_cases hthe : th = ""
    · simp [hthe, docGet, docRef]
    · simp only [hthe, if_false, Js.run_tryCatch, Js.run_bind, docGet_run_str _ _ _ _ hthe]
      cases env.readFault "movie_theatres" th with
      | some m => rfl
      | none =>
        cases w.store "movie_theatres" th with
        | none => rfl
        | some theatre =>
          simp only []
          cases ho : theatre.get "ownerId" with
          | str o =>
            by_cases hoe : o = ""
            · simp [hoe, JsVal.truthy]
            · simp only [JsVal.truthy, hoe, ne_eq, not_false_eq_true, decide_True,
                Bool.not_true, Bool.false_eq_true, if_false, Js.run_bind,
                docGet_run_str _ _ _ _ hoe]
              cases env.readFault "users" o with
              | some m => rfl
              | none =>
                cases w.store "users" o with
                | none => rfl
                | some owner =>
                  simp only []
                  cases ha : owner.get "razorpayAccountId" with
                  | str a =>
                    by_cases hae : a = ""
                    · simp [hae, JsVal.truthy, startsWith]
                    · by_cases hpre : startsWith a "acc_" = true
                      · cases hgw : env.transfersCreate (.str a) (toPaise actualTicketPrice) <;>
                          simp [JsVal.truthy, hae, hpre, hgw, World.logged]
                      · simp [JsVal.truthy, hae, hpre]
                  | undefined => rfl
                  | null => rfl
                  | bool v => cases v <;> simp [JsVal.truthy, callStartsWith]
                  | num n =>
                    by_cases hn : n.truthy = true <;> simp [JsVal.truthy, callStartsWith, hn]
                  | arr items => simp [JsVal.truthy, callStartsWith]
                  | serverTimestamp => simp [JsVal.truthy, callStartsWith]
          | undefined => rfl
          | null => rfl
          | bool v => cases v <;> simp [JsVal.truthy, docGet, docRef]
          | num n => by_cases hn : n.truthy = true <;> simp [JsVal.truthy, docGet, docRef, hn]
          | arr items => simp [JsVal.truthy, docGet, docRef]
          | serverTimestamp => simp [JsVal.truthy, docGet, docRef]
  | undefined => simp [docGet, docRef]
  | null => simp [docGet, docRef]
  | bool v => simp [docGet, docRef]
  | num n => simp [docGet, docRef]
  | arr items => simp [docGet, docRef]
  | serverTimestamp => simp [docGet, docRef]

/-- C18, the code at the failing input: for a theatre whose owner has a malformed
`razorpayAccountId` and the connected account `acc_7` under `accountId`, the resolver,
called on the theatre id with no fallback owner id, returns `acc_7`, and the recovery step
of a refund of the same theatre attempts no reverse transfer. -/
theorem recovery_lookup_differs_from_resolver :
    (resolveTheatreOwnerAccountId okEnv (refundOf112.get "theatreId") []).run ownerWorld =
      (.ok (.str "acc_7"), ownerWorld) ∧
    (recoverFromTheatreOwner okEnv refundOf112 (.num (.fin 100))).run ownerWorld =
      (.ok (false, .null), ownerWorld) ∧
    recoveryAccount okEnv ownerWorld refundOf112 = none := by
  have hrec : recoveryAccount okEnv ownerWorld refundOf112 = none := by rfl
  refine ⟨?_, ?_, hrec⟩
  · rw [resolveTheatreOwnerAccountId_run, resolverResult_eq]
    rfl
  · rw [recoverFromTheatreOwner_run, hrec]

/-! ## Theorems on the approval of a refund -/

theorem approveRefundBody_eq (env : Env) (refundRequestId : String) (adminNotes : JsVal)
    (refundData : Doc) :
    approveRefundBody env refundRequestId adminNotes refundData =
      (recoverFromTheatreOwner env refundData (refundTicketPrice refundData) >>= fun r =>
        finishRefund env refundRequestId adminNotes refundData r.1 r.2) := rfl

/-- A notification either throws or returns; it changes the log only, by at most one
event, which is not a gateway call and not a write. -/
theorem sendNotificationToUser_run (env : Env) (userId : JsVal) (title : String) (w : World) :
    ∃ o es, (sendNotificationToUser env userId title).run w =
        (o, { store := w.store, log := w.log ++ es }) ∧
      ∀ e ∈ es, e.isGatewayCall = false ∧ e.isWrite = false := by
  unfold sendNotificationToUser
  simp only [Js.run_tryCatch, Js.run_bind]
  obtain ⟨r, hr⟩ := docGet_run env "users" userId w
  rw [hr]
  rcases r with e | (_ | userData)
  · exact ⟨.error e, [], by simp, by simp⟩
  · exact ⟨.ok (), [], by simp, by simp⟩
  · by_cases ht : (userData.get "fcmToken").truthy = true
    · cases hs : env.messagingSend (userData.get "fcmToken") with
      | none =>
        exact ⟨.ok (), [.notify (userData.get "fcmToken") title], by simp [ht, hs],
          by simp [Event.isGatewayCall, Event.isWrite]⟩
      | some m =>
        exact ⟨.error (.error m), [.notify (userData.get "fcmToken") title], by simp [ht, hs],
          by simp [Event.isGatewayCall, Event.isWrite]⟩
    · exact ⟨.ok (), [], by simp [ht], by simp⟩

theorem refUpdate_outcome (env : Env) (coll id : String) (fields : Doc) (w : World) :
    ∃ o, (refUpdate env coll id fields).run w = (o, w.afterUpdate env coll id fields) :=
  ⟨((refUpdate env coll id fields).run w).1, rfl⟩

/-- The recovery step returns normally; it leaves the store as it is and logs the
gateway calls `recoveryCalls`. -/
theorem recoverFromTheatreOwner_outcome (env : Env) (refundData : Doc) (w : World) :
    ∃ r w1, (recoverFromTheatreOwner env refundData (refundTicketPrice refundData)).run w =
        (.ok r, w1) ∧
      w1.store = w.store ∧ w1.log = w.log ++ recoveryCalls env w refundData := by
  rw [recoverFromTheatreOwner_run]
  unfold recoveryCalls
  cases hacc : recoveryAccount env w refundData with
  | none => exact ⟨(false, .null), w, rfl, rfl, by simp⟩
  | some acc =>
    cases hgw : env.transfersCreate acc (toPaise (refundTicketPrice refundData)) with
    | ok transferId =>
      exact ⟨(true, transferId),
        w.logged (.reverseTransfer acc (toPaise (refundTicketPrice refundData))),
        by simp [hgw], rfl, rfl⟩
    | error m =>
      exact ⟨(false, .null),
        w.logged (.reverseTransfer acc (toPaise (refundTicketPrice refundData))),
        by simp [hgw], rfl, rfl⟩

/-- The steps after the recovery log the refund call first; whatever happens then, every
later event of these steps is a write or a notification. -/
theorem finishRefund_log (env : Env) (refundRequestId : String) (adminNotes : JsVal)
    (refundData : Doc) (theatreOwnerRefunded : Bool) (theatreOwnerRefundId : JsVal)
    (w : World) :
    ∃ o w1 post, (finishRefund env refundRequestId adminNotes refundData theatreOwnerRefunded
        theatreOwnerRefundId).run w = (o, w1) ∧
      w1.log = w.log ++
        .refund (refundData.get "paymentId") (toPaise (refundData.get "amount")) :: post ∧
      ∀ e ∈ post, e.isGatewayCall = false := by
  unfold finishRefund
  simp only [Js.run_bind, Js.run_emit]
  cases hgw : env.paymentRefund (refundData.get "paymentId") (toPaise (refundData.get "amount")) with
  | error m => exact ⟨_, _, [], rfl, by simp, by simp⟩
  | ok pair =>
    obtain ⟨refundId, refundStatus⟩ := pair
    simp only [Js.run_ofExcept_ok]
    obtain ⟨o1, h1⟩ := refUpdate_outcome env "refund_requests" refundRequestId
      (processedFields adminNotes refundData refundId refundStatus theatreOwnerRefunded
        theatreOwnerRefundId)
      { store := w.store,
        log := w.log ++ [.refund (refundData.get "paymentId") (toPaise (refundData.get "amount"))] }
    rw [h1]
    have hl2 := afterUpdate_log env "refund_requests" refundRequestId
      (processedFields adminNotes refundData refundId refundStatus theatreOwnerRefunded
        theatreOwnerRefundId)
      { store := w.store,
        log := w.log ++ [.refund (refundData.get "paymentId") (toPaise (refundData.get "amount"))] }
    generalize World.afterUpdate env "refund_requests" refundRequestId
      (processedFields adminNotes refundData refundId refundStatus theatreOwnerRefunded
        theatreOwnerRefundId)
      { store := w.store,
        log := w.log ++ [.refund (refundData.get "paymentId")
          (toPaise (refundData.get "amount"))] } = w2 at hl2 ⊢
    cases o1 with
    | error e =>
      exact ⟨_, _, [.write "refund_requests" refundRequestId
        (processedFields adminNotes refundData refundId refundStatus theatreOwnerRefunded
          theatreOwnerRefundId)], rfl, by simp [hl2], by simp [Event.isGatewayCall]⟩
    | ok u =>
      simp only []
      rcases docRef_run (refundData.get "bookingId") w2 with ⟨b, _, _, hb⟩ | ⟨_, e, he⟩
      · rw [hb]
        simp only []
        obtain ⟨o2, h2⟩ := refUpdate_outcome env "movie_bookings" b
          (bookingRefundFields refundData refundId theatreOwnerRefunded) w2
        rw [h2]
        have hl3 := afterUpdate_log env "movie_bookings" b
          (bookingRefundFields refundData refundId theatreOwnerRefunded) w2
        generalize World.afterUpdate env "movie_bookings" b
          (bookingRefundFields refundData refundId theatreOwnerRefunded) w2 = w3 at hl3 ⊢
        cases o2 with
        | error e =>
          exact ⟨_, _, [.write "refund_requests" refundRequestId
              (processedFields adminNotes refundData refundId refundStatus theatreOwnerRefunded
                theatreOwnerRefundId),
            .write "movie_bookings" b
              (bookingRefundFields refundData refundId theatreOwnerRefunded)], rfl,
            by simp [hl3, hl2], by simp [Event.isGatewayCall]⟩
        | ok u2 =>
          simp only []
          obtain ⟨o3, es, h3, hes⟩ := sendNotificationToUser_run env (refundData.get "userId")
            "Refund Processed Successfully" w3
          rw [h3]
          have hpost : ∀ e ∈ [Event.write "refund_requests" refundRequestId
              (processedFields adminNotes refundData refundId refundStatus theatreOwnerRefunded
                theatreOwnerRefundId),
            .write "movie_bookings" b
              (bookingRefundFields refundData refundId theatreOwnerRefunded)] ++ es,
              e.isGatewayCall = false := by
            intro e he
            rcases List.mem_append.1 he with h | h
            · simp at h
              rcases h with h | h <;> simp [h, Event.isGatewayCall]
            · exact (hes e h).1
          cases o3 with
          | error e3 =>
            exact ⟨.error e3, { store := w3.store, log := w3.log ++ es }, _, rfl,
              by simp [hl3, hl2], hpost⟩
          | ok u3 =>
            exact ⟨.ok _, { store := w3.store, log := w3.log ++ es }, _, rfl,
              by simp [hl3, hl2], hpost⟩
      · rw [he]
        exact ⟨_, _, [.write "refund_requests" refundRequestId
          (processedFields adminNotes refundData refundId refundStatus theatreOwnerRefunded
            theatreOwnerRefundId)], rfl, by simp [hl2], by simp [Event.isGatewayCall]⟩

/-- The run of `processMovieBookingRefund` on a pending request with action `approve`
and a configured gateway client: the approval body, and on a throw of the body the update
of the request to `failed` followed by an error of code `internal`. -/
theorem processMovieBookingRefund_approve_run (env : Env) (data : Doc) (w : World)
    (rid keyId keySecret : String) (refundData : Doc)
    (hid : data.get "refundRequestId" = .str rid) (hne : rid ≠ "")
    (hact : data.get "action" = .str "approve")
    (hrf : env.readFault "refund_requests" rid = none)
    (hdoc : w.store "refund_requests" rid = some refundData)
    (hst : refundData.get "status" = .str "pending")
    (hkey : env.razorpayKeyId = some keyId) (hkey1 : keyId ≠ "")
    (hsec : env.razorpayKeySecret = some keySecret) (hsec1 : keySecret ≠ "") :
    (processMovieBookingRefund env data).run w =
      match (approveRefundBody env rid (adminNotesOf data) refundData).run w with
      | (.ok r, w1) => (.ok r, w1)
      | (.error e, w1) =>
        match (refUpdate env "refund_requests" rid (failedFields e.message)).run w1 with
        | (.ok _, w2) =>
          (.error (.https "internal" ("Refund processing failed: " ++ e.message)), w2)
        | (.error e2, w2) => (.error (.https "internal" e2.message), w2) := by
  have hrt : (JsVal.str rid).truthy = true := by simp [JsVal.truthy, hne]
  have hat : (JsVal.str "approve").truthy = true := by decide
  simp only [processMovieBookingRefund, processMovieBookingRefundBody, hid, hact, hrt, hat,
    Js.run_tryCatch, Js.run_bind, Js.run_ite, docRef, hne, refGet_run, hrf, hdoc,
    JsVal.strictEq_str, hst, adminNotesOf, failedFields]
  simp [getRazorpayClient_run_ok env keyId keySecret _ hkey hkey1 hsec hsec1, hrf, hdoc, hst,
    JsError.message]
  generalize (approveRefundBody env rid
    (if data.get "adminNotes" = .undefined then JsVal.str "" else data.get "adminNotes")
    refundData).run w = r
  obtain ⟨o, w1⟩ := r
  cases o with
  | ok r => rfl
  | error e =>
    simp only []
    generalize (refUpdate env "refund_requests" rid _).run w1 = r2
    obtain ⟨o2, w2⟩ := r2
    cases o2 <;> rfl

theorem filter_eq_nil_of_all_false (p : Event → Bool) (l : List Event)
    (h : ∀ e ∈ l, p e = false) : l.filter p = [] := by
  induction l with
  | nil => rfl
  | cons a t ih =>
    have ha : p a = false := h a (by simp)
    simp [List.filter, ha, ih (fun e he => h e (by simp [he]))]

theorem recoveryCalls_filter (env : Env) (w : World) (refundData : Doc) :
    (recoveryCalls env w refundData).filter Event.isGatewayCall =
      recoveryCalls env w refundData := by
  unfold recoveryCalls
  cases recoveryAccount env w refundData <;> simp [List.filter, Event.isGatewayCall]

theorem recoveryCalls_no_refund (env : Env) (w : World) (refundData : Doc) :
    (recoveryCalls env w refundData).filter Event.isRefund = [] := by
  unfold recoveryCalls
  cases recoveryAccount env w refundData <;> simp [List.filter, Event.isRefund]

theorem recoveryCalls_length (env : Env) (w : World) (refundData : Doc) :
    (recoveryCalls env w refundData).length ≤ 1 := by
  unfold recoveryCalls
  cases recoveryAccount env w refundData <;> simp

/-- The events of an approval of a pending request with a configured gateway client: the
gateway calls of the recovery step, the refund call, and then writes and notifications. -/
theorem processMovieBookingRefund_approve_events (env : Env) (data : Doc) (w : World)
    (rid keyId keySecret : String) (refundData : Doc)
    (hid : data.get "refundRequestId" = .str rid) (hne : rid ≠ "")
    (hact : data.get "action" = .str "approve")
    (hrf : env.readFault "refund_requests" rid = none)
    (hdoc : w.store "refund_requests" rid = some refundData)
    (hst : refundData.get "status" = .str "pending")
    (hkey : env.razorpayKeyId = some keyId) (hkey1 : keyId ≠ "")
    (hsec : env.razorpayKeySecret = some keySecret) (hsec1 : keySecret ≠ "") :
    ∃ o w1 post, (processMovieBookingRefund env data).run w = (o, w1) ∧
      newEvents w w1 = recoveryCalls env w refundData ++
        .refund (refundData.get "paymentId") (toPaise (refundData.get "amount")) :: post ∧
      ∀ e ∈ post, e.isGatewayCall = false := by
  rw [processMovieBookingRefund_approve_run env data w rid keyId keySecret refundData hid hne
    hact hrf hdoc hst hkey hkey1 hsec hsec1, approveRefundBody_eq, Js.run_bind]
  obtain ⟨r, wr, hr, _, hlr⟩ := recoverFromTheatreOwner_outcome env refundData w
  rw [hr]
  simp only []
  obtain ⟨o, wf, post, hf, hlf, hpost⟩ := finishRefund_log env rid (adminNotesOf data) refundData
    r.1 r.2 wr
  rw [hf]
  cases o with
  | ok res =>
    refine ⟨_, _, post, rfl, ?_, hpost⟩
    apply newEvents_of_log
    rw [hlf, hlr, List.append_assoc]
  | error e =>
    simp only []
    obtain ⟨o2, h2⟩ := refUpdate_outcome env "refund_requests" rid (failedFields e.message) wf
    rw [h2]
    have hl2 := afterUpdate_log env "refund_requests" rid (failedFields e.message) wf
    have hev : newEvents w (wf.afterUpdate env "refund_requests" rid (failedFields e.message)) =
        recoveryCalls env w refundData ++
          .refund (refundData.get "paymentId") (toPaise (refundData.get "amount")) ::
            (post ++ [.write "refund_requests" rid (failedFields e.message)]) := by
      apply newEvents_of_log
      rw [hl2, hlf, hlr]
      simp
    have hpost2 : ∀ ev ∈ post ++ [Event.write "refund_requests" rid (failedFields e.message)],
        ev.isGatewayCall = false := by
      intro ev hev
      rcases List.mem_append.1 hev with h | h
      · exact hpost ev h
      · simp at h
        simp [h, Event.isGatewayCall]
    cases o2 with
    | ok u => exact ⟨_, _, _, rfl, hev, hpost2⟩
    | error e2 => exact ⟨_, _, _, rfl, hev, hpost2⟩

/-- C11: for every pending refund request with amount `a` that is approved with a
configured gateway client, whatever the recovery step does (no account, a reverse transfer
that succeeds, a reverse transfer or a read that fails) and whatever happens after the
refund call, the run calls the refund operation of the gateway exactly once, on the
payment id of the request, with the full amount `Math.round(a * 100)`.  The amount is the
one the source computes on doubles: for an amount of `k` paise (`a = k / 100`, up to
`10 ^ 15` paise) it is exactly `k`, and for every amount up to `10 ^ 13` it is an integer
within one half of `a * 100`, up to the rounding of the product to a double. -/
theorem processMovieBookingRefund_refund_once (env : Env) (data : Doc) (w : World)
    (rid keyId keySecret : String) (refundData : Doc) (a : ℚ)
    (hid : data.get "refundRequestId" = .str rid) (hne : rid ≠ "")
    (hact : data.get "action" = .str "approve")
    (hrf : env.readFault "refund_requests" rid = none)
    (hdoc : w.store "refund_requests" rid = some refundData)
    (hst : refundData.get "status" = .str "pending")
    (hamt : refundData.get "amount" = .num (.fin a))
    (hkey : env.razorpayKeyId = some keyId) (hkey1 : keyId ≠ "")
    (hsec : env.razorpayKeySecret = some keySecret) (hsec1 : keySecret ≠ "") :
    ∃ o w1, (processMovieBookingRefund env data).run w = (o, w1) ∧
      (newEvents w w1).filter Event.isRefund =
        [.refund (refundData.get "paymentId") (toPaise (.num (.fin a)))] ∧
      (∀ k : ℤ, |k| ≤ 10 ^ 15 → a = (k : ℚ) / 100 → toPaise (.num (.fin a)) = .fin k) ∧
      (|a| ≤ 10 ^ 13 → ∃ k : ℤ, toPaise (.num (.fin a)) = .fin k ∧
        |(k : ℚ) - a * 100| ≤ 1 / 2 + (|a * 100| + 1) / 2 ^ 51) := by
  obtain ⟨o, w1, post, hrun, hev, hpost⟩ :=
    processMovieBookingRefund_approve_events env data w rid keyId keySecret refundData hid hne
      hact hrf hdoc hst hkey hkey1 hsec hsec1
  refine ⟨o, w1, hrun, ?_, ?_, toPaise_near a⟩
  swap
  · intro k hk hak
    rw [hak]
    exact toPaise_cents k hk
  have hp : post.filter Event.isRefund = [] := by
    apply filter_eq_nil_of_all_false
    intro e he
    have hg := hpost e he
    cases e <;> simp_all [Event.isGatewayCall, Event.isRefund]
  rw [hev, List.filter_append, recoveryCalls_no_refund, hamt]
  simp [List.filter, Event.isRefund, hp]

theorem toPaise_112 : toPaise (.num (.fin 112)) = .fin 11200 := by
  have h := toPaise_cents 11200 (by norm_num)
  norm_num at h
  exact h

/-- Witness of C11: approving the pending request `r1` of 112 calls the refund operation
once, on `pay_Y`, with 11200 paise. -/
theorem processMovieBookingRefund_refund_once_witness :
    ∃ o w1, (processMovieBookingRefund okEnv approveRequest).run pendingRefundWorld = (o, w1) ∧
      (newEvents pendingRefundWorld w1).filter Event.isRefund =
        [.refund (.str "pay_Y") (.fin 11200)] := by
  obtain ⟨o, w1, hrun, hev, _⟩ :=
    processMovieBookingRefund_refund_once okEnv approveRequest pendingRefundWorld "r1" "rzp_key"
      "rzp_secret" refundOf112 112 (by rfl) (by decide) (by rfl) (by rfl)
      (by simp [pendingRefundWorld, oneDocWorld]) (by rfl) (by rfl) (by rfl) (by decide)
      (by rfl) (by decide)
  refine ⟨o, w1, hrun, ?_⟩
  rw [hev, toPaise_112]
  rfl

theorem finishRefund_refund_error (env : Env) (refundRequestId : String) (adminNotes : JsVal)
    (refundData : Doc) (theatreOwnerRefunded : Bool) (theatreOwnerRefundId : JsVal)
    (w : World) (m : String)
    (hgw : env.paymentRefund (refundData.get "paymentId") (toPaise (refundData.get "amount")) =
      .error m) :
    (finishRefund env refundRequestId adminNotes refundData theatreOwnerRefunded
        theatreOwnerRefundId).run w =
      (.error (.error m),
        w.logged (.refund (refundData.get "paymentId") (toPaise (refundData.get "amount")))) := by
  simp [finishRefund, hgw, World.logged]

/-- C14: for a pending refund request that is approved with a configured gateway client,
when the gateway rejects the refund with message `m` the caller receives an error of code
`internal`; after the calls of the recovery step and the refund call the run makes one
more call, the update of the request with status `failed` and admin notes `Razorpay
refund failed: m`, so the booking is not written; when the store accepts that update the
request carries these two fields and the error message is `Refund processing failed: m`. -/
theorem processMovieBookingRefund_refund_failure (env : Env) (data : Doc) (w : World)
    (rid keyId keySecret m : String) (refundData : Doc)
    (hid : data.get "refundRequestId" = .str rid) (hne : rid ≠ "")
    (hact : data.get "action" = .str "approve")
    (hrf : env.readFault "refund_requests" rid = none)
    (hdoc : w.store "refund_requests" rid = some refundData)
    (hst : refundData.get "status" = .str "pending")
    (hkey : env.razorpayKeyId = some keyId) (hkey1 : keyId ≠ "")
    (hsec : env.razorpayKeySecret = some keySecret) (hsec1 : keySecret ≠ "")
    (hgw : env.paymentRefund (refundData.get "paymentId") (toPaise (refundData.get "amount")) =
      .error m) :
    ∃ msg w1, (processMovieBookingRefund env data).run w = (.error (.https "internal" msg), w1) ∧
      newEvents w w1 = recoveryCalls env w refundData ++
        [.refund (refundData.get "paymentId") (toPaise (refundData.get "amount")),
         .write "refund_requests" rid
           [("status", .str "failed"),
            ("adminNotes", .str ("Razorpay refund failed: " ++ m)),
            ("processedAt", .serverTimestamp)]] ∧
      (newEvents w w1).filter (Event.isWriteTo "movie_bookings") = [] ∧
      (env.writeFault "refund_requests" rid = none →
        msg = "Refund processing failed: " ++ m ∧
        ∃ d1, w1.store "refund_requests" rid = some d1 ∧
          d1.get "status" = .str "failed" ∧
          d1.get "adminNotes" = .str ("Razorpay refund failed: " ++ m)) := by
  rw [processMovieBookingRefund_approve_run env data w rid keyId keySecret refundData hid hne
    hact hrf hdoc hst hkey hkey1 hsec hsec1, approveRefundBody_eq, Js.run_bind]
  obtain ⟨r, wr, hr, hstore, hlr⟩ := recoverFromTheatreOwner_outcome env refundData w
  rw [hr]
  simp only []
  rw [finishRefund_refund_error env rid (adminNotesOf data) refundData r.1 r.2 wr m hgw]
  simp only [JsError.message]
  obtain ⟨o2, h2⟩ := refUpdate_outcome env "refund_requests" rid (failedFields m)
    (wr.logged (.refund (refundData.get "paymentId") (toPaise (refundData.get "amount"))))
  have hl2 := afterUpdate_log env "refund_requests" rid (failedFields m)
    (wr.logged (.refund (refundData.get "paymentId") (toPaise (refundData.get "amount"))))
  have hev : newEvents w ((wr.logged (.refund (refundData.get "paymentId")
      (toPaise (refundData.get "amount")))).afterUpdate env "refund_requests" rid
      (failedFields m)) = recoveryCalls env w refundData ++
        [.refund (refundData.get "paymentId") (toPaise (refundData.get "amount")),
         .write "refund_requests" rid (failedFields m)] := by
    apply newEvents_of_log
    rw [hl2]
    simp [World.logged, hlr]
  have hnb : (recoveryCalls env w refundData ++
        [Event.refund (refundData.get "paymentId") (toPaise (refundData.get "amount")),
         Event.write "refund_requests" rid (failedFields m)]).filter
        (Event.isWriteTo "movie_bookings") = [] := by
    unfold recoveryCalls
    cases recoveryAccount env w refundData <;> simp [List.filter, Event.isWriteTo]
  have hwd : (wr.logged (.refund (refundData.get "paymentId")
      (toPaise (refundData.get "amount")))).store "refund_requests" rid = some refundData := by
    show wr.store "refund_requests" rid = some refundData
    rw [hstore, hdoc]
  cases hwf : env.writeFault "refund_requests" rid with
  | some f =>
    rw [h2]
    cases o2 with
    | ok u => exact ⟨_, _, rfl, hev, by rw [hev]; exact hnb, fun h => by cases h⟩
    | error e2 => exact ⟨_, _, rfl, hev, by rw [hev]; exact hnb, fun h => by cases h⟩
  | none =>
    have hrun2 : (refUpdate env "refund_requests" rid (failedFields m)).run
        (wr.logged (.refund (refundData.get "paymentId") (toPaise (refundData.get "amount")))) =
        (.ok (), (wr.logged (.refund (refundData.get "paymentId")
          (toPaise (refundData.get "amount")))).afterUpdate env "refund_requests" rid
          (failedFields m)) := by
      rw [World.afterUpdate, refUpdate_run]
      simp [failedFields, Doc.hasUndefined, hwf, hwd]
    rw [hrun2]
    refine ⟨_, _, rfl, hev, by rw [hev]; exact hnb, fun _ => ⟨rfl, _,
      afterUpdate_store_same env "refund_requests" rid (failedFields m) _ refundData hwd hwf
        (by simp [failedFields, Doc.hasUndefined]), ?_, ?_⟩⟩
    · simp [failedFields, Doc.merge, Doc.get, List.lookup]
    · simp [failedFields, Doc.merge, Doc.get, List.lookup]

/-- Witness of C14: approving the pending request `r1` with a gateway that rejects the
refund gives an error of code `internal`, one refund call and the request in status
`failed`. -/
theorem processMovieBookingRefund_refund_failure_witness :
    ∃ msg w1 d1, (processMovieBookingRefund refundRejectingEnv approveRequest).run
        pendingRefundWithBookingWorld = (.error (.https "internal" msg), w1) ∧
      msg = "Refund processing failed: The payment has been fully refunded already" ∧
      (newEvents pendingRefundWithBookingWorld w1).filter (Event.isWriteTo "movie_bookings") = [] ∧
      w1.store "refund_requests" "r1" = some d1 ∧
      d1.get "status" = .str "failed" ∧
      d1.get "adminNotes" =
        .str "Razorpay refund failed: The payment has been fully refunded already" := by
  obtain ⟨msg, w1, hrun, _, hnb, hdoc⟩ :=
    processMovieBookingRefund_refund_failure refundRejectingEnv approveRequest
      pendingRefundWithBookingWorld "r1" "rzp_key" "rzp_secret"
      "The payment has been fully refunded already" refundOf112 (by rfl) (by decide) (by rfl)
      (by rfl) (by simp [pendingRefundWithBookingWorld]) (by rfl) (by rfl) (by decide) (by rfl)
      (by decide) (by rfl)
  obtain ⟨hmsg, d1, hst, h1, h2⟩ := hdoc (by rfl)
  exact ⟨msg, w1, d1, hrun, hmsg, hnb, hst, h1, h2⟩

theorem refUpdate_run_ok (env : Env) (coll id : String) (fields : Doc) (w : World) (d : Doc)
    (hd : w.store coll id = some d) (hf : env.writeFault coll id = none)
    (hu : fields.hasUndefined = false) :
    (refUpdate env coll id fields).run w = (.ok (), w.afterUpdate env coll id fields) := by
  rw [World.afterUpdate, refUpdate_run]
  simp [hd, hf, hu]

theorem refUpdate_run_not_found (env : Env) (coll id : String) (fields : Doc) (w : World)
    (hd : w.store coll id = none) (hf : env.writeFault coll id = none)
    (hu : fields.hasUndefined = false) :
    (refUpdate env coll id fields).run w =
      (.error (.error "NOT_FOUND: No document to update"), w.afterUpdate env coll id fields) := by
  rw [World.afterUpdate, refUpdate_run]
  simp [hd, hf, hu]

/-- A notification to a user that can be read, with a messaging service that accepts
every message, returns normally and changes the log only. -/
theorem sendNotificationToUser_ok (env : Env) (u title : String) (w : World)
    (hu : u ≠ "") (hrf : env.readFault "users" u = none)
    (hsend : ∀ token, env.messagingSend token = none) :
    ∃ es, (sendNotificationToUser env (.str u) title).run w =
        (.ok (), { store := w.store, log := w.log ++ es }) ∧
      ∀ e ∈ es, e.isGatewayCall = false ∧ e.isWrite = false := by
  unfold sendNotificationToUser
  simp only [Js.run_tryCatch, Js.run_bind, docGet_run_str env "users" u w hu, hrf]
  cases w.store "users" u with
  | none => exact ⟨[], by simp, by simp⟩
  | some userData =>
    by_cases ht : (userData.get "fcmToken").truthy = true
    · exact ⟨[.notify (userData.get "fcmToken") title], by simp [ht, hsend],
        by simp [Event.isGatewayCall, Event.isWrite]⟩
    · exact ⟨[], by simp [ht], by simp⟩

/-- The recovery step when it does not recover: no account is found, or the reverse
transfer is rejected. -/
theorem recoverFromTheatreOwner_failed (env : Env) (refundData : Doc) (w : World)
    (hrec : recoveryAccount env w refundData = none ∨
      ∃ acc m, recoveryAccount env w refundData = some acc ∧
        env.transfersCreate acc (toPaise (refundTicketPrice refundData)) = .error m) :
    ∃ wr, (recoverFromTheatreOwner env refundData (refundTicketPrice refundData)).run w =
        (.ok (false, .null), wr) ∧
      wr.store = w.store ∧ wr.log = w.log ++ recoveryCalls env w refundData := by
  rw [recoverFromTheatreOwner_run]
  unfold recoveryCalls
  rcases hrec with h | ⟨acc, m, h, hgw⟩
  · exact ⟨w, by simp [h], rfl, by simp [h]⟩
  · exact ⟨w.logged (.reverseTransfer acc (toPaise (refundTicketPrice refundData))),
      by simp [h, hgw], rfl, by simp [h, World.logged]⟩

theorem adminNotesOf_ne_undefined (data : Doc) : adminNotesOf data ≠ .undefined := by
  unfold adminNotesOf
  split
  · simp
  · assumption

theorem refundTicketPrice_ne_undefined (refundData : Doc) :
    refundTicketPrice refundData ≠ .undefined :=
  JsVal.or_ne_undefined _ _ (by simp)

theorem processedFields_hasUndefined (adminNotes : JsVal) (refundData : Doc)
    (refundId refundStatus : JsVal)
    (hn : adminNotes ≠ .undefined) (ha : refundData.get "amount" ≠ .undefined)
    (hri : refundId ≠ .undefined) (hrs : refundStatus ≠ .undefined) :
    (processedFields adminNotes refundData refundId refundStatus false .null).hasUndefined =
      false := by
  simp [processedFields, Doc.hasUndefined, hn, ha, hri, hrs, refundTicketPrice_ne_undefined,
    refundPlatformAmount]

theorem bookingRefundFields_hasUndefined (refundData : Doc) (refundId : JsVal)
    (ha : refundData.get "amount" ≠ .undefined) (hri : refundId ≠ .undefined) :
    (bookingRefundFields refundData refundId false).hasUndefined = false := by
  simp [bookingRefundFields, Doc.hasUndefined, ha, hri, refundTicketPrice_ne_undefined,
    refundPlatformAmount]

/-- The steps after a recovery that did not recover, when the gateway accepts the refund,
the store accepts both updates and the notification is accepted: the result is returned
and the refund request holds the fields of a processed refund. -/
theorem finishRefund_success (env : Env) (rid : String) (adminNotes : JsVal)
    (refundData : Doc) (w : World) (refundId refundStatus : JsVal) (b u : String) (bk : Doc)
    (hn : adminNotes ≠ .undefined) (ha : refundData.get "amount" ≠ .undefined)
    (hgw : env.paymentRefund (refundData.get "paymentId") (toPaise (refundData.get "amount")) =
      .ok (refundId, refundStatus))
    (hri : refundId ≠ .undefined) (hrs : refundStatus ≠ .undefined)
    (hdoc : w.store "refund_requests" rid = some refundData)
    (hwf : env.writeFault "refund_requests" rid = none)
    (hb : refundData.get "bookingId" = .str b) (hbne : b ≠ "")
    (hbk : w.store "movie_bookings" b = some bk)
    (hwb : env.writeFault "movie_bookings" b = none)
    (hu : refundData.get "userId" = .str u) (hune : u ≠ "")
    (hru : env.readFault "users" u = none)
    (hsend : ∀ token, env.messagingSend token = none) :
    ∃ res w1, (finishRefund env rid adminNotes refundData false .null).run w = (.ok res, w1) ∧
      w1.store "refund_requests" rid =
        some (refundData.merge
          (processedFields adminNotes refundData refundId refundStatus false .null)) := by
  have h1 := refUpdate_run_ok env "refund_requests" rid
    (processedFields adminNotes refundData refundId refundStatus false .null)
    (w.logged (.refund (refundData.get "paymentId") (toPaise (refundData.get "amount"))))
    refundData hdoc hwf (processedFields_hasUndefined adminNotes refundData refundId refundStatus
      hn ha hri hrs)
  have hs1 := afterUpdate_store_same env "refund_requests" rid
    (processedFields adminNotes refundData refundId refundStatus false .null)
    (w.logged (.refund (refundData.get "paymentId") (toPaise (refundData.get "amount"))))
    refundData hdoc hwf (processedFields_hasUndefined adminNotes refundData refundId refundStatus
      hn ha hri hrs)
  have hs1b := afterUpdate_store_other env "refund_requests" rid
    (processedFields adminNotes refundData refundId refundStatus false .null)
    (w.logged (.refund (refundData.get "paymentId") (toPaise (refundData.get "amount"))))
    "movie_bookings" b (by simp)
  generalize World.afterUpdate env "refund_requests" rid
    (processedFields adminNotes refundData refundId refundStatus false .null)
    (w.logged (.refund (refundData.get "paymentId") (toPaise (refundData.get "amount")))) = w2
    at h1 hs1 hs1b
  have hbk2 : w2.store "movie_bookings" b = some bk := by
    rw [hs1b]
    exact hbk
  have h2 := refUpdate_run_ok env "movie_bookings" b
    (bookingRefundFields refundData refundId false) w2 bk hbk2 hwb
    (bookingRefundFields_hasUndefined refundData refundId ha hri)
  have hs2 := afterUpdate_store_other env "movie_bookings" b
    (bookingRefundFields refundData refundId false) w2 "refund_requests" rid (by simp)
  generalize World.afterUpdate env "movie_bookings" b
    (bookingRefundFields refundData refundId false) w2 = w3 at h2 hs2
  obtain ⟨es, h3, _⟩ := sendNotificationToUser_ok env u "Refund Processed Successfully" w3 hune
    hru hsend
  refine ⟨.processed refundId "Refund processed successfully"
      { totalAmount := refundData.get "amount",
        actualTicketPrice := refundTicketPrice refundData,
        platformAmount := refundPlatformAmount refundData,
        theatreOwnerRecovered := .bool false },
    { store := w3.store, log := w3.log ++ es }, ?_, ?_⟩
  · unfold finishRefund
    simp only [Js.run_bind, Js.run_emit, hgw, Js.run_ofExcept_ok]
    have h1' : (refUpdate env "refund_requests" rid
        (processedFields adminNotes refundData refundId refundStatus false .null)).run
        { store := w.store,
          log := w.log ++ [.refund (refundData.get "paymentId")
            (toPaise (refundData.get "amount"))] } = (.ok (), w2) := h1
    rw [h1']
    simp only [hb, docRef, hbne, if_false, Js.run_pure, h2, hu, h3]
  · show w3.store "refund_requests" rid = _
    rw [hs2, hs1]

/-- The fields of a processed refund, read back from the refund request. -/
theorem merge_processedFields_get (d : Doc) (adminNotes : JsVal) (refundData : Doc)
    (refundId refundStatus : JsVal) (recovered : Bool) (transferId : JsVal) :
    (d.merge (processedFields adminNotes refundData refundId refundStatus recovered
        transferId)).get "status" = .str "processed" ∧
    (d.merge (processedFields adminNotes refundData refundId refundStatus recovered
        transferId)).get "refundBreakdown.totalAmount" = refundData.get "amount" ∧
    (d.merge (processedFields adminNotes refundData refundId refundStatus recovered
        transferId)).get "refundBreakdown.actualTicketPrice" = refundTicketPrice refundData ∧
    (d.merge (processedFields adminNotes refundData refundId refundStatus recovered
        transferId)).get "refundBreakdown.platformAmount" = refundPlatformAmount refundData ∧
    (d.merge (processedFields adminNotes refundData refundId refundStatus recovered
        transferId)).get "refundBreakdown.theatreOwnerRecovered" = .bool recovered ∧
    (d.merge (processedFields adminNotes refundData refundId refundStatus recovered
        transferId)).get "refundBreakdown.theatreOwnerRefundId" = transferId := by
  simp only [processedFields]
  generalize refundData.get "amount" = x
  generalize refundTicketPrice refundData = y
  generalize refundPlatformAmount refundData = z
  simp [Doc.merge, Doc.get, List.lookup]

/-- The approval when every step after the refund succeeds: for a pending refund request of
amount `a` that is approved with a configured gateway client, when the recovery does not
recover (the lookup finds no account, or the reverse transfer is rejected), the gateway
accepts the refund, the store accepts the updates of the request and of the booking and
the notification is accepted, the call returns and the request holds status `processed`
and a breakdown with the total amount, the ticket price, the platform amount total minus
ticket price, `theatreOwnerRecovered` false and a `null` recovery transfer id; the run
attempts at most one reverse transfer. -/
theorem processMovieBookingRefund_recovery_failed (env : Env) (data : Doc) (w : World)
    (rid keyId keySecret b u : String) (refundData bk : Doc) (a : ℚ)
    (refundId refundStatus : JsVal)
    (hid : data.get "refundRequestId" = .str rid) (hne : rid ≠ "")
    (hact : data.get "action" = .str "approve")
    (hrf : env.readFault "refund_requests" rid = none)
    (hdoc : w.store "refund_requests" rid = some refundData)
    (hst : refundData.get "status" = .str "pending")
    (hamt : refundData.get "amount" = .num (.fin a))
    (hkey : env.razorpayKeyId = some keyId) (hkey1 : keyId ≠ "")
    (hsec : env.razorpayKeySecret = some keySecret) (hsec1 : keySecret ≠ "")
    (hrec : recoveryAccount env w refundData = none ∨
      ∃ acc m, recoveryAccount env w refundData = some acc ∧
        env.transfersCreate acc (toPaise (refundTicketPrice refundData)) = .error m)
    (hgw : env.paymentRefund (refundData.get "paymentId") (toPaise (refundData.get "amount")) =
      .ok (refundId, refundStatus))
    (hri : refundId ≠ .undefined) (hrs : refundStatus ≠ .undefined)
    (hwf : env.writeFault "refund_requests" rid = none)
    (hb : refundData.get "bookingId" = .str b) (hbne : b ≠ "")
    (hbk : w.store "movie_bookings" b = some bk)
    (hwb : env.writeFault "movie_bookings" b = none)
    (hu : refundData.get "userId" = .str u) (hune : u ≠ "")
    (hru : env.readFault "users" u = none)
    (hsend : ∀ token, env.messagingSend token = none) :
    ∃ res w1 d1, (processMovieBookingRefund env data).run w = (.ok res, w1) ∧
      w1.store "refund_requests" rid = some d1 ∧
      d1.get "status" = .str "processed" ∧
      d1.get "refundBreakdown.totalAmount" = .num (.fin a) ∧
      d1.get "refundBreakdown.actualTicketPrice" = refundTicketPrice refundData ∧
      d1.get "refundBreakdown.platformAmount" =
        .num ((JsNum.fin a).sub (toNumber (refundTicketPrice refundData))) ∧
      d1.get "refundBreakdown.theatreOwnerRecovered" = .bool false ∧
      d1.get "refundBreakdown.theatreOwnerRefundId" = .null ∧
      ((newEvents w w1).filter Event.isReverseTransfer).length ≤ 1 := by
  obtain ⟨wr, hr, hstore, _⟩ := recoverFromTheatreOwner_failed env refundData w hrec
  have ha : refundData.get "amount" ≠ .undefined := by simp [hamt]
  obtain ⟨res, w1, hfin, hd1⟩ := finishRefund_success env rid (adminNotesOf data) refundData wr
    refundId refundStatus b u bk (adminNotesOf_ne_undefined data) ha hgw hri hrs
    (by rw [hstore]; exact hdoc) hwf hb hbne (by rw [hstore]; exact hbk) hwb hu hune hru hsend
  have hrun : (processMovieBookingRefund env data).run w = (.ok res, w1) := by
    rw [processMovieBookingRefund_approve_run env data w rid keyId keySecret refundData hid hne
      hact hrf hdoc hst hkey hkey1 hsec hsec1, approveRefundBody_eq, Js.run_bind, hr]
    simp only [hfin]
  obtain ⟨g1, g2, g3, g4, g5, g6⟩ := merge_processedFields_get refundData (adminNotesOf data)
    refundData refundId refundStatus false .null
  refine ⟨res, w1, _, hrun, hd1, g1, ?_, g3, ?_, g5, g6, ?_⟩
  · rw [g2, hamt]
  · rw [g4]
    simp [refundPlatformAmount, hamt, toNumber]
  · obtain ⟨o, w1', post, hrun', hev, hpost⟩ :=
      processMovieBookingRefund_approve_events env data w rid keyId keySecret refundData hid hne
        hact hrf hdoc hst hkey hkey1 hsec hsec1
    rw [hrun] at hrun'
    have hw : w1 = w1' := by
      injection hrun' with _ h
    rw [hw, hev, List.filter_append]
    have hp : (Event.refund (refundData.get "paymentId") (toPaise (refundData.get "amount")) ::
        post).filter Event.isReverseTransfer = [] := by
      apply filter_eq_nil_of_all_false
      intro e he
      rcases List.mem_cons.1 he with h | h
      · rw [h]
        rfl
      · have hg := hpost e h
        cases e <;> simp_all [Event.isGatewayCall, Event.isReverseTransfer]
    rw [hp, List.append_nil]
    exact le_trans (List.length_filter_le _ _) (recoveryCalls_length env w refundData)

/-- An example of the approval when every step succeeds: approving the pending request
`r1` with amount 112 and ticket price 100, for which the lookup finds no owner account,
returns and leaves the request `processed` with platform amount 12,
`theatreOwnerRecovered` false and no reverse transfer. -/
theorem processMovieBookingRefund_recovery_failed_witness :
    ∃ res w1 d1, (processMovieBookingRefund okEnv approveRequest).run
        pendingRefundWithBookingWorld = (.ok res, w1) ∧
      w1.store "refund_requests" "r1" = some d1 ∧
      d1.get "status" = .str "processed" ∧
      d1.get "refundBreakdown.totalAmount" = .num (.fin 112) ∧
      d1.get "refundBreakdown.actualTicketPrice" = .num (.fin 100) ∧
      d1.get "refundBreakdown.platformAmount" = .num (.fin 12) ∧
      d1.get "refundBreakdown.theatreOwnerRecovered" = .bool false ∧
      d1.get "refundBreakdown.theatreOwnerRefundId" = .null ∧
      ((newEvents pendingRefundWithBookingWorld w1).filter Event.isReverseTransfer).length ≤ 1 := by
  obtain ⟨res, w1, d1, hrun, hst, h1, h2, h3, h4, h5, h6, h7⟩ :=
    processMovieBookingRefund_recovery_failed okEnv approveRequest pendingRefundWithBookingWorld
      "r1" "rzp_key" "rzp_secret" "b1" "u1" refundOf112
      [("paymentMethod", .str "Online"), ("status", .str "cancelled"),
        ("totalAmount", .num (.fin 112)), ("actualTicketPrice", .num (.fin 100))]
      112 (.str "rfnd_1") (.str "processed")
      (by rfl) (by decide) (by rfl) (by rfl) (by simp [pendingRefundWithBookingWorld]) (by rfl)
      (by rfl) (by rfl) (by decide) (by rfl) (by decide) (Or.inl (by rfl)) (by rfl)
      (by simp) (by simp) (by rfl) (by rfl) (by decide)
      (by simp [pendingRefundWithBookingWorld]) (by rfl) (by rfl) (by decide) (by rfl)
      (fun _ => rfl)
  have htp : refundTicketPrice refundOf112 = .num (.fin 100) := by
    simp [refundTicketPrice, refundOf112, Doc.get, List.lookup, JsVal.or, JsVal.truthy,
      JsNum.truthy]
  refine ⟨res, w1, d1, hrun, hst, h1, h2, ?_, ?_, h5, h6, h7⟩
  · rw [h3, htp]
  · rw [h4, htp]
    simp only [toNumber, JsNum.sub]
    norm_num

/-- The run of an approval whose refund the gateway accepts and whose booking document does
not exist: the request is updated to `processed`, the update of the booking fails, and the
`catch` of the approval updates the request again, to `failed`. -/
theorem processMovieBookingRefund_booking_missing (env : Env) (data : Doc) (w : World)
    (rid keyId keySecret b : String) (refundData : Doc) (refundId refundStatus : JsVal)
    (hid : data.get "refundRequestId" = .str rid) (hne : rid ≠ "")
    (hact : data.get "action" = .str "approve")
    (hrf : env.readFault "refund_requests" rid = none)
    (hdoc : w.store "refund_requests" rid = some refundData)
    (hst : refundData.get "status" = .str "pending")
    (ha : refundData.get "amount" ≠ .undefined)
    (hkey : env.razorpayKeyId = some keyId) (hkey1 : keyId ≠ "")
    (hsec : env.razorpayKeySecret = some keySecret) (hsec1 : keySecret ≠ "")
    (hrec : recoveryAccount env w refundData = none ∨
      ∃ acc m, recoveryAccount env w refundData = some acc ∧
        env.transfersCreate acc (toPaise (refundTicketPrice refundData)) = .error m)
    (hgw : env.paymentRefund (refundData.get "paymentId") (toPaise (refundData.get "amount")) =
      .ok (refundId, refundStatus))
    (hri : refundId ≠ .undefined) (hrs : refundStatus ≠ .undefined)
    (hwf : env.writeFault "refund_requests" rid = none)
    (hb : refundData.get "bookingId" = .str b) (hbne : b ≠ "")
    (hbk : w.store "movie_bookings" b = none)
    (hwb : env.writeFault "movie_bookings" b = none) :
    ∃ w1, (processMovieBookingRefund env data).run w =
        (.error (.https "internal"
          "Refund processing failed: NOT_FOUND: No document to update"), w1) ∧
      newEvents w w1 = recoveryCalls env w refundData ++
        [.refund (refundData.get "paymentId") (toPaise (refundData.get "amount")),
         .write "refund_requests" rid
           (processedFields (adminNotesOf data) refundData refundId refundStatus false .null),
         .write "movie_bookings" b (bookingRefundFields refundData refundId false),
         .write "refund_requests" rid (failedFields "NOT_FOUND: No document to update")] ∧
      w1.store "refund_requests" rid =
        some ((refundData.merge (processedFields (adminNotesOf data) refundData refundId
          refundStatus false .null)).merge
            (failedFields "NOT_FOUND: No document to update")) := by
  obtain ⟨wr, hr, hstore, hlr⟩ := recoverFromTheatreOwner_failed env refundData w hrec
  have hpu := processedFields_hasUndefined (adminNotesOf data) refundData refundId refundStatus
    (adminNotesOf_ne_undefined data) ha hri hrs
  have hdr : (wr.logged (.refund (refundData.get "paymentId")
      (toPaise (refundData.get "amount")))).store "refund_requests" rid = some refundData := by
    show wr.store "refund_requests" rid = some refundData
    rw [hstore, hdoc]
  have h1 := refUpdate_run_ok env "refund_requests" rid
    (processedFields (adminNotesOf data) refundData refundId refundStatus false .null)
    (wr.logged (.refund (refundData.get "paymentId") (toPaise (refundData.get "amount"))))
    refundData hdr hwf hpu
  have hs1 := afterUpdate_store_same env "refund_requests" rid
    (processedFields (adminNotesOf data) refundData refundId refundStatus false .null)
    (wr.logged (.refund (refundData.get "paymentId") (toPaise (refundData.get "amount"))))
    refundData hdr hwf hpu
  have hs1b := afterUpdate_store_other env "refund_requests" rid
    (processedFields (adminNotesOf data) refundData refundId refundStatus false .null)
    (wr.logged (.refund (refundData.get "paymentId") (toPaise (refundData.get "amount"))))
    "movie_bookings" b (by simp)
  have hl1 := afterUpdate_log env "refund_requests" rid
    (processedFields (adminNotesOf data) refundData refundId refundStatus false .null)
    (wr.logged (.refund (refundData.get "paymentId") (toPaise (refundData.get "amount"))))
  generalize World.afterUpdate env "refund_requests" rid
    (processedFields (adminNotesOf data) refundData refundId refundStatus false .null)
    (wr.logged (.refund (refundData.get "paymentId") (toPaise (refundData.get "amount")))) = w2
    at h1 hs1 hs1b hl1
  have hbk2 : w2.store "movie_bookings" b = none := by
    rw [hs1b]
    show wr.store "movie_bookings" b = none
    rw [hstore, hbk]
  have h2 := refUpdate_run_not_found env "movie_bookings" b
    (bookingRefundFields refundData refundId false) w2 hbk2 hwb
    (bookingRefundFields_hasUndefined refundData refundId ha hri)
  have hs2 := afterUpdate_store_other env "movie_bookings" b
    (bookingRefundFields refundData refundId false) w2 "refund_requests" rid (by simp)
  have hl2 := afterUpdate_log env "movie_bookings" b
    (bookingRefundFields refundData refundId false) w2
  generalize World.afterUpdate env "movie_bookings" b
    (bookingRefundFields refundData refundId false) w2 = w3 at h2 hs2 hl2
  have hd3 : w3.store "refund_requests" rid = some (refundData.merge
      (processedFields (adminNotesOf data) refundData refundId refundStatus false .null)) := by
    rw [hs2, hs1]
  have hfu : (failedFields "NOT_FOUND: No document to update").hasUndefined = false := by
    simp [failedFields, Doc.hasUndefined]
  have h3 := refUpdate_run_ok env "refund_requests" rid
    (failedFields "NOT_FOUND: No document to update") w3 _ hd3 hwf hfu
  have hs3 := afterUpdate_store_same env "refund_requests" rid
    (failedFields "NOT_FOUND: No document to update") w3 _ hd3 hwf hfu
  have hl3 := afterUpdate_log env "refund_requests" rid
    (failedFields "NOT_FOUND: No document to update") w3
  have hfin : (finishRefund env rid (adminNotesOf data) refundData false .null).run wr =
      (.error (.error "NOT_FOUND: No document to update"), w3) := by
    unfold finishRefund
    simp only [Js.run_bind, Js.run_emit, hgw, Js.run_ofExcept_ok]
    have h1' : (refUpdate env "refund_requests" rid
        (processedFields (adminNotesOf data) refundData refundId refundStatus false .null)).run
        { store := wr.store,
          log := wr.log ++ [.refund (refundData.get "paymentId")
            (toPaise (refundData.get "amount"))] } = (.ok (), w2) := h1
    rw [h1']
    simp only [hb, docRef, hbne, if_false, Js.run_pure, h2]
  refine ⟨w3.afterUpdate env "refund_requests" rid
    (failedFields "NOT_FOUND: No document to update"), ?_, ?_, hs3⟩
  · rw [processMovieBookingRefund_approve_run env data w rid keyId keySecret refundData hid hne
      hact hrf hdoc hst hkey hkey1 hsec hsec1, approveRefundBody_eq, Js.run_bind, hr]
    simp only [hfin, JsError.message, h3]
    rfl
  · apply newEvents_of_log
    rw [hl3, hl2, hl1]
    simp [World.logged, hlr]

/-- C15, the code at the failing input: approving the pending request `r1`, whose booking
document does not exist, the gateway accepts the refund of 11200 paise and the run then
writes the request twice, first with status `processed` and, after the update of the
booking has failed, with status `failed`; the request ends in status `failed` and the
caller receives an error. -/
theorem processMovieBookingRefund_status_written_twice :
    ∃ w1 f1 f2 d1, (processMovieBookingRefund okEnv approveRequest).run pendingRefundWorld =
        (.error (.https "internal"
          "Refund processing failed: NOT_FOUND: No document to update"), w1) ∧
      (newEvents pendingRefundWorld w1).filter Event.isRefund =
        [.refund (.str "pay_Y") (.fin 11200)] ∧
      (newEvents pendingRefundWorld w1).filter (Event.isWriteTo "refund_requests") =
        [.write "refund_requests" "r1" f1, .write "refund_requests" "r1" f2] ∧
      f1.get "status" = .str "processed" ∧
      f2.get "status" = .str "failed" ∧
      w1.store "refund_requests" "r1" = some d1 ∧
      d1.get "status" = .str "failed" := by
  obtain ⟨w1, hrun, hev, hst⟩ :=
    processMovieBookingRefund_booking_missing okEnv approveRequest pendingRefundWorld "r1"
      "rzp_key" "rzp_secret" "b1" refundOf112 (.str "rfnd_1") (.str "processed")
      (by rfl) (by decide) (by rfl) (by rfl) (by simp [pendingRefundWorld, oneDocWorld]) (by rfl)
      (by decide) (by rfl) (by decide) (by rfl) (by decide) (Or.inl (by rfl)) (by rfl)
      (by simp) (by simp) (by rfl) (by rfl) (by decide)
      (by simp [pendingRefundWorld, oneDocWorld]) (by rfl)
  have hrc : recoveryCalls okEnv pendingRefundWorld refundOf112 = [] := by rfl
  have hp : refundOf112.get "paymentId" = .str "pay_Y" := by rfl
  have ham : refundOf112.get "amount" = .num (.fin 112) := by rfl
  refine ⟨w1,
    processedFields (adminNotesOf approveRequest) refundOf112 (.str "rfnd_1") (.str "processed")
      false .null,
    failedFields "NOT_FOUND: No document to update",
    (refundOf112.merge (processedFields (adminNotesOf approveRequest) refundOf112
      (.str "rfnd_1") (.str "processed") false .null)).merge
        (failedFields "NOT_FOUND: No document to update"),
    hrun, ?_, ?_, ?_, ?_, hst, ?_⟩
  · rw [hev, hrc, hp, ham, toPaise_112]
    rfl
  · rw [hev, hrc]
    rfl
  · simp [processedFields, Doc.get, List.lookup]
  · simp [failedFields, Doc.get, List.lookup]
  · simp [failedFields, Doc.merge, Doc.get, List.lookup]

/-! ## Theorems on the bounds of the payout amount -/

theorem toPaise_600 : toPaise (.num (.fin 600)) = .fin 60000 := by
  have h := toPaise_cents 60000 (by norm_num)
  norm_num at h
  exact h

/-- C21, amended: for every Online, confirmed, not yet settled booking with a positive total
`t`, a payment id and a valid owner account that is paid out, the total in paise
`Math.round(t * 100)` is not negative, the single gateway call is a transfer of
`Math.round(p * 100)` paise for the stored ticket price `p`, and the settlement record
holds the platform profit `t - p`.  The handler does not bound `p`: the transferred
amount is at least 0 when `0 ≤ p` and at most `Math.round(t * 100)` when `p ≤ t`, and the
platform profit is not negative exactly when `p ≤ t`. -/
theorem onMovieBookingCreated_payout_bounds (env : Env) (bookingId : String) (data : Doc)
    (w : World) (t p : ℚ) (acc keyId keySecret : String) (resp : JsVal)
    (hm : data.get "paymentMethod" = .str "Online")
    (hs : data.get "status" = .str "confirmed")
    (hp : data.get "payoutStatus" ≠ .str "settled")
    (ht : parseFloat (data.get "totalAmount") = .fin t) (htpos : 0 < t)
    (hprice : parseFloat (data.get "actualTicketPrice") = .fin p)
    (hpay : (data.get "razorpayPaymentId").truthy = true)
    (hacc : accountAfterResolution env w data = .str acc) (hpre : startsWith acc "acc_" = true)
    (hkey : env.razorpayKeyId = some keyId) (hkey1 : keyId ≠ "")
    (hsec : env.razorpayKeySecret = some keySecret) (hsec1 : keySecret ≠ "")
    (hgw : env.paymentTransfer (data.get "razorpayPaymentId") (.str acc)
      (toPaise (.num (.fin p))) = .ok resp)
    (hw2 : env.writeFault "movie_booking_settlements" bookingId = none) :
    ∃ w1 rec, (onMovieBookingCreated env bookingId data).run w = (.ok (), w1) ∧
      (newEvents w w1).filter Event.isGatewayCall =
        [.transfer (data.get "razorpayPaymentId") (.str acc) (toPaise (.num (.fin p)))] ∧
      w1.store "movie_booking_settlements" bookingId = some rec ∧
      rec.get "total_paid" = .num (.fin t) ∧
      rec.get "platform_profit" = .num (.fin (t - p)) ∧
      (JsNum.fin 0).le (toPaise (.num (.fin t))) = true ∧
      (0 ≤ p → (JsNum.fin 0).le (toPaise (.num (.fin p))) = true) ∧
      (p ≤ t → (toPaise (.num (.fin p))).le (toPaise (.num (.fin t))) = true) ∧
      (0 ≤ t - p ↔ p ≤ t) := by
  have hrun := payout_run_eq env bookingId data w t p acc keyId keySecret
    resp hm hs hp ht htpos hprice hpay hacc hpre hkey hkey1 hsec hsec1 hgw hw2
  have hev : (newEvents w (payoutWorld env bookingId data t p acc w)).filter
      Event.isGatewayCall =
      [.transfer (data.get "razorpayPaymentId") (.str acc) (toPaise (.num (.fin p)))] := by
    simp [newEvents, payoutWorld, afterUpdate_log, World.logged, Event.isGatewayCall,
      List.filter]
  refine ⟨payoutWorld env bookingId data t p acc w, _, hrun, hev,
    payoutWorld_settlement env bookingId data t p acc w, ?_, ?_,
    (toPaise_le t t htpos.le (le_refl t)).2, fun h0 => (toPaise_le p p h0 (le_refl p)).2,
    fun hpt => (toPaise_le p t htpos.le hpt).1, sub_nonneg⟩
  · simp [Doc.get, List.lookup]
  · simp [Doc.get, List.lookup, companyProfit, toNumber, JsNum.sub]

/-- Witness of C21, amended: total 500 and ticket price 440 give a transfer of 44000 paise,
between 0 and the 50000 paise of the total, and the platform profit 60. -/
theorem onMovieBookingCreated_payout_bounds_witness :
    ∃ w1 rec, (onMovieBookingCreated okEnv "b1" paidBooking).run
        (oneDocWorld "movie_bookings" "b1" paidBooking) = (.ok (), w1) ∧
      (newEvents (oneDocWorld "movie_bookings" "b1" paidBooking) w1).filter
        Event.isGatewayCall = [.transfer (.str "pay_Y") (.str "acc_X") (.fin 44000)] ∧
      toPaise (.num (.fin 500)) = .fin 50000 ∧
      (JsNum.fin 0).le (.fin 44000) = true ∧
      (JsNum.fin 44000).le (.fin 50000) = true ∧
      w1.store "movie_booking_settlements" "b1" = some rec ∧
      rec.get "platform_profit" = .num (.fin 60) := by
  obtain ⟨w1, rec, hrun, hev, hr, _, hpp, _, h0, hle, _⟩ :=
    onMovieBookingCreated_payout_bounds okEnv "b1" paidBooking
      (oneDocWorld "movie_bookings" "b1" paidBooking) 500 440 "acc_X" "rzp_key" "rzp_secret"
      (.str "trf_1") (by rfl) (by rfl) (by decide) (by rfl) (by norm_num) (by rfl)
      (by decide) (by rfl) (by decide) (by rfl) (by decide) (by rfl) (by decide) (by rfl)
      (by rfl)
  have h0' := h0 (by norm_num)
  have hle' := hle (by norm_num)
  rw [toPaise_440] at hev h0' hle'
  rw [toPaise_500] at hle'
  refine ⟨w1, rec, hrun, ?_, toPaise_500, h0', hle', hr, ?_⟩
  · rw [hev]
    rfl
  · rw [hpp]
    norm_num

/-- C21, counterexample: with total 500 and ticket price 600, `onMovieBookingCreated` pays
out: its single gateway call is a transfer of 60000 paise, which is not at most the 50000
paise of the total, and the settlement record holds the platform profit -100; with total
500 and ticket price -440 the handler pays out as well and the transfer amount is -44000
paise, which is not at least 0. -/
theorem overpriced_payout_counterexample :
    parseFloat (overpricedBooking.get "totalAmount") = .fin 500 ∧
    parseFloat (overpricedBooking.get "actualTicketPrice") = .fin 600 ∧
    toPaise (overpricedBooking.get "totalAmount") = .fin 50000 ∧
    (∃ w1 rec, (onMovieBookingCreated okEnv "b1" overpricedBooking).run
        (oneDocWorld "movie_bookings" "b1" overpricedBooking) = (.ok (), w1) ∧
      (newEvents (oneDocWorld "movie_bookings" "b1" overpricedBooking) w1).filter
        Event.isGatewayCall = [.transfer (.str "pay_Y") (.str "acc_X") (.fin 60000)] ∧
      w1.store "movie_booking_settlements" "b1" = some rec ∧
      rec.get "total_paid" = .num (.fin 500) ∧
      rec.get "platform_profit" = .num (.fin (-100))) ∧
    (JsNum.fin 60000).le (.fin 50000) = false ∧
    (∃ w1, (onMovieBookingCreated okEnv "b1" negativePriceBooking).run
        (oneDocWorld "movie_bookings" "b1" negativePriceBooking) = (.ok (), w1) ∧
      (newEvents (oneDocWorld "movie_bookings" "b1" negativePriceBooking) w1).filter
        Event.isGatewayCall = [.transfer (.str "pay_Y") (.str "acc_X") (.fin (-44000))]) ∧
    (JsNum.fin 0).le (.fin (-44000)) = false := by
  refine ⟨by rfl, by rfl, toPaise_500, ?_, by decide, ?_, by decide⟩
  · refine ⟨_, _, payout_run_eq okEnv "b1" overpricedBooking
        (oneDocWorld "movie_bookings" "b1" overpricedBooking) 500 600 "acc_X" "rzp_key"
        "rzp_secret" (.str "trf_1") (by rfl) (by rfl) (by decide) (by rfl) (by norm_num)
        (by rfl) (by decide) (by rfl) (by decide) (by rfl) (by decide) (by rfl) (by decide)
        (by rfl) (by rfl), ?_,
      payoutWorld_settlement okEnv "b1" overpricedBooking 500 600 "acc_X" _, ?_, ?_⟩
    · have hp : overpricedBooking.get "razorpayPaymentId" = .str "pay_Y" := by rfl
      simp [newEvents, payoutWorld, afterUpdate_log, World.logged, oneDocWorld,
        Event.isGatewayCall, List.filter, toPaise_600, hp]
    · simp [Doc.get, List.lookup]
    · simp [Doc.get, List.lookup, companyProfit, toNumber, JsNum.sub]
      norm_num
  · refine ⟨_, payout_run_eq okEnv "b1" negativePriceBooking
        (oneDocWorld "movie_bookings" "b1" negativePriceBooking) 500 (-440) "acc_X" "rzp_key"
        "rzp_secret" (.str "trf_1") (by rfl) (by rfl) (by decide) (by rfl) (by norm_num)
        (by rfl) (by decide) (by rfl) (by decide) (by rfl) (by decide) (by rfl) (by decide)
        (by rfl) (by rfl), ?_⟩
    have hp : negativePriceBooking.get "razorpayPaymentId" = .str "pay_Y" := by rfl
    simp [newEvents, payoutWorld, afterUpdate_log, World.logged, oneDocWorld,
      Event.isGatewayCall, List.filter, toPaise_neg_440, hp]

/-! ## Theorems on a refund whose notification is rejected -/

theorem sendNotificationToUser_rejected (env : Env) (u title m : String) (w : World)
    (userData : Doc) (hu : u ≠ "") (hrf : env.readFault "users" u = none)
    (hud : w.store "users" u = some userData)
    (htok : (userData.get "fcmToken").truthy = true)
    (hsend : env.messagingSend (userData.get "fcmToken") = some m) :
    (sendNotificationToUser env (.str u) title).run w =
      (.error (.error m), w.logged (.notify (userData.get "fcmToken") title)) := by
  unfold sendNotificationToUser
  simp [Js.run_tryCatch, Js.run_bind, docGet_run_str env "users" u w hu, hrf, hud, htok, hsend,
    World.logged]

/-- The run of an approval whose refund the gateway accepts and whose notification the
messaging service rejects: the request is updated to `processed`, the booking is updated,
the notification throws, and the `catch` of the approval updates the request again, to
`failed`. -/
theorem processMovieBookingRefund_notify_rejected (env : Env) (data : Doc) (w : World)
    (rid keyId keySecret b u m : String) (refundData bk userData : Doc)
    (refundId refundStatus : JsVal)
    (hid : data.get "refundRequestId" = .str rid) (hne : rid ≠ "")
    (hact : data.get "action" = .str "approve")
    (hrf : env.readFault "refund_requests" rid = none)
    (hdoc : w.store "refund_requests" rid = some refundData)
    (hst : refundData.get "status" = .str "pending")
    (ha : refundData.get "amount" ≠ .undefined)
    (hkey : env.razorpayKeyId = some keyId) (hkey1 : keyId ≠ "")
    (hsec : env.razorpayKeySecret = some keySecret) (hsec1 : keySecret ≠ "")
    (hrec : recoveryAccount env w refundData = none ∨
      ∃ acc m, recoveryAccount env w refundData = some acc ∧
        env.transfersCreate acc (toPaise (refundTicketPrice refundData)) = .error m)
    (hgw : env.paymentRefund (refundData.get "paymentId") (toPaise (refundData.get "amount")) =
      .ok (refundId, refundStatus))
    (hri : refundId ≠ .undefined) (hrs : refundStatus ≠ .undefined)
    (hwf : env.writeFault "refund_requests" rid = none)
    (hb : refundData.get "bookingId" = .str b) (hbne : b ≠ "")
    (hbk : w.store "movie_bookings" b = some bk)
    (hwb : env.writeFault "movie_bookings" b = none)
    (hu : refundData.get "userId" = .str u) (hune : u ≠ "")
    (hru : env.readFault "users" u = none)
    (hud : w.store "users" u = some userData)
    (htok : (userData.get "fcmToken").truthy = true)
    (hsend : env.messagingSend (userData.get "fcmToken") = some m) :
    ∃ w1, (processMovieBookingRefund env data).run w =
        (.error (.https "internal" ("Refund processing failed: " ++ m)), w1) ∧
      newEvents w w1 = recoveryCalls env w refundData ++
        [.refund (refundData.get "paymentId") (toPaise (refundData.get "amount")),
         .write "refund_requests" rid
           (processedFields (adminNotesOf data) refundData refundId refundStatus false .null),
         .write "movie_bookings" b (bookingRefundFields refundData refundId false),
         .notify (userData.get "fcmToken") "Refund Processed Successfully",
         .write "refund_requests" rid (failedFields m)] ∧
      w1.store "refund_requests" rid =
        some ((refundData.merge (processedFields (adminNotesOf data) refundData refundId
          refundStatus false .null)).merge (failedFields m)) ∧
      w1.store "movie_bookings" b =
        some (bk.merge (bookingRefundFields refundData refundId false)) := by
  obtain ⟨wr, hr, hstore, hlr⟩ := recoverFromTheatreOwner_failed env refundData w hrec
  have hpu := processedFields_hasUndefined (adminNotesOf data) refundData refundId refundStatus
    (adminNotesOf_ne_undefined data) ha hri hrs
  have hdr : (wr.logged (.refund (refundData.get "paymentId")
      (toPaise (refundData.get "amount")))).store "refund_requests" rid = some refundData := by
    show wr.store "refund_requests" rid = some refundData
    rw [hstore, hdoc]
  have h1 := refUpdate_run_ok env "refund_requests" rid
    (processedFields (adminNotesOf data) refundData refundId refundStatus false .null)
    (wr.logged (.refund (refundData.get "paymentId") (toPaise (refundData.get "amount"))))
    refundData hdr hwf hpu
  have hs1 := afterUpdate_store_same env "refund_requests" rid
    (processedFields (adminNotesOf data) refundData refundId refundStatus false .null)
    (wr.logged (.refund (refundData.get "paymentId") (toPaise (refundData.get "amount"))))
    refundData hdr hwf hpu
  have hs1b := afterUpdate_store_other env "refund_requests" rid
    (processedFields (adminNotesOf data) refundData refundId refundStatus false .null)
    (wr.logged (.refund (refundData.get "paymentId") (toPaise (refundData.get "amount"))))
    "movie_bookings" b (by simp)
  have hs1u := afterUpdate_store_other env "refund_requests" rid
    (processedFields (adminNotesOf data) refundData refundId refundStatus false .null)
    (wr.logged (.refund (refundData.get "paymentId") (toPaise (refundData.get "amount"))))
    "users" u (by simp)
  have hl1 := afterUpdate_log env "refund_requests" rid
    (processedFields (adminNotesOf data) refundData refundId refundStatus false .null)
    (wr.logged (.refund (refundData.get "paymentId") (toPaise (refundData.get "amount"))))
  generalize World.afterUpdate env "refund_requests" rid
    (processedFields (adminNotesOf data) refundData refundId refundStatus false .null)
    (wr.logged (.refund (refundData.get "paymentId") (toPaise (refundData.get "amount")))) = w2
    at h1 hs1 hs1b hs1u hl1
  have hbk2 : w2.store "movie_bookings" b = some bk := by
    rw [hs1b]
    show wr.store "movie_bookings" b = some bk
    rw [hstore, hbk]
  have hbu := bookingRefundFields_hasUndefined refundData refundId ha hri
  have h2 := refUpdate_run_ok env "movie_bookings" b
    (bookingRefundFields refundData refundId false) w2 bk hbk2 hwb hbu
  have hs2 := afterUpdate_store_other env "movie_bookings" b
    (bookingRefundFields refundData refundId false) w2 "refund_requests" rid (by simp)
  have hs2u := afterUpdate_store_other env "movie_bookings" b
    (bookingRefundFields refundData refundId false) w2 "users" u (by simp)
  have hs2b := afterUpdate_store_same env "movie_bookings" b
    (bookingRefundFields refundData refundId false) w2 bk hbk2 hwb hbu
  have hl2 := afterUpdate_log env "movie_bookings" b
    (bookingRefundFields refundData refundId false) w2
  generalize World.afterUpdate env "movie_bookings" b
    (bookingRefundFields refundData refundId false) w2 = w3 at h2 hs2 hs2u hs2b hl2
  have hud3 : w3.store "users" u = some userData := by
    rw [hs2u, hs1u]
    show wr.store "users" u = some userData
    rw [hstore, hud]
  have h3 := sendNotificationToUser_rejected env u "Refund Processed Successfully" m w3
    userData hune hru hud3 htok hsend
  have hd4 : (w3.logged (.notify (userData.get "fcmToken")
      "Refund Processed Successfully")).store "refund_requests" rid = some (refundData.merge
      (processedFields (adminNotesOf data) refundData refundId refundStatus false .null)) := by
    show w3.store "refund_requests" rid = _
    rw [hs2, hs1]
  have hfu : (failedFields m).hasUndefined = false := by
    simp [failedFields, Doc.hasUndefined]
  have h4 := refUpdate_run_ok env "refund_requests" rid (failedFields m)
    (w3.logged (.notify (userData.get "fcmToken") "Refund Processed Successfully")) _ hd4 hwf hfu
  have hs4 := afterUpdate_store_same env "refund_requests" rid (failedFields m)
    (w3.logged (.notify (userData.get "fcmToken") "Refund Processed Successfully")) _ hd4 hwf hfu
  have hs4b := afterUpdate_store_other env "refund_requests" rid (failedFields m)
    (w3.logged (.notify (userData.get "fcmToken") "Refund Processed Successfully"))
    "movie_bookings" b (by simp)
  have hl4 := afterUpdate_log env "refund_requests" rid (failedFields m)
    (w3.logged (.notify (userData.get "fcmToken") "Refund Processed Successfully"))
  have hfin : (finishRefund env rid (adminNotesOf data) refundData false .null).run wr =
      (.error (.error m),
        w3.logged (.notify (userData.get "fcmToken") "Refund Processed Successfully")) := by
    unfold finishRefund
    simp only [Js.run_bind, Js.run_emit, hgw, Js.run_ofExcept_ok]
    have h1' : (refUpdate env "refund_requests" rid
        (processedFields (adminNotesOf data) refundData refundId refundStatus false .null)).run
        { store := wr.store,
          log := wr.log ++ [.refund (refundData.get "paymentId")
            (toPaise (refundData.get "amount"))] } = (.ok (), w2) := h1
    rw [h1']
    simp only [hb, docRef, hbne, if_false, Js.run_pure, h2, hu, h3]
  refine ⟨(w3.logged (.notify (userData.get "fcmToken")
    "Refund Processed Successfully")).afterUpdate env "refund_requests" rid (failedFields m),
    ?_, ?_, hs4, ?_⟩
  · rw [processMovieBookingRefund_approve_run env data w rid keyId keySecret refundData hid hne
      hact hrf hdoc hst hkey hkey1 hsec hsec1, approveRefundBody_eq, Js.run_bind, hr]
    simp only [hfin, JsError.message, h4]
  · apply newEvents_of_log
    rw [hl4]
    show w3.log ++ _ ++ _ = _
    rw [hl2, hl1]
    simp [World.logged, hlr]
  · rw [hs4b]
    show w3.store "movie_bookings" b = _
    exact hs2b

/-- C12, the code at the failing input: approving the pending request `r1` of 112, whose
recovery lookup finds no account, the gateway accepts the refund of 11200 paise and no
reverse transfer is attempted; the booking `b1` is updated to refund status `processed`,
the notification of the user is rejected, and the request ends in status `failed`, not
`processed`; the caller receives an error. -/
theorem processMovieBookingRefund_refunded_but_failed :
    recoveryAccount notifyRejectingEnv refundWithUserWorld refundOf112 = none ∧
    ∃ w1 d1 bk1, (processMovieBookingRefund notifyRejectingEnv approveRequest).run
        refundWithUserWorld =
        (.error (.https "internal"
          "Refund processing failed: data must only contain string values"), w1) ∧
      (newEvents refundWithUserWorld w1).filter Event.isRefund =
        [.refund (.str "pay_Y") (.fin 11200)] ∧
      (newEvents refundWithUserWorld w1).filter Event.isReverseTransfer = [] ∧
      w1.store "refund_requests" "r1" = some d1 ∧
      d1.get "status" = .str "failed" ∧
      w1.store "movie_bookings" "b1" = some bk1 ∧
      bk1.get "refundStatus" = .str "processed" := by
  have hrc : recoveryAccount notifyRejectingEnv refundWithUserWorld refundOf112 = none := by
    rfl
  refine ⟨hrc, ?_⟩
  obtain ⟨w1, hrun, hev, hst, hbk⟩ :=
    processMovieBookingRefund_notify_rejected notifyRejectingEnv approveRequest
      refundWithUserWorld "r1" "rzp_key" "rzp_secret" "b1" "u1"
      "data must only contain string values" refundOf112
      [("paymentMethod", .str "Online"), ("status", .str "cancelled"),
        ("totalAmount", .num (.fin 112)), ("actualTicketPrice", .num (.fin 100))]
      [("fcmToken", .str "tok_1")] (.str "rfnd_1") (.str "processed")
      (by rfl) (by decide) (by rfl) (by rfl) (by simp [refundWithUserWorld]) (by rfl)
      (by decide) (by rfl) (by decide) (by rfl) (by decide) (Or.inl hrc) (by rfl)
      (by simp) (by simp) (by rfl) (by rfl) (by decide)
      (by simp [refundWithUserWorld]) (by rfl) (by rfl) (by decide) (by rfl)
      (by simp [refundWithUserWorld]) (by rfl) (by rfl)
  have hcalls : recoveryCalls notifyRejectingEnv refundWithUserWorld refundOf112 = [] := by
    simp [recoveryCalls, hrc]
  have hp : refundOf112.get "paymentId" = .str "pay_Y" := by rfl
  have ham : refundOf112.get "amount" = .num (.fin 112) := by rfl
  refine ⟨w1, _, _, hrun, ?_, ?_, hst, ?_, hbk, ?_⟩
  · rw [hev, hcalls, hp, ham, toPaise_112]
    rfl
  · rw [hev, hcalls]
    rfl
  · simp [failedFields, Doc.merge, Doc.get, List.lookup]
  · simp [bookingRefundFields, Doc.merge, Doc.get, List.lookup]

end BookTheMov
